import Mathlib

/-! # Verification development for the aquarium demo and the WebGL coursework

Shallow embedding of the JavaScript / GLSL sources.  Numbers (JavaScript doubles,
GLSL floats) are modelled as rationals; the transcendental library functions
(`sqrt`, `sin`, `cos`, `tan`, `atan2`) are not definable over the rationals and
are taken as a parameter `MathFns`, so every statement below holds for every
interpretation of them that meets the hypotheses stated in the theorem.
-/

set_option autoImplicit false

/-! ## Vectors and the numeric library -/

/-- Library functions of the host language that have no rational definition. -/
structure MathFns where
  sqrt : ℚ → ℚ
  sin : ℚ → ℚ
  cos : ℚ → ℚ
  tan : ℚ → ℚ
  atan2 : ℚ → ℚ → ℚ

/-- Exact square root on rational squares (floor of numerator and denominator otherwise);
the remaining functions are constant.  Used to evaluate the embedding on concrete inputs. -/
def ratMath : MathFns where
  sqrt := Rat.sqrt
  sin := fun _ => 0
  cos := fun _ => 1
  tan := fun _ => 0
  atan2 := fun _ _ => 0

/-- Two-component vector (`vec2`, `THREE.Vector2`). -/
@[ext] structure Vec2 where
  x : ℚ
  y : ℚ
deriving DecidableEq, Repr

/-- Three-component vector (`vec3`, `THREE.Vector3`, `THREE.Color`). -/
@[ext] structure Vec3 where
  x : ℚ
  y : ℚ
  z : ℚ
deriving DecidableEq, Repr

/-- Four-component vector (`vec4`, `THREE.Vector4`); for plane bounds
`x = minX, y = minZ, z = maxX, w = maxZ`. -/
@[ext] structure Vec4 where
  x : ℚ
  y : ℚ
  z : ℚ
  w : ℚ
deriving DecidableEq, Repr

namespace Vec2

def add (a b : Vec2) : Vec2 := ⟨a.x + b.x, a.y + b.y⟩
def sub (a b : Vec2) : Vec2 := ⟨a.x - b.x, a.y - b.y⟩
def scale (a : Vec2) (k : ℚ) : Vec2 := ⟨a.x * k, a.y * k⟩
def dot (a b : Vec2) : ℚ := a.x * b.x + a.y * b.y
def length (m : MathFns) (a : Vec2) : ℚ := m.sqrt (a.x * a.x + a.y * a.y)
/-- GLSL `vec2(s)`. -/
def splat (s : ℚ) : Vec2 := ⟨s, s⟩

end Vec2

namespace Vec3

def zero : Vec3 := ⟨0, 0, 0⟩
/-- GLSL `vec3(s)`. -/
def splat (s : ℚ) : Vec3 := ⟨s, s, s⟩
def add (a b : Vec3) : Vec3 := ⟨a.x + b.x, a.y + b.y, a.z + b.z⟩
def sub (a b : Vec3) : Vec3 := ⟨a.x - b.x, a.y - b.y, a.z - b.z⟩
def neg (a : Vec3) : Vec3 := ⟨-a.x, -a.y, -a.z⟩
/-- Multiplication by a scalar. -/
def scale (a : Vec3) (k : ℚ) : Vec3 := ⟨a.x * k, a.y * k, a.z * k⟩
/-- Division by a scalar. -/
def divScalar (a : Vec3) (k : ℚ) : Vec3 := ⟨a.x / k, a.y / k, a.z / k⟩
/-- Component-wise product (GLSL `a * b` on vectors). -/
def mul (a b : Vec3) : Vec3 := ⟨a.x * b.x, a.y * b.y, a.z * b.z⟩
def dot (a b : Vec3) : ℚ := a.x * b.x + a.y * b.y + a.z * b.z
def cross (a b : Vec3) : Vec3 :=
  ⟨a.y * b.z - a.z * b.y, a.z * b.x - a.x * b.z, a.x * b.y - a.y * b.x⟩
def length (m : MathFns) (a : Vec3) : ℚ := m.sqrt (a.x * a.x + a.y * a.y + a.z * a.z)
/-- GLSL `normalize`: `v / length(v)`. -/
def normalize (m : MathFns) (a : Vec3) : Vec3 := a.divScalar (a.length m)
/-- GLSL `mix(a, b, t) = a * (1 - t) + b * t`. -/
def mix (a b : Vec3) (t : ℚ) : Vec3 := (a.scale (1 - t)).add (b.scale t)
/-- GLSL `reflect(I, N) = I - 2 * dot(N, I) * N`. -/
def reflect (i n : Vec3) : Vec3 := i.sub (n.scale (2 * dot n i))
/-- GLSL `refract(I, N, eta)`. -/
def refract (m : MathFns) (i n : Vec3) (eta : ℚ) : Vec3 :=
  let k := 1 - eta * eta * (1 - dot n i * dot n i)
  if k < 0 then zero else (i.scale eta).sub (n.scale (eta * dot n i + m.sqrt k))

end Vec3

/-! ## `officialPathTracer.js`: frame accumulation and ping-pong targets -/

namespace OfficialPathTracer

/-- The part of `THREE.PerspectiveCamera` read by `render`. -/
structure Camera where
  position : Vec3
  worldDirection : Vec3
  fov : ℚ
deriving DecidableEq, Repr

/-- Ghost record of one executed frame: which accumulation target was bound as
`uAccumTexture` (`src`) and which was bound as render target (`dst`). -/
structure Frame where
  src : Int
  dst : Int
deriving DecidableEq, Repr

/-- State of an `OfficialPathTracer` as far as `reset` and `render` touch it.  A render target
is represented by the colour it holds at one fixed pixel.  `frames` is a ghost log, most recent
frame first. -/
structure State where
  camera : Option Camera
  samples : Nat
  maxBounces : Int
  currentAccumIndex : Int
  accum0 : Vec3
  accum1 : Vec3
  screen : Vec3
  frames : List Frame
deriving DecidableEq, Repr

/-- `this.accumTargets[i]`: the array has exactly the two entries 0 and 1. -/
def State.getTarget (s : State) (i : Int) : Option Vec3 :=
  if i = 0 then some s.accum0 else if i = 1 then some s.accum1 else none

/-- `renderer.setRenderTarget(this.accumTargets[i]); renderer.render(...)` storing colour `c`. -/
def State.setTarget (s : State) (i : Int) (c : Vec3) : Option State :=
  if i = 0 then some { s with accum0 := c }
  else if i = 1 then some { s with accum1 := c }
  else none

/-- The state built by the constructor (lines 9-43); fresh render targets hold zeros. -/
def init : State where
  camera := none
  samples := 0
  maxBounces := 4
  currentAccumIndex := 0
  accum0 := Vec3.zero
  accum1 := Vec3.zero
  screen := Vec3.zero
  frames := []

def setCamera (s : State) (camera : Option Camera) : State := { s with camera := camera }

/-- `reset()` (lines 601-608): the sample counter returns to 0 and both targets are cleared. -/
def reset (s : State) : State :=
  { s with samples := 0, accum0 := Vec3.zero, accum1 := Vec3.zero }

/-- `setSize` reallocates both targets; their previous contents are lost. -/
def setSize (s : State) (_width _height : ℚ) : State :=
  { s with accum0 := Vec3.zero, accum1 := Vec3.zero }

/-- Lines 474-479 of the fragment shader: blend the stored colour with the new sample. -/
def accumulate (uSamples : ℚ) (oldColor newColor : Vec3) : Vec3 :=
  let weight := 1 / (uSamples + 1)
  Vec3.mix oldColor newColor weight

/-- `render()` (lines 610-645).  `newColor` is the value of `traceRay` (line 472) at the pixel
for this frame.  `none` stands for the exception raised by indexing outside `accumTargets`. -/
def render (s : State) (newColor : Vec3) : Option State :=
  match s.camera with
  | none => some s
  | some _ =>
    let samples := s.samples + 1
    let srcIndex := s.currentAccumIndex
    let dstIndex := 1 - s.currentAccumIndex
    match s.getTarget srcIndex with
    | none => none
    | some oldColor =>
      let finalColor := accumulate (samples : ℚ) oldColor newColor
      match State.setTarget { s with samples := samples } dstIndex finalColor with
      | none => none
      | some s1 =>
        some { s1 with
          screen := finalColor
          currentAccumIndex := dstIndex
          frames := ⟨srcIndex, dstIndex⟩ :: s.frames }

/-- The colour held by the most recently written accumulation target. -/
def State.accumulated (s : State) : Option Vec3 := s.getTarget s.currentAccumIndex

/-- Calls a client can make on the tracer.  `setScene` replaces the scene and refreshes the
geometry uniforms; it touches none of the fields of `State`. -/
inductive Op where
  | setCamera (camera : Option Camera)
  | setSize (width height : ℚ)
  | setScene
  | reset
  | render (newColor : Vec3)
deriving DecidableEq, Repr

def step (s : State) : Op → Option State
  | .setCamera c => some (setCamera s c)
  | .setSize w h => some (setSize s w h)
  | .setScene => some s
  | .reset => some (reset s)
  | .render c => render s c

/-- Run a sequence of calls, failing as soon as one of them fails. -/
def run (s : State) : List Op → Option State
  | [] => some s
  | op :: ops => (step s op).bind (fun s1 => run s1 ops)

/-- `reset()` followed by one `render()` per colour of the list. -/
def resetThenRender (s : State) (colors : List Vec3) : Option State :=
  run (reset s) (colors.map Op.render)

/-- Component-wise sum of a list of colours. -/
def sumColors : List Vec3 → Vec3
  | [] => Vec3.zero
  | c :: cs => c.add (sumColors cs)

/-- Arithmetic mean of a list of colours. -/
def meanColor (cs : List Vec3) : Vec3 := (sumColors cs).divScalar (cs.length : ℚ)

/-- Ghost-log invariant: the newest frame wrote the current target, every frame read a target
different from the one it wrote, and each frame read what the frame before it wrote. -/
def FramesLinked : Int → List Frame → Prop
  | _, [] => True
  | cur, f :: fs => f.dst = cur ∧ f.src ≠ f.dst ∧ FramesLinked f.src fs

/-- Invariant of the tracer state: the index is 0 or 1 and the frame log is linked. -/
def Inv (s : State) : Prop :=
  (s.currentAccumIndex = 0 ∨ s.currentAccumIndex = 1) ∧ FramesLinked s.currentAccumIndex s.frames

/-- A camera used to evaluate the tracer on concrete inputs. -/
def cam0 : Camera := ⟨⟨0, 0, 10⟩, ⟨0, 0, -1⟩, 60⟩

end OfficialPathTracer

/-! ## `object.js`: scene constants -/

def TANK_WIDTH : ℚ := 10
def TANK_DEPTH : ℚ := 10
def WATER_TOP : ℚ := 10
def FLOOR_Y : ℚ := -75
def LEG_BOTTOM_Y : ℚ := FLOOR_Y
def LEG_TOP_Y_ORIG : ℚ := 5
def TABLE_THICKNESS : ℚ := 1 / 2
def ORIGINAL_TABLE_TOP_SURFACE_Y : ℚ := LEG_TOP_Y_ORIG + TABLE_THICKNESS
def ORIGINAL_TABLE_HEIGHT : ℚ := ORIGINAL_TABLE_TOP_SURFACE_Y - FLOOR_Y
def NEW_TABLE_HEIGHT : ℚ := ORIGINAL_TABLE_HEIGHT * (1 / 2)
def TABLE_TOP_SURFACE_Y : ℚ := FLOOR_Y + NEW_TABLE_HEIGHT
def LEG_TOP_Y : ℚ := TABLE_TOP_SURFACE_Y - TABLE_THICKNESS
def TABLE_HEIGHT : ℚ := TABLE_TOP_SURFACE_Y - FLOOR_Y
def TANK_BOTTOM_Y : ℚ := TABLE_TOP_SURFACE_Y

/-! ## The scene graph as seen by `updateSceneData` -/

/-- The fields of a three.js material that `updateSceneData` reads; a field the material class
does not define is `none` (JavaScript `undefined`). -/
structure Material where
  color : Option Vec3
  roughness : Option ℚ
  transmission : Option ℚ
  opacity : Option ℚ
  hasMap : Bool
deriving DecidableEq, Repr

/-- The `material` property of an object: absent, one material, or a non-empty array. -/
inductive MaterialSlot where
  | none
  | single (mat : Material)
  | array (first : Material) (rest : List Material)
deriving DecidableEq, Repr

/-- `Array.isArray(material) ? material[0] : material`. -/
def MaterialSlot.first : MaterialSlot → Option Material
  | .none => Option.none
  | .single mat => some mat
  | .array mat _ => some mat

/-- `THREE.Box3`. -/
structure Box3 where
  min : Vec3
  max : Vec3
deriving DecidableEq, Repr

namespace Box3

/-- `Box3.isEmpty`. -/
def isEmpty (b : Box3) : Bool :=
  decide (b.max.x < b.min.x) || decide (b.max.y < b.min.y) || decide (b.max.z < b.min.z)

/-- `Box3.getCenter`. -/
def getCenter (b : Box3) : Vec3 :=
  if b.isEmpty then Vec3.zero else (b.min.add b.max).scale (1 / 2)

/-- `Box3.getSize`. -/
def getSize (b : Box3) : Vec3 :=
  if b.isEmpty then Vec3.zero else b.max.sub b.min

end Box3

/-- A node of the scene graph.  `worldBox` is the value of
`new THREE.Box3().setFromObject(object)`, computed by the rendering library. -/
structure Object3D where
  name : String
  isLight : Bool
  isSpotLight : Bool
  isPointLight : Bool
  isDirectionalLight : Bool
  intensity : ℚ
  position : Vec3
  color : Vec3
  isMesh : Bool
  hasGeometry : Bool
  material : MaterialSlot
  worldBox : Box3
deriving DecidableEq, Repr

/-- A scene, as the list of its nodes in the order `scene.traverse` visits them. -/
abbrev Scene := List Object3D

namespace OfficialPathTracer

structure SphereData where
  center : Vec3
  radius : ℚ
  albedo : Vec3
  roughness : ℚ
  isGlass : Bool
deriving DecidableEq, Repr

structure PlaneData where
  point : Vec3
  normal : Vec3
  albedo : Vec3
  roughness : ℚ
  isWater : Bool
  min : Vec2
  max : Vec2
deriving DecidableEq, Repr

structure LightData where
  position : Vec3
  color : Vec3
  intensity : ℚ
deriving DecidableEq, Repr

/-- `this.sceneData`. -/
structure SceneData where
  spheres : List SphereData
  planes : List PlaneData
  lights : List LightData
deriving DecidableEq, Repr

/-- `scene.getObjectByName(name)`: the first node with that name in traversal order. -/
def getObjectByName (scene : Scene) (name : String) : Option Object3D :=
  scene.find? (fun o => o.name == name)

/-- Lines 54-64: the floor colour.  `setHex` is `THREE.Color.setHex`, whose colour-space
conversion is done by the library. -/
def floorColor (setHex : Nat → Vec3) (scene : Scene) : Vec3 :=
  match getObjectByName scene "floor" with
  | none => ⟨1 / 2, 1 / 2, 1 / 2⟩
  | some floorObj =>
    match floorObj.material.first with
    | none => ⟨1 / 2, 1 / 2, 1 / 2⟩
    | some fm =>
      if fm.hasMap then setHex 0x8B7355
      else match fm.color with
        | some c => c
        | none => ⟨1 / 2, 1 / 2, 1 / 2⟩

/-- Lines 66-75: the floor plane. -/
def floorPlane (setHex : Nat → Vec3) (scene : Scene) : PlaneData where
  point := ⟨0, FLOOR_Y, 0⟩
  normal := ⟨0, 1, 0⟩
  albedo := floorColor setHex scene
  roughness := 4 / 5
  isWater := false
  min := ⟨-1000, -1000⟩
  max := ⟨1000, 1000⟩

/-- Lines 80-91: the light part of the traversal callback. -/
def visitLight (d : SceneData) (o : Object3D) : SceneData :=
  if o.isLight && (o.isSpotLight || o.isPointLight || o.isDirectionalLight) then
    let lightIntensity := if o.intensity = 0 then 1 else o.intensity
    let lightIntensity := max (lightIntensity * 3) 5
    { d with lights := d.lights ++ [⟨o.position, o.color, lightIntensity⟩] }
  else d

/-- Lines 97-116: the plane pushed for a mesh named `water` or `water_surface`. -/
def waterPlane (o : Object3D) : PlaneData :=
  let box := o.worldBox
  let center := box.getCenter
  { point := ⟨0, center.y, 0⟩
    normal := ⟨0, 1, 0⟩
    albedo := ⟨7 / 10, 9 / 10, 1⟩
    roughness := 1 / 20
    isWater := true
    min := ⟨box.min.x, box.min.z⟩
    max := ⟨box.max.x, box.max.z⟩ }

/-- Lines 130-153: the sphere pushed for any other mesh with a geometry. -/
def sphereOfMesh (o : Object3D) : SphereData :=
  let box := o.worldBox
  let center := box.getCenter
  let size := box.getSize
  let albedo0 : Vec3 := ⟨4 / 5, 4 / 5, 4 / 5⟩
  let roughness0 : ℚ := 1 / 2
  let mat := o.material.first
  let albedo := match mat with
    | some mt => (match mt.color with | some c => c | none => albedo0)
    | none => albedo0
  let roughness := match mat with
    | some mt => (match mt.roughness with | some r => r | none => roughness0)
    | none => roughness0
  let isGlass := match mat with
    | some mt =>
      (match mt.transmission with | some t => decide (1 / 2 < t) | none => false) ||
      (match mt.opacity with | some op => decide (op < 1 / 2) | none => false)
    | none => false
  let radius := max (max size.x size.y) size.z / 2
  { center := center
    radius := radius * (9 / 10)
    albedo := albedo
    roughness := roughness
    isGlass := isGlass }

/-- Lines 93-155: the mesh part of the traversal callback. -/
def visitMesh (m : MathFns) (d : SceneData) (o : Object3D) : SceneData :=
  if o.isMesh then
    if o.name = "skybox" then d
    else if o.name = "water" ∨ o.name = "water_surface" then
      { d with planes := d.planes ++ [waterPlane o] }
    else if o.hasGeometry then
      if o.worldBox.getSize.length m < 1 / 1000 then d
      else { d with spheres := d.spheres ++ [sphereOfMesh o] }
    else d
  else d

/-- The callback passed to `scene.traverse` (lines 78-156). -/
def visitObject (m : MathFns) (d : SceneData) (o : Object3D) : SceneData :=
  visitMesh m (visitLight d o) o

/-- `updateSceneData()` (lines 45-157). -/
def updateSceneData (m : MathFns) (setHex : Nat → Vec3) (scene : Scene) : SceneData :=
  scene.foldl (visitObject m) ⟨[], [floorPlane setHex scene], []⟩

end OfficialPathTracer

/-! ## `fishTank.js` -/

/-- A mesh that is not a light, with the given name, material and world bounding box. -/
def meshObject (name : String) (position : Vec3) (mat : Material) (box : Box3) : Object3D where
  name := name
  isLight := false
  isSpotLight := false
  isPointLight := false
  isDirectionalLight := false
  intensity := 0
  position := position
  color := Vec3.zero
  isMesh := true
  hasGeometry := true
  material := MaterialSlot.single mat
  worldBox := box

/-- World bounding box of an unrotated, unscaled `BoxGeometry(w, h, d)` centred at `p`. -/
def boxAround (p : Vec3) (w h d : ℚ) : Box3 :=
  ⟨⟨p.x - w / 2, p.y - h / 2, p.z - d / 2⟩, ⟨p.x + w / 2, p.y + h / 2, p.z + d / 2⟩⟩

namespace FishTank

def TANK_HEIGHT : ℚ := 10

/-- `glassMat` (lines 10-21). -/
def glassMat : Material where
  color := some ⟨1, 1, 1⟩
  roughness := some 0
  transmission := some 1
  opacity := some (3 / 10)
  hasMap := false

/-- `createPanel(w, h, x, y, z, rx, ry)` for the four walls: a `PlaneGeometry(w, h)` turned
about the vertical axis by 0 (`turned = false`) or by a quarter turn (`turned = true`). -/
def createPanel (w h x y z : ℚ) (turned : Bool) : Object3D :=
  meshObject "" ⟨x, y, z⟩ glassMat
    (if turned then boxAround ⟨x, y, z⟩ 0 h w else boxAround ⟨x, y, z⟩ w h 0)

def waterHeight : ℚ := WATER_TOP - 1 / 2

/-- `waterMaterial` (lines 54-69). -/
def waterMaterial : Material where
  color := some ⟨1, 1, 1⟩
  roughness := some (1 / 50)
  transmission := some (49 / 50)
  opacity := some 1
  hasMap := false

/-- The mesh `water` of lines 103-107. -/
def water : Object3D :=
  let p : Vec3 := ⟨0, TANK_BOTTOM_Y + waterHeight / 2 + 1 / 100, 0⟩
  meshObject "Water" p waterMaterial
    (boxAround p (TANK_WIDTH - 2 / 5) waterHeight (TANK_DEPTH - 2 / 5))

/-- `createFishTank(scene)`: the scene with the four glass walls and the water mesh added. -/
def createFishTank (scene : Scene) : Scene :=
  scene ++
  [ createPanel TANK_DEPTH TANK_HEIGHT (-TANK_WIDTH / 2) (TANK_BOTTOM_Y + TANK_HEIGHT / 2) 0 true,
    createPanel TANK_DEPTH TANK_HEIGHT (TANK_WIDTH / 2) (TANK_BOTTOM_Y + TANK_HEIGHT / 2) 0 true,
    createPanel TANK_WIDTH TANK_HEIGHT 0 (TANK_BOTTOM_Y + TANK_HEIGHT / 2) (-TANK_DEPTH / 2) false,
    createPanel TANK_WIDTH TANK_HEIGHT 0 (TANK_BOTTOM_Y + TANK_HEIGHT / 2) (TANK_DEPTH / 2) false,
    water ]

end FishTank

/-! ## GLSL helpers -/

/-- GLSL `fract(x) = x - floor(x)`. -/
def glslFract (x : ℚ) : ℚ := x - (⌊x⌋ : ℚ)

/-- GLSL `clamp(x, lo, hi) = min(max(x, lo), hi)`. -/
def glslClamp (x lo hi : ℚ) : ℚ := min (max x lo) hi

/-- The shaders' `random(vec2 st)`. -/
def glslRandom (m : MathFns) (st : Vec2) : ℚ :=
  glslFract (m.sin (Vec2.dot st ⟨129898 / 10000, 78233 / 1000⟩) * (437585453123 / 10000000))

/-- A `for (int i = 0; i < N; i++) { if (stop i) break; body }` loop over the given indices. -/
def loopUntil {σ : Type} (stop : Nat → Bool) (body : Nat → σ → σ) : List Nat → σ → σ
  | [], s => s
  | i :: rest, s => if stop i then s else loopUntil stop body rest (body i s)

/-- The shaders' `intersectSphere` (same text in both tracers). -/
def intersectSphere (m : MathFns) (ro rd center : Vec3) (radius : ℚ) : Vec2 :=
  let oc := ro.sub center
  let b := Vec3.dot oc rd
  let c := Vec3.dot oc oc - radius * radius
  let d := b * b - c
  if d < 0 then Vec2.splat (-1)
  else
    let t := -b - m.sqrt d
    let t := if t < 1 / 1000 then -b + m.sqrt d else t
    ⟨t, if t < 1 / 1000 then -1 else 1⟩

/-- The shaders' `fresnel` (same text in both tracers). -/
def fresnel (m : MathFns) (incident normal : Vec3) (ior : ℚ) : ℚ :=
  let cosi := glslClamp (Vec3.dot incident normal) (-1) 1
  let etai : ℚ := if 0 < cosi then ior else 1
  let etat : ℚ := if 0 < cosi then 1 else ior
  let sint := etai / etat * m.sqrt (max 0 (1 - cosi * cosi))
  if 1 ≤ sint then 1
  else
    let cost := m.sqrt (max 0 (1 - sint * sint))
    let cosi := |cosi|
    let rs := ((etat * cosi) - (etai * cost)) / ((etat * cosi) + (etai * cost))
    let rp := ((etai * cosi) - (etat * cost)) / ((etai * cosi) + (etat * cost))
    (rs * rs + rp * rp) / 2

namespace OfficialPathTracer

def MAX_SPHERES : Nat := 30
def MAX_PLANES : Nat := 5
def MAX_LIGHTS : Nat := 5

/-- The uniforms of the fragment shader (lines 171-203).  A uniform array is the function
giving its entry at each index. -/
structure Uniforms where
  uTime : ℚ
  uResolution : Vec2
  uCameraPosition : Vec3
  uCameraTarget : Vec3
  uCameraFov : ℚ
  uSamples : ℚ
  uMaxBounces : Int
  uEnableRipples : ℚ
  uNumSpheres : Int
  uSphereCenters : Nat → Vec3
  uSphereRadii : Nat → ℚ
  uSphereAlbedos : Nat → Vec3
  uSphereRoughness : Nat → ℚ
  uSphereIsGlass : Nat → ℚ
  uNumPlanes : Int
  uPlanePoints : Nat → Vec3
  uPlaneNormals : Nat → Vec3
  uPlaneAlbedos : Nat → Vec3
  uPlaneIsWater : Nat → ℚ
  uPlaneBounds : Nat → Vec4
  uNumLights : Int
  uLightPositions : Nat → Vec3
  uLightColors : Nat → Vec3
  uLightIntensities : Nat → ℚ

/-- Entry `i` of a uniform array after the copy loops of `updateShaderUniforms`: entries below
`num` are copied from the scene data, the others keep their previous value. -/
def copyEntry {α β : Type} (xs : List α) (num : Nat) (f : α → β) (old : Nat → β) (i : Nat) : β :=
  if i < num then
    match xs.get? i with
    | some x => f x
    | none => old i
  else old i

/-- `updateShaderUniforms()` (lines 551-599). -/
def updateShaderUniforms (u : Uniforms) (d : SceneData) : Uniforms :=
  let numSpheres := min d.spheres.length MAX_SPHERES
  let numPlanes := min d.planes.length MAX_PLANES
  let numLights := min d.lights.length MAX_LIGHTS
  { u with
    uNumSpheres := (numSpheres : Int)
    uSphereCenters := copyEntry d.spheres numSpheres (fun s => s.center) u.uSphereCenters
    uSphereRadii := copyEntry d.spheres numSpheres (fun s => s.radius) u.uSphereRadii
    uSphereAlbedos := copyEntry d.spheres numSpheres (fun s => s.albedo) u.uSphereAlbedos
    uSphereRoughness := copyEntry d.spheres numSpheres (fun s => s.roughness) u.uSphereRoughness
    uSphereIsGlass :=
      copyEntry d.spheres numSpheres (fun s => if s.isGlass then 1 else 0) u.uSphereIsGlass
    uNumPlanes := (numPlanes : Int)
    uPlanePoints := copyEntry d.planes numPlanes (fun p => p.point) u.uPlanePoints
    uPlaneNormals := copyEntry d.planes numPlanes (fun p => p.normal) u.uPlaneNormals
    uPlaneAlbedos := copyEntry d.planes numPlanes (fun p => p.albedo) u.uPlaneAlbedos
    uPlaneIsWater :=
      copyEntry d.planes numPlanes (fun p => if p.isWater then 1 else 0) u.uPlaneIsWater
    uPlaneBounds :=
      copyEntry d.planes numPlanes (fun p => ⟨p.min.x, p.min.y, p.max.x, p.max.y⟩) u.uPlaneBounds
    uNumLights := (numLights : Int)
    uLightPositions := copyEntry d.lights numLights (fun l => l.position) u.uLightPositions
    uLightColors := copyEntry d.lights numLights (fun l => l.color) u.uLightColors
    uLightIntensities := copyEntry d.lights numLights (fun l => l.intensity) u.uLightIntensities }

/-- The uniforms as created by `initShaders` (lines 491-523). -/
def initialUniforms : Uniforms where
  uTime := 0
  uResolution := ⟨0, 0⟩
  uCameraPosition := Vec3.zero
  uCameraTarget := Vec3.zero
  uCameraFov := 0
  uSamples := 0
  uMaxBounces := 4
  uEnableRipples := 1
  uNumSpheres := 0
  uSphereCenters := fun _ => Vec3.zero
  uSphereRadii := fun _ => 0
  uSphereAlbedos := fun _ => Vec3.zero
  uSphereRoughness := fun _ => 0
  uSphereIsGlass := fun _ => 0
  uNumPlanes := 0
  uPlanePoints := fun _ => Vec3.zero
  uPlaneNormals := fun _ => Vec3.zero
  uPlaneAlbedos := fun _ => Vec3.zero
  uPlaneIsWater := fun _ => 0
  uPlaneBounds := fun _ => ⟨0, 0, 0, 0⟩
  uNumLights := 0
  uLightPositions := fun _ => Vec3.zero
  uLightColors := fun _ => Vec3.zero
  uLightIntensities := fun _ => 0

/-- `getWaterNormal` (lines 213-237). -/
def getWaterNormal (m : MathFns) (pos : Vec3) (time : ℚ) : Vec3 :=
  let f1 : ℚ := 4 / 5
  let a1 : ℚ := 3 / 20
  let s1 : ℚ := 3 / 2
  let dx := m.cos (pos.x * f1 + time * s1) * f1 * a1
  let dz := m.cos (pos.z * f1 * (4 / 5) + time * s1 * (11 / 10)) * f1 * (4 / 5) * a1
  let f2 : ℚ := 2
  let a2 : ℚ := 1 / 20
  let s2 : ℚ := 3
  let dx := dx + m.cos (pos.x * f2 + time * s2) * f2 * a2
  let dz := dz + m.cos (pos.z * f2 + time * s2 * (6 / 5)) * f2 * a2
  let f3 : ℚ := 3 / 2
  let a3 : ℚ := 2 / 25
  let s3 : ℚ := 2
  let phase := (pos.x + pos.z) * f3 + time * s3
  let dx := dx + m.cos phase * f3 * a3
  let dz := dz + m.cos phase * f3 * a3
  Vec3.normalize m ⟨-dx, 1, -dz⟩

/-- `intersectPlaneBounded` (lines 253-267). -/
def intersectPlaneBounded (ro rd p n : Vec3) (bounds : Vec4) : ℚ :=
  let denom := Vec3.dot n rd
  if |denom| < 1 / 1000 then -1
  else
    let t := Vec3.dot (p.sub ro) n / denom
    if 1 / 1000 < t then
      let hit := ro.add (rd.scale t)
      if bounds.x ≤ hit.x ∧ hit.x ≤ bounds.z ∧ bounds.y ≤ hit.z ∧ hit.z ≤ bounds.w then t
      else -1
    else -1

/-- `struct HitInfo` (lines 269-276). -/
structure HitInfo where
  t : ℚ
  normal : Vec3
  albedo : Vec3
  emission : Vec3
  roughness : ℚ
  isGlass : Bool
deriving DecidableEq, Repr

/-- The locals `hit` and `hitSomething` of `intersectScene`. -/
structure SceneHit where
  hit : HitInfo
  hitSomething : Bool
deriving DecidableEq, Repr

/-- Body of the sphere loop (lines 292-301). -/
def sphereStep (m : MathFns) (u : Uniforms) (ro rd : Vec3) (i : Nat) (s : SceneHit) : SceneHit :=
  let sHit := intersectSphere m ro rd (u.uSphereCenters i) (u.uSphereRadii i)
  if 1 / 1000 < sHit.x ∧ sHit.x < s.hit.t then
    let hitPoint := ro.add (rd.scale sHit.x)
    { hit :=
        { s.hit with
          t := sHit.x
          normal := Vec3.normalize m (hitPoint.sub (u.uSphereCenters i))
          albedo := u.uSphereAlbedos i
          roughness := u.uSphereRoughness i
          isGlass := decide (1 / 2 < u.uSphereIsGlass i) }
      hitSomething := true }
  else s

/-- Body of the plane loop (lines 308-332). -/
def planeStep (m : MathFns) (u : Uniforms) (ro rd : Vec3) (i : Nat) (s : SceneHit) : SceneHit :=
  let pT := intersectPlaneBounded ro rd (u.uPlanePoints i) (u.uPlaneNormals i) (u.uPlaneBounds i)
  if 1 / 1000 < pT ∧ pT < s.hit.t then
    let hitPoint := ro.add (rd.scale pT)
    if 1 / 2 < u.uPlaneIsWater i then
      { hit :=
          { s.hit with
            t := pT
            albedo := u.uPlaneAlbedos i
            normal :=
              if 1 / 2 < u.uEnableRipples then getWaterNormal m hitPoint u.uTime
              else u.uPlaneNormals i
            isGlass := true
            roughness := 1 / 50 }
        hitSomething := true }
    else
      { hit :=
          { s.hit with
            t := pT
            albedo := u.uPlaneAlbedos i
            normal := u.uPlaneNormals i
            isGlass := false
            roughness := 4 / 5 }
        hitSomething := true }
  else s

/-- Body of the light loop (lines 338-344). -/
def lightStep (m : MathFns) (u : Uniforms) (ro rd : Vec3) (i : Nat) (s : SceneHit) : SceneHit :=
  let lHit := intersectSphere m ro rd (u.uLightPositions i) 2
  if 1 / 1000 < lHit.x ∧ lHit.x < s.hit.t then
    { hit :=
        { s.hit with
          t := lHit.x
          emission := ((u.uLightColors i).scale (u.uLightIntensities i)).scale 5
          albedo := Vec3.splat 1 }
      hitSomething := true }
  else s

/-- `intersectScene` (lines 278-350). -/
def intersectScene (m : MathFns) (u : Uniforms) (ro rd : Vec3) : HitInfo :=
  let s0 : SceneHit :=
    { hit :=
        { t := 10000
          normal := ⟨0, 1, 0⟩
          albedo := Vec3.splat 0
          emission := Vec3.splat 0
          roughness := 1 / 2
          isGlass := false }
      hitSomething := false }
  let s1 := loopUntil (fun i => decide (u.uNumSpheres ≤ (i : Int))) (sphereStep m u ro rd)
    (List.range MAX_SPHERES) s0
  let s2 := loopUntil (fun i => decide (u.uNumPlanes ≤ (i : Int))) (planeStep m u ro rd)
    (List.range MAX_PLANES) s1
  let s3 := loopUntil (fun i => decide (u.uNumLights ≤ (i : Int))) (lightStep m u ro rd)
    (List.range MAX_LIGHTS) s2
  if s3.hitSomething then s3.hit else { s3.hit with t := -1 }

end OfficialPathTracer

namespace OfficialPathTracer

/-- The mutable locals of `traceRay`, with a ghost counter of executed bounce iterations. -/
structure TraceState where
  ro : Vec3
  rd : Vec3
  color : Vec3
  throughput : Vec3
  iterations : Nat
deriving DecidableEq, Repr

/-- Direct contribution of light `l` at a diffuse hit (lines 431-434). -/
def lightContribution (m : MathFns) (u : Uniforms) (throughput hitPoint normal : Vec3)
    (l : Nat) : Vec3 :=
  let lDir := Vec3.normalize m ((u.uLightPositions l).sub hitPoint)
  let lDist := Vec3.length m ((u.uLightPositions l).sub hitPoint)
  let ndotl := max (Vec3.dot normal lDir) 0
  let atten := 1 / (1 + 1 / 50 * lDist * lDist)
  ((((throughput.mul (u.uLightColors l)).scale (u.uLightIntensities l)).scale ndotl).scale
    atten).scale (1 / 2)

/-- Body of the shadow-ray loop (lines 425-435), acting on `color`. -/
def shadowStep (m : MathFns) (u : Uniforms) (throughput hitPoint normal : Vec3) (l : Nat)
    (color : Vec3) : Vec3 :=
  let lDir := Vec3.normalize m ((u.uLightPositions l).sub hitPoint)
  let lDist := Vec3.length m ((u.uLightPositions l).sub hitPoint)
  let shadowHit := intersectScene m u (hitPoint.add (normal.scale (1 / 50))) lDir
  if shadowHit.t < 0 ∨ lDist < shadowHit.t ∨ shadowHit.isGlass = true then
    color.add (lightContribution m u throughput hitPoint normal l)
  else color

/-- The shadow-ray loop (lines 423-436). -/
def shadowLoop (m : MathFns) (u : Uniforms) (throughput hitPoint normal color : Vec3) : Vec3 :=
  loopUntil (fun l => decide (u.uNumLights ≤ (l : Int)))
    (shadowStep m u throughput hitPoint normal) (List.range MAX_LIGHTS) color

/-- The glass / water branch of a bounce (lines 384-402); `color` already holds the emission
term of line 379. -/
def glassBounce (m : MathFns) (u : Uniforms) (pixel : Vec2) (bounce : Nat) (s : TraceState)
    (hit : HitInfo) (hitPoint color : Vec3) : TraceState :=
  let ior : ℚ := 133 / 100
  let f := fresnel m s.rd hit.normal ior
  if glslRandom m (pixel.add ⟨(bounce : ℚ), u.uTime⟩) < f then
    { s with
      rd := Vec3.reflect s.rd hit.normal
      ro := hitPoint.add (hit.normal.scale (1 / 100))
      color := color
      throughput := s.throughput.mul hit.albedo }
  else
    let refr := Vec3.refract m s.rd hit.normal (1 / ior)
    if Vec3.length m refr = 0 then
      { s with
        rd := Vec3.reflect s.rd hit.normal
        ro := hitPoint.add (hit.normal.scale (1 / 100))
        color := color
        throughput := s.throughput.mul hit.albedo }
    else
      { s with
        rd := refr
        ro := hitPoint.sub (hit.normal.scale (1 / 100))
        color := color
        throughput := s.throughput.mul hit.albedo }

/-- The new direction of a diffuse bounce (lines 409-416). -/
def diffuseDirection (m : MathFns) (pixel : Vec2) (bounce : Nat) (rd normal : Vec3)
    (roughness : ℚ) : Vec3 :=
  let rVec := Vec3.normalize m
    ⟨glslRandom m (pixel.add ⟨(bounce : ℚ), 1 / 10⟩) * 2 - 1,
     glslRandom m (pixel.add ⟨(bounce : ℚ), 2 / 10⟩) * 2 - 1,
     glslRandom m (pixel.add ⟨(bounce : ℚ), 3 / 10⟩) * 2 - 1⟩
  let rVec := if Vec3.dot rVec normal < 0 then rVec.neg else rVec
  Vec3.normalize m (Vec3.mix (Vec3.reflect rd normal) rVec roughness)

/-- The diffuse branch of a bounce (lines 404-436); `color` already holds the emission term of
line 379. -/
def diffuseBounce (m : MathFns) (u : Uniforms) (pixel : Vec2) (bounce : Nat) (s : TraceState)
    (hit : HitInfo) (hitPoint color : Vec3) : TraceState :=
  let throughput := s.throughput.mul hit.albedo
  { s with
    rd := diffuseDirection m pixel bounce s.rd hit.normal hit.roughness
    ro := hitPoint.add (hit.normal.scale (1 / 100))
    throughput := throughput
    color := shadowLoop m u throughput hitPoint hit.normal color }

/-- One iteration of the bounce loop after its `bounce >= uMaxBounces` test (lines 373-447).
The flag is `true` when the iteration leaves the loop through a `break`. -/
def bounceBody (m : MathFns) (u : Uniforms) (pixel : Vec2) (bounce : Nat) (s : TraceState) :
    TraceState × Bool :=
  let s := { s with iterations := s.iterations + 1 }
  let hit := intersectScene m u s.ro s.rd
  if 0 < hit.t then
    let hitPoint := s.ro.add (s.rd.scale hit.t)
    let color := s.color.add (s.throughput.mul hit.emission)
    if 0 < Vec3.length m hit.emission then ({ s with color := color }, true)
    else
      let s1 : TraceState :=
        if hit.isGlass then glassBounce m u pixel bounce s hit hitPoint color
        else diffuseBounce m u pixel bounce s hit hitPoint color
      (s1, decide (Vec3.length m s1.throughput < 1 / 100))
  else
    let y := max s.rd.y 0
    let sky := Vec3.mix ⟨1 / 10, 1 / 10, 3 / 20⟩ ⟨3 / 5, 4 / 5, 1⟩ y
    ({ s with color := s.color.add (s.throughput.mul sky) }, true)

/-- The bounce loop `for (int bounce = 0; bounce < 5; bounce++)` over the given indices. -/
def bounceLoop (m : MathFns) (u : Uniforms) (pixel : Vec2) : List Nat → TraceState → TraceState
  | [], s => s
  | bounce :: rest, s =>
    if u.uMaxBounces ≤ (bounce : Int) then s
    else
      let r := bounceBody m u pixel bounce s
      if r.2 then r.1 else bounceLoop m u pixel rest r.1

/-- `traceRay` (lines 366-451) with its final local state. -/
def traceRayState (m : MathFns) (u : Uniforms) (ro rd : Vec3) (pixel : Vec2) : TraceState :=
  bounceLoop m u pixel (List.range 5) ⟨ro, rd, Vec3.splat 0, Vec3.splat 1, 0⟩

/-- `traceRay` (lines 366-451). -/
def traceRay (m : MathFns) (u : Uniforms) (ro rd : Vec3) (pixel : Vec2) : Vec3 :=
  (traceRayState m u ro rd pixel).color

/-- The fragment shader's `main` (lines 453-480): the colour written for the fragment at
texture coordinate `uv`, given the colour `oldColor` stored there in `uAccumTexture`. -/
def fragmentMain (m : MathFns) (u : Uniforms) (uv : Vec2) (oldColor : Vec3) : Vec3 :=
  let pixel : Vec2 := ⟨uv.x * u.uResolution.x, uv.y * u.uResolution.y⟩
  let aspect := u.uResolution.x / u.uResolution.y
  let fovScale := m.tan (u.uCameraFov * (1 / 2))
  let jitter : Vec2 :=
    ⟨glslRandom m (pixel.add ⟨u.uSamples, 0⟩) - 1 / 2,
     glslRandom m (pixel.add ⟨u.uSamples, 1⟩) - 1 / 2⟩
  let ndc : Vec2 :=
    ⟨(uv.x * 2 - 1) + jitter.x / u.uResolution.x, (uv.y * 2 - 1) + jitter.y / u.uResolution.y⟩
  let ndc : Vec2 := ⟨ndc.x * aspect, ndc.y⟩
  let forward := Vec3.normalize m (u.uCameraTarget.sub u.uCameraPosition)
  let right := Vec3.normalize m (Vec3.cross forward ⟨0, 1, 0⟩)
  let up := Vec3.cross right forward
  let rd := Vec3.normalize m
    ((forward.add (right.scale (ndc.x * fovScale))).add (up.scale (ndc.y * fovScale)))
  let newColor := traceRay m u u.uCameraPosition rd (pixel.add (Vec2.splat (u.uSamples * 13)))
  accumulate u.uSamples oldColor newColor

/-- The light of the example: a directional light of intensity 0.7, 10 above the floor. -/
def exampleLight : Object3D where
  name := "sun"
  isLight := true
  isSpotLight := false
  isPointLight := false
  isDirectionalLight := true
  intensity := 7 / 10
  position := ⟨0, FLOOR_Y + 10, 0⟩
  color := ⟨1, 1, 1⟩
  isMesh := false
  hasGeometry := false
  material := MaterialSlot.none
  worldBox := ⟨Vec3.zero, Vec3.zero⟩

/-- The example scene: one light and no mesh, so the scene data holds the floor plane only. -/
def exampleScene : Scene := [exampleLight]

/-- Uniforms of the example: those of `initShaders` after `updateSceneData` and
`updateShaderUniforms` on the example scene. -/
def exampleUniforms (m : MathFns) (setHex : Nat → Vec3) : Uniforms :=
  updateShaderUniforms initialUniforms (updateSceneData m setHex exampleScene)

/-- Camera position of the example: 1 above the floor. -/
def exampleEye : Vec3 := ⟨0, FLOOR_Y + 1, 0⟩

/-- The floor point below the example camera. -/
def exampleHitPoint : Vec3 := ⟨0, FLOOR_Y, 0⟩

end OfficialPathTracer

/-! ## `pathTracingRenderer.js` -/

/-- GLSL `sign`. -/
def glslSign (x : ℚ) : ℚ := if 0 < x then 1 else if x < 0 then -1 else 0

namespace PathTracingRenderer

/-- The uniforms read by `traceRay` and `intersectScene`. -/
structure Uniforms where
  time : ℚ
  uMaxBounces : Int
deriving DecidableEq, Repr

/-- `intersectPlane` (lines 79-84). -/
def intersectPlane (ro rd p n : Vec3) : ℚ :=
  let denom := Vec3.dot n rd
  if |denom| < 1 / 1000 then -1
  else
    let t := Vec3.dot (p.sub ro) n / denom
    if 1 / 1000 < t then t else -1

/-- `intersectBox` (lines 87-96). -/
def intersectBox (ro rd boxMin boxMax : Vec3) : Vec2 :=
  let invRd : Vec3 := ⟨1 / rd.x, 1 / rd.y, 1 / rd.z⟩
  let t0 := (boxMin.sub ro).mul invRd
  let t1 := (boxMax.sub ro).mul invRd
  let tMin : Vec3 := ⟨min t0.x t1.x, min t0.y t1.y, min t0.z t1.z⟩
  let tMax : Vec3 := ⟨max t0.x t1.x, max t0.y t1.y, max t0.z t1.z⟩
  let near := max (max tMin.x tMin.y) tMin.z
  let far := min (min tMax.x tMax.y) tMax.z
  ⟨near, if far < near then -1 else 1⟩

/-- `struct HitInfo` (lines 99-107). -/
structure HitInfo where
  t : ℚ
  normal : Vec3
  albedo : Vec3
  emission : Vec3
  roughness : ℚ
  metalness : ℚ
  isGlass : Bool
deriving DecidableEq, Repr

/-- Ground test (lines 121-131). -/
def hitGround (m : MathFns) (ro rd : Vec3) (hit : HitInfo) : HitInfo :=
  let groundT := intersectPlane ro rd ⟨0, 0, 0⟩ ⟨0, 1, 0⟩
  if 1 / 1000 < groundT ∧ groundT < hit.t then
    let hitPoint := ro.add (rd.scale groundT)
    if Vec2.length m ⟨hitPoint.x, hitPoint.z⟩ < 50 then
      { hit with t := groundT, normal := ⟨0, 1, 0⟩, albedo := ⟨2 / 5, 2 / 5, 2 / 5⟩,
                 roughness := 4 / 5 }
    else hit
  else hit

/-- Tank bottom test (lines 134-144). -/
def hitBottom (ro rd : Vec3) (hit : HitInfo) : HitInfo :=
  let bottomT := intersectPlane ro rd ⟨0, 0, 0⟩ ⟨0, 1, 0⟩
  if 1 / 1000 < bottomT ∧ bottomT < hit.t ∧ |ro.y + rd.y * bottomT| < 1 / 10 then
    let hitPoint := ro.add (rd.scale bottomT)
    if |hitPoint.x| < 5 ∧ |hitPoint.z| < 5 then
      { hit with t := bottomT, normal := ⟨0, 1, 0⟩, albedo := ⟨9 / 10, 9 / 10, 19 / 20⟩,
                 isGlass := true, roughness := 0 }
    else hit
  else hit

/-- Tank wall test (lines 147-168). -/
def hitWalls (ro rd : Vec3) (hit : HitInfo) : HitInfo :=
  let boxMin : Vec3 := ⟨-5, 0, -5⟩
  let boxMax : Vec3 := ⟨5, 10, 5⟩
  let boxHit := intersectBox ro rd boxMin boxMax
  if 1 / 1000 < boxHit.x ∧ boxHit.x < hit.t then
    let hitPoint := ro.add (rd.scale boxHit.x)
    let distToWall := min (min |hitPoint.x - 5| |hitPoint.x + 5|)
      (min |hitPoint.z - 5| |hitPoint.z + 5|)
    if distToWall < 1 / 10 ∧ 0 < hitPoint.y ∧ hitPoint.y < 10 then
      { hit with
        t := boxHit.x
        normal :=
          if |hitPoint.x - 5| < 1 / 10 ∨ |hitPoint.x + 5| < 1 / 10 then
            ⟨glslSign hitPoint.x, 0, 0⟩
          else ⟨0, 0, glslSign hitPoint.z⟩
        albedo := ⟨9 / 10, 9 / 10, 19 / 20⟩
        isGlass := true
        roughness := 0 }
    else hit
  else hit

/-- Water surface test (lines 171-184). -/
def hitWater (m : MathFns) (u : Uniforms) (ro rd : Vec3) (hit : HitInfo) : HitInfo :=
  let waterT := intersectPlane ro rd ⟨0, 97 / 10, 0⟩ ⟨0, 1, 0⟩
  if 1 / 1000 < waterT ∧ waterT < hit.t then
    let hitPoint := ro.add (rd.scale waterT)
    if |hitPoint.x| < 97 / 20 ∧ |hitPoint.z| < 97 / 20 then
      let wave := m.sin (hitPoint.x * 2 + u.time * 2) * (1 / 10)
      { hit with
        t := waterT
        normal := Vec3.normalize m ⟨wave, 1, wave⟩
        albedo := ⟨1 / 5, 1 / 2, 9 / 10⟩
        isGlass := true
        roughness := 1 / 10 }
    else hit
  else hit

/-- Light test (lines 188-196). -/
def hitLight (m : MathFns) (ro rd : Vec3) (hit : HitInfo) : HitInfo :=
  let lightHit := intersectSphere m ro rd ⟨0, 25, 0⟩ 3
  if 1 / 1000 < lightHit.x ∧ lightHit.x < hit.t then
    { hit with
      t := lightHit.x
      normal := Vec3.normalize m ((ro.add (rd.scale lightHit.x)).sub ⟨0, 25, 0⟩)
      albedo := Vec3.splat 1
      emission := ⟨50, 50, 50⟩
      roughness := 0 }
  else hit

/-- The stone and fish tests (lines 200-231), which share one shape. -/
def hitBall (m : MathFns) (ro rd center : Vec3) (radius : ℚ) (albedo : Vec3) (roughness : ℚ)
    (hit : HitInfo) : HitInfo :=
  let ballHit := intersectSphere m ro rd center radius
  if 1 / 1000 < ballHit.x ∧ ballHit.x < hit.t ∧ ballHit.x < 10 then
    { hit with
      t := ballHit.x
      normal := Vec3.normalize m ((ro.add (rd.scale ballHit.x)).sub center)
      albedo := albedo
      roughness := roughness }
  else hit

/-- `intersectScene` (lines 110-234). -/
def intersectScene (m : MathFns) (u : Uniforms) (ro rd : Vec3) : HitInfo :=
  let hit : HitInfo :=
    { t := 1000
      normal := ⟨0, 1, 0⟩
      albedo := Vec3.splat (1 / 2)
      emission := Vec3.splat 0
      roughness := 1 / 2
      metalness := 0
      isGlass := false }
  let hit := hitGround m ro rd hit
  let hit := hitBottom ro rd hit
  let hit := hitWalls ro rd hit
  let hit := hitWater m u ro rd hit
  let hit := hitLight m ro rd hit
  let hit := hitBall m ro rd ⟨2, 1, 2⟩ (4 / 5) ⟨1 / 2, 2 / 5, 3 / 10⟩ (9 / 10) hit
  let hit := hitBall m ro rd ⟨-2, 1, -2⟩ (4 / 5) ⟨1 / 2, 2 / 5, 3 / 10⟩ (9 / 10) hit
  let hit := hitBall m ro rd ⟨1, 5, 1⟩ (3 / 10) ⟨4 / 5, 3 / 5, 2 / 5⟩ (3 / 10) hit
  let hit := hitBall m ro rd ⟨-3 / 2, 6, -3 / 2⟩ (3 / 10) ⟨2 / 5, 3 / 5, 9 / 10⟩ (3 / 10) hit
  hit

/-- The mutable locals of `traceRay`, with a ghost counter of executed bounce iterations. -/
structure TraceState where
  ro : Vec3
  rd : Vec3
  color : Vec3
  throughput : Vec3
  iterations : Nat
deriving DecidableEq, Repr

/-- The glass branch of a bounce (lines 273-294); `color` already holds the emission term. -/
def glassBounce (m : MathFns) (pixel : Vec2) (bounce : Nat) (s : TraceState)
    (hit : HitInfo) (hitPoint color : Vec3) : TraceState :=
  let fr := fresnel m s.rd.neg hit.normal (3 / 2)
  let reflectDir := Vec3.reflect s.rd hit.normal
  if glslRandom m (pixel.add (Vec2.splat (bounce : ℚ))) < fr then
    { s with
      rd := reflectDir
      ro := hitPoint.add (hit.normal.scale (1 / 100))
      color := color
      throughput := s.throughput.mul hit.albedo }
  else
    let refractDir := Vec3.refract m s.rd hit.normal (1 / (3 / 2))
    { s with
      rd := if Vec3.length m refractDir < 1 / 1000 then reflectDir else refractDir
      ro := hitPoint.sub (hit.normal.scale (1 / 100))
      color := color
      throughput := s.throughput.mul hit.albedo }

/-- The diffuse branch of a bounce (lines 296-331); `color` already holds the emission term. -/
def diffuseBounce (m : MathFns) (u : Uniforms) (pixel : Vec2) (bounce : Nat) (s : TraceState)
    (hit : HitInfo) (hitPoint color : Vec3) : TraceState :=
  let lightPos : Vec3 := ⟨0, 25, 0⟩
  let lightDir := Vec3.normalize m (lightPos.sub hitPoint)
  let distToLight := Vec3.length m (lightPos.sub hitPoint)
  let shadowHit := intersectScene m u (hitPoint.add (hit.normal.scale (1 / 100))) lightDir
  let shadowFactor : ℚ :=
    if 1 / 1000 < shadowHit.t ∧ shadowHit.t < distToLight - 1 / 10 then 1 / 10 else 1
  let ndotl := max (Vec3.dot hit.normal lightDir) 0
  let attenuation := 1 / (1 + 1 / 10 * distToLight + 1 / 100 * distToLight * distToLight)
  let color := color.add
    (((((s.throughput.mul hit.albedo).scale ndotl).scale 20).scale attenuation).scale shadowFactor)
  let ambientFactor : ℚ := 1 / 10 * (1 - shadowFactor) + 3 / 10 * shadowFactor
  let color := color.add
    (((s.throughput.mul hit.albedo).mul ⟨1 / 5, 1 / 4, 3 / 10⟩).scale ambientFactor)
  let randomDir := Vec3.normalize m (hit.normal.add
    ⟨glslRandom m (pixel.add ⟨(bounce : ℚ), 0⟩) * 2 - 1,
     glslRandom m (pixel.add ⟨(bounce : ℚ), 1⟩) * 2 - 1,
     glslRandom m (pixel.add ⟨(bounce : ℚ), 2⟩) * 2 - 1⟩)
  { s with
    rd := randomDir
    ro := hitPoint.add (hit.normal.scale (1 / 100))
    color := color
    throughput := s.throughput.mul (hit.albedo.scale (7 / 10)) }

/-- One iteration of the bounce loop after its `bounce >= uMaxBounces` test (lines 264-347).
The flag is `true` when the iteration leaves the loop through a `break`. -/
def bounceBody (m : MathFns) (u : Uniforms) (pixel : Vec2) (bounce : Nat) (s : TraceState) :
    TraceState × Bool :=
  let s := { s with iterations := s.iterations + 1 }
  let hit := intersectScene m u s.ro s.rd
  if hit.t < 999 then
    let hitPoint := s.ro.add (s.rd.scale hit.t)
    let color := s.color.add (s.throughput.mul hit.emission)
    let s1 : TraceState :=
      if hit.isGlass then glassBounce m pixel bounce s hit hitPoint color
      else diffuseBounce m u pixel bounce s hit hitPoint color
    let p := max s1.throughput.x (max s1.throughput.y s1.throughput.z)
    if p < glslRandom m (pixel.add ⟨(bounce : ℚ), 3⟩) then (s1, true)
    else ({ s1 with throughput := s1.throughput.divScalar p }, false)
  else
    let skyGradient := max 0 s.rd.y
    let skyColor := Vec3.mix ⟨1 / 5, 1 / 5, 1 / 4⟩ ⟨3 / 5, 4 / 5, 1⟩ skyGradient
    ({ s with color := s.color.add ((s.throughput.mul skyColor).scale 1) }, true)

/-- The bounce loop `for (int bounce = 0; bounce < 4; bounce++)` over the given indices. -/
def bounceLoop (m : MathFns) (u : Uniforms) (pixel : Vec2) : List Nat → TraceState → TraceState
  | [], s => s
  | bounce :: rest, s =>
    if u.uMaxBounces ≤ (bounce : Int) then s
    else
      let r := bounceBody m u pixel bounce s
      if r.2 then r.1 else bounceLoop m u pixel rest r.1

/-- `traceRay` (lines 257-351) with its final local state. -/
def traceRayState (m : MathFns) (u : Uniforms) (ro rd : Vec3) (pixel : Vec2) : TraceState :=
  bounceLoop m u pixel (List.range 4) ⟨ro, rd, Vec3.splat 0, Vec3.splat 1, 0⟩

/-- `traceRay` (lines 257-351). -/
def traceRay (m : MathFns) (u : Uniforms) (ro rd : Vec3) (pixel : Vec2) : Vec3 :=
  (traceRayState m u ro rd pixel).color

end PathTracingRenderer

/-! ## `fishMovement.js` -/

/-- `THREE.MathUtils.clamp(value, min, max) = Math.max(min, Math.min(max, value))`. -/
def mathClamp (value lo hi : ℚ) : ℚ := max lo (min hi value)

namespace Vec3

/-- `Vector3.normalize()`: `divideScalar(length() || 1)`. -/
def normalizeJS (m : MathFns) (a : Vec3) : Vec3 :=
  let len := a.length m
  a.scale (1 / (if len = 0 then 1 else len))

/-- `Vector3.setLength(l)`: `normalize().multiplyScalar(l)`. -/
def setLength (m : MathFns) (a : Vec3) (l : ℚ) : Vec3 := (a.normalizeJS m).scale l

/-- `Vector3.lerp(v, alpha)`. -/
def lerp (a v : Vec3) (alpha : ℚ) : Vec3 :=
  ⟨a.x + (v.x - a.x) * alpha, a.y + (v.y - a.y) * alpha, a.z + (v.z - a.z) * alpha⟩

/-- `Vector3.addScaledVector(v, s)`. -/
def addScaledVector (a v : Vec3) (s : ℚ) : Vec3 := ⟨a.x + v.x * s, a.y + v.y * s, a.z + v.z * s⟩

/-- `Vector3.distanceTo(v)`. -/
def distanceTo (m : MathFns) (a v : Vec3) : ℚ :=
  let dx := a.x - v.x
  let dy := a.y - v.y
  let dz := a.z - v.z
  m.sqrt (dx * dx + dy * dy + dz * dz)

end Vec3

namespace FishMovement

/-- A `Fish`: the position and rotation of its mesh and its own fields. -/
structure Fish where
  position : Vec3
  rotation : Vec3
  velocity : Vec3
  acceleration : Vec3
  maxSpeed : ℚ
  maxForce : ℚ
deriving DecidableEq, Repr

def margin : ℚ := 6 / 5
def halfWidth : ℚ := TANK_WIDTH / 2 - margin
def halfDepth : ℚ := TANK_WIDTH / 2 - margin
def yMin : ℚ := TANK_BOTTOM_Y + 1 + margin * (1 / 5)
def yMax : ℚ := TANK_BOTTOM_Y + WATER_TOP - margin
def wallForce : ℚ := 1 / 20

/-- Lines 24-29: the wall-avoidance adjustment of the velocity copy. -/
def steer (p vel : Vec3) : Vec3 :=
  let vel : Vec3 :=
    if p.x < -halfWidth + 1 / 2 then { vel with x := vel.x + wallForce * (-halfWidth + 1 / 2 - p.x) }
    else vel
  let vel : Vec3 :=
    if halfWidth - 1 / 2 < p.x then { vel with x := vel.x + wallForce * (halfWidth - 1 / 2 - p.x) }
    else vel
  let vel : Vec3 :=
    if p.z < -halfDepth + 1 / 2 then { vel with z := vel.z + wallForce * (-halfDepth + 1 / 2 - p.z) }
    else vel
  let vel : Vec3 :=
    if halfDepth - 1 / 2 < p.z then { vel with z := vel.z + wallForce * (halfDepth - 1 / 2 - p.z) }
    else vel
  let vel : Vec3 :=
    if p.y < yMin + 1 / 2 then { vel with y := vel.y + wallForce * (yMin + 1 / 2 - p.y) }
    else vel
  let vel : Vec3 :=
    if yMax - 1 / 2 < p.y then { vel with y := vel.y + wallForce * (yMax - 1 / 2 - p.y) }
    else vel
  vel

/-- `Fish.update(fishes, dt)` (lines 12-45).  `r1 r2 r3` are the three values returned by
`Math.random()` and `now` is `performance.now()`. -/
def update (m : MathFns) (f : Fish) (dt r1 r2 r3 now : ℚ) : Fish :=
  let randomForce : Vec3 :=
    ⟨(r1 - 1 / 2) * f.maxForce, (r2 - 1 / 2) * f.maxForce * (1 / 2), (r3 - 1 / 2) * f.maxForce⟩
  let speed := f.velocity.length m
  let vel := steer f.position f.velocity
  let velocity := f.velocity.lerp (vel.setLength m (if speed = 0 then f.maxSpeed else speed))
    (1 / 10)
  let p := f.position.addScaledVector velocity dt
  let p : Vec3 := { p with x := mathClamp p.x (-halfWidth) halfWidth }
  let p : Vec3 := { p with z := mathClamp p.z (-halfDepth) halfDepth }
  let p : Vec3 := { p with y := mathClamp p.y yMin yMax }
  let rot : Vec3 :=
    if 0 < velocity.length m then
      { f.rotation with
        y := m.atan2 velocity.x velocity.z
        x := -(m.atan2 velocity.y (Vec2.length m ⟨velocity.x, velocity.z⟩)) }
    else f.rotation
  let time := now * (2 / 1000)
  let wave := m.sin (time * 5 + p.x * (3 / 10)) * (3 / 20)
  { f with
    acceleration := randomForce
    velocity := velocity
    position := p
    rotation := { rot with y := rot.y + wave * (1 / 5), z := wave * (1 / 10) } }

end FishMovement

/-! ## `object.js`: `randomNonOverlapPosition` -/

namespace Objects

def wallPadding : ℚ := 3 / 2

def safeWidth (radius : ℚ) : ℚ := max (1 / 10) (TANK_WIDTH - (radius + wallPadding) * 2)
def safeDepth (radius : ℚ) : ℚ := max (1 / 10) (TANK_DEPTH - (radius + wallPadding) * 2)

/-- The position set at lines 55-59 in the attempt that follows `attempts` earlier ones;
`rnd k` is the value of the `k`-th call of `Math.random()` (two calls per attempt). -/
def candidate (rnd : Nat → ℚ) (radius yLevel : ℚ) (attempts : Nat) : Vec3 :=
  ⟨(rnd (2 * attempts) - 1 / 2) * safeWidth radius,
   yLevel + TANK_BOTTOM_Y,
   (rnd (2 * attempts + 1) - 1 / 2) * safeDepth radius⟩

/-- Lines 60-66: the `for ... of` loop computing `overlap`; `existing` holds the positions of
`existingObjects`. -/
def overlap (m : MathFns) (radius : ℚ) (pos : Vec3) : List Vec3 → Bool
  | [] => false
  | o :: rest =>
    if pos.distanceTo m o < radius * (3 / 2) + 1 then true else overlap m radius pos rest

/-- The `while (attempts < 50)` loop (lines 53-68) with `fuel = 50 - attempts` iterations left. -/
def attemptLoop (m : MathFns) (rnd : Nat → ℚ) (existing : List Vec3) (radius yLevel : ℚ) :
    Nat → Nat → Vec3 → Vec3
  | 0, _, pos => pos
  | fuel + 1, attempts, _ =>
    let pos := candidate rnd radius yLevel attempts
    if overlap m radius pos existing then
      attemptLoop m rnd existing radius yLevel fuel (attempts + 1) pos
    else pos

/-- `randomNonOverlapPosition(existingObjects, radius, yLevel)` (lines 46-70). -/
def randomNonOverlapPosition (m : MathFns) (rnd : Nat → ℚ) (existing : List Vec3)
    (radius yLevel : ℚ) : Vec3 :=
  attemptLoop m rnd existing radius yLevel 50 0 ⟨0, 0, 0⟩

end Objects

/-! ## `fishingSystem.js`: the rod toggle -/

namespace FishingSystem

/-- The closure variables of `FishingSystem` touched by the key handler.  Fish are identified
by a number; `caught f` is `fish.userData.caught` and `caughtFishes` lists the members of the
set of that name. -/
structure State where
  rodVisible : Bool
  rodMeshVisible : Bool
  lineVisible : Bool
  hookVisible : Bool
  hookPoint : Option Vec3
  isReeling : Bool
  caughtFishes : List Nat
  caught : Nat → Bool

/-- The state after `init`: rod, line and hook are created hidden (lines 14-19, 97, 106, 121). -/
def init (caught : Nat → Bool) : State where
  rodVisible := false
  rodMeshVisible := false
  lineVisible := false
  hookVisible := false
  hookPoint := none
  isReeling := false
  caughtFishes := []
  caught := caught

/-- `String.prototype.toLowerCase` on the ASCII letters. -/
def toLowerCase (key : String) : String := ⟨key.data.map Char.toLower⟩

/-- The `keydown` listener (lines 70-86); `key` is `e.key`. -/
def onKeyDown (s : State) (key : String) : State :=
  if toLowerCase key = "x" then
    let rodVisible := !s.rodVisible
    let s1 : State := { s with rodVisible := rodVisible, rodMeshVisible := rodVisible }
    if !rodVisible then
      { s1 with
        lineVisible := false
        hookVisible := false
        hookPoint := none
        isReeling := false
        caught := fun f => if f ∈ s1.caughtFishes then false else s1.caught f
        caughtFishes := [] }
    else s1
  else s

end FishingSystem

/-! ## `3d-wandering.js`: interaction parameters -/

namespace Wandering

/-- The global interaction parameters and the two WebGL capabilities the handlers switch. -/
structure State where
  modelScale : ℚ
  theta : ℚ
  phi : ℚ
  isOrth : Bool
  fov : ℚ
  lastMouseX : ℚ
  lastMouseY : ℚ
  isDragging : Bool
  cullFace : Bool
  depthTest : Bool
deriving DecidableEq, Repr

/-- `initViewingParameters()` (lines 203-219). -/
def initViewingParameters (s : State) : State :=
  { s with
    modelScale := 1
    theta := 0
    phi := 90
    isOrth := true
    fov := 120
    cullFace := false
    depthTest := true }

/-- The state when `window.onload` has called `initViewingParameters` (line 60). -/
def loaded : State :=
  initViewingParameters
    { modelScale := 0, theta := 0, phi := 0, isOrth := false, fov := 0,
      lastMouseX := 0, lastMouseY := 0, isDragging := false, cullFace := false,
      depthTest := true }

/-- `onKeyDown(e)` (lines 77-135); `keyCode` is `e.keyCode`. -/
def onKeyDown (s : State) (keyCode : Nat) : State :=
  if keyCode = 90 then { s with modelScale := s.modelScale * (11 / 10) }
  else if keyCode = 67 then { s with modelScale := s.modelScale * (9 / 10) }
  else if keyCode = 87 then { s with phi := s.phi - 5 }
  else if keyCode = 83 then { s with phi := s.phi + 5 }
  else if keyCode = 65 then { s with theta := s.theta - 5 }
  else if keyCode = 68 then { s with theta := s.theta + 5 }
  else if keyCode = 80 then { s with isOrth := !s.isOrth }
  else if keyCode = 77 then { s with fov := min (s.fov + 5) 170 }
  else if keyCode = 78 then { s with fov := max (s.fov - 5) 5 }
  else if keyCode = 32 then initViewingParameters s
  else if keyCode = 82 then { s with cullFace := true }
  else if keyCode = 84 then { s with cullFace := false }
  else if keyCode = 66 then { s with depthTest := true }
  else if keyCode = 86 then { s with depthTest := false }
  else s

/-- `onMouseDown(e)` (lines 138-142). -/
def onMouseDown (s : State) (clientX clientY : ℚ) : State :=
  { s with isDragging := true, lastMouseX := clientX, lastMouseY := clientY }

/-- `onMouseUp(e)` (lines 143-145). -/
def onMouseUp (s : State) : State := { s with isDragging := false }

/-- `onMouseMove(e)` (lines 146-158). -/
def onMouseMove (s : State) (clientX clientY : ℚ) : State :=
  if !s.isDragging then s
  else
    let dx := clientX - s.lastMouseX
    let dy := clientY - s.lastMouseY
    let theta := s.theta + dx * (1 / 2)
    let phi := s.phi + dy * (1 / 2)
    { s with
      lastMouseX := clientX
      lastMouseY := clientY
      theta := theta
      phi := max 5 (min 175 phi) }

/-- Keyboard and mouse events of the viewer. -/
inductive Event where
  | keyDown (keyCode : Nat)
  | mouseDown (clientX clientY : ℚ)
  | mouseUp
  | mouseMove (clientX clientY : ℚ)
deriving DecidableEq, Repr

def step (s : State) : Event → State
  | .keyDown k => onKeyDown s k
  | .mouseDown x y => onMouseDown s x y
  | .mouseUp => onMouseUp s
  | .mouseMove x y => onMouseMove s x y

/-- The state after handling the events in order. -/
def run (s : State) (events : List Event) : State := events.foldl step s

end Wandering

/-! ## `main.js`: `createTable` -/

namespace Table

/-- A mesh with a `BoxGeometry(width, height, depth)` centred at `position`. -/
structure BoxMesh where
  width : ℚ
  height : ℚ
  depth : ℚ
  position : Vec3
deriving DecidableEq, Repr

/-- Lowest and highest point of an unrotated box mesh. -/
def BoxMesh.bottom (b : BoxMesh) : ℚ := b.position.y - b.height / 2
def BoxMesh.top (b : BoxMesh) : ℚ := b.position.y + b.height / 2

/-- The group built by `createTable`: the table top and the four legs. -/
structure TableGroup where
  tableTop : BoxMesh
  legs : List BoxMesh
deriving DecidableEq, Repr

def tableThickness : ℚ := TABLE_THICKNESS
def tableTopSurfaceY : ℚ := TABLE_TOP_SURFACE_Y
def tableTopCenterY : ℚ := tableTopSurfaceY - tableThickness / 2

/-- `legHeight` as computed by `createTable`. -/
def legHeight : ℚ := tableTopCenterY - LEG_BOTTOM_Y + tableThickness / 2

def legCenterY : ℚ := LEG_BOTTOM_Y + legHeight / 2

/-- `legPositions`. -/
def legPositions : List Vec3 :=
  [⟨-18, legCenterY, -13⟩, ⟨18, legCenterY, -13⟩, ⟨-18, legCenterY, 13⟩, ⟨18, legCenterY, 13⟩]

/-- `createTable()` (the geometry it builds is the same in both versions of `main.js`). -/
def createTable : TableGroup where
  tableTop := ⟨40, tableThickness, 30, ⟨0, tableTopCenterY, 0⟩⟩
  legs := legPositions.map (fun pos => ⟨6 / 5, legHeight, 6 / 5, pos⟩)

end Table

/-! ## `models-data.js` and the drawing part of `3d-wandering.js` -/

namespace Models

/-- The global arrays `points` and `colors`. -/
structure Buffers where
  points : List Vec4
  colors : List Vec4
deriving DecidableEq, Repr

/-- `points.push(p); colors.push(c)`. -/
def Buffers.push (b : Buffers) (p c : Vec4) : Buffers :=
  { points := b.points ++ [p], colors := b.colors ++ [c] }

/-- Reading entry `i` of an array of vectors; every read made by the code is in range. -/
def at4 (xs : List Vec4) (i : Nat) : Vec4 := xs.getD i ⟨0, 0, 0, 0⟩

/-- `VertexColors` (lines 4-13). -/
def VertexColors : List Vec4 :=
  [⟨0, 0, 0, 1⟩, ⟨0, 0, 1, 1⟩, ⟨1, 0, 0, 1⟩, ⟨0, 1 / 2, 0, 1⟩,
   ⟨0, 0, 1 / 2, 1⟩, ⟨1 / 2, 0, 0, 1⟩, ⟨0, 1, 0, 1⟩, ⟨1 / 2, 1 / 2, 1 / 2, 1⟩]

/-- `len` of `vertextsXYZ`. -/
def axisLen : ℚ := 9 / 10

/-- `XYZaxis` (lines 21-42). -/
def XYZaxis : List Vec4 :=
  [⟨-axisLen, 0, 0, 1⟩, ⟨axisLen, 0, 0, 1⟩, ⟨axisLen, 0, 0, 1⟩,
   ⟨axisLen - 1 / 100, 1 / 100, 0, 1⟩, ⟨axisLen, 0, 0, 1⟩, ⟨axisLen - 1 / 100, -1 / 100, 0, 1⟩,
   ⟨0, -axisLen, 0, 1⟩, ⟨0, axisLen, 0, 1⟩, ⟨0, axisLen, 0, 1⟩,
   ⟨1 / 100, axisLen - 1 / 100, 0, 1⟩, ⟨0, axisLen, 0, 1⟩, ⟨-1 / 100, axisLen - 1 / 100, 0, 1⟩,
   ⟨0, 0, -axisLen, 1⟩, ⟨0, 0, axisLen, 1⟩, ⟨0, 0, axisLen, 1⟩,
   ⟨1 / 100, 0, axisLen - 1 / 100, 1⟩, ⟨0, 0, axisLen, 1⟩, ⟨-1 / 100, 0, axisLen - 1 / 100, 1⟩]

def red : Vec4 := ⟨1, 0, 0, 1⟩
def green : Vec4 := ⟨0, 1, 0, 1⟩
def blue : Vec4 := ⟨0, 0, 1, 1⟩

/-- `XYZColors` (lines 44-48). -/
def XYZColors : List Vec4 := [red, green, blue]

/-- `vertextsXYZ()` (lines 18-55); `Math.trunc(i/6)` is `i / 6` on naturals. -/
def vertextsXYZ (b : Buffers) : Buffers :=
  (List.range XYZaxis.length).foldl
    (fun b i => b.push (at4 XYZaxis i) (at4 XYZColors (i / 6))) b

/-- `vertices` of `quad` (lines 75-84), with `vertexMC = 0.5`. -/
def cubeVertices : List Vec4 :=
  [⟨-1 / 2, -1 / 2, 1 / 2, 1⟩, ⟨-1 / 2, 1 / 2, 1 / 2, 1⟩, ⟨1 / 2, 1 / 2, 1 / 2, 1⟩,
   ⟨1 / 2, -1 / 2, 1 / 2, 1⟩, ⟨-1 / 2, -1 / 2, -1 / 2, 1⟩, ⟨-1 / 2, 1 / 2, -1 / 2, 1⟩,
   ⟨1 / 2, 1 / 2, -1 / 2, 1⟩, ⟨1 / 2, -1 / 2, -1 / 2, 1⟩]

/-- `quad(a, b, c, d)` (lines 72-91). -/
def quad (a b c d : Nat) (buf : Buffers) : Buffers :=
  [a, b, c, a, c, d].foldl (fun buf idx => buf.push (at4 cubeVertices idx) (at4 VertexColors a)) buf

/-- `generateCube()` (lines 60-70). -/
def generateCube (buf : Buffers) : Buffers :=
  buf |> quad 1 0 3 2 |> quad 4 5 6 7 |> quad 2 3 7 6 |> quad 5 4 0 1 |> quad 6 5 1 2
      |> quad 3 0 4 7

/-- `mix(u, v, s)` of the `MV.js` helper library on 4-vectors. -/
def mix4 (u v : Vec4) (s : ℚ) : Vec4 :=
  ⟨(1 - s) * u.x + s * v.x, (1 - s) * u.y + s * v.y, (1 - s) * u.z + s * v.z,
   (1 - s) * u.w + s * v.w⟩

/-- `normalize(u, true)` of the `MV.js` helper library: the first three components are divided
by their Euclidean length, the last one is kept. -/
def normalize4 (m : MathFns) (u : Vec4) : Vec4 :=
  let len := m.sqrt (u.x * u.x + u.y * u.y + u.z * u.z)
  ⟨u.x / len, u.y / len, u.z / len, u.w⟩

/-- `triangle(a, b, c)` (lines 104-112). -/
def triangle (a b c : Vec4) (buf : Buffers) : Buffers :=
  { points := buf.points ++ [a, b, c]
    colors := buf.colors ++ [⟨0, 1, 1, 1⟩, ⟨1, 0, 1, 1⟩, ⟨0, 1, 0, 1⟩] }

/-- `divideTriangle(a, b, c, count)` (lines 114-132) for a count that is a natural number. -/
def divideTriangle (m : MathFns) : Vec4 → Vec4 → Vec4 → Nat → Buffers → Buffers
  | a, b, c, 0, buf => triangle a b c buf
  | a, b, c, count + 1, buf =>
    let ab := normalize4 m (mix4 a b (1 / 2))
    let ac := normalize4 m (mix4 a c (1 / 2))
    let bc := normalize4 m (mix4 b c (1 / 2))
    buf |> divideTriangle m a ab ac count |> divideTriangle m ab b bc count
        |> divideTriangle m bc c ac count |> divideTriangle m ab bc ac count

/-- `tetrahedron(a, b, c, d, n)` (lines 134-139). -/
def tetrahedron (m : MathFns) (a b c d : Vec4) (n : Nat) (buf : Buffers) : Buffers :=
  buf |> divideTriangle m a b c n |> divideTriangle m d c b n |> divideTriangle m a d b n
      |> divideTriangle m a c d n

def numTimesToSubdivide : Nat := 5

/-- `generateSphere()` (lines 96-142). -/
def generateSphere (m : MathFns) (buf : Buffers) : Buffers :=
  let va : Vec4 := ⟨0, 0, -1, 1⟩
  let vb : Vec4 := ⟨0, 942809 / 1000000, 333333 / 1000000, 1⟩
  let vc : Vec4 := ⟨-816497 / 1000000, -471405 / 1000000, 333333 / 1000000, 1⟩
  let vd : Vec4 := ⟨816497 / 1000000, -471405 / 1000000, 333333 / 1000000, 1⟩
  tetrahedron m va vb vc vd numTimesToSubdivide buf

def nRows : Nat := 21
def nColumns : Nat := 21
def coordinateRange : ℚ := 11 / 5

/-- The `x` of column `j` before scaling (lines 238, 251, 255, 259, 263). -/
def hatX (j : Nat) : ℚ := ((j : ℚ) / ((nColumns : ℚ) - 1) * 2 - 1) * coordinateRange

/-- The `z` of row `i` before scaling (lines 239, 252, 256, 260, 264). -/
def hatZ (i : Nat) : ℚ := ((i : ℚ) / ((nRows : ℚ) - 1) * 2 - 1) * coordinateRange

/-- The height stored in `data[i][j]` (lines 241-243); `exp` is `Math.exp`. -/
def hatHeight (exp : ℚ → ℚ) (i j : Nat) : ℚ :=
  let x := hatX j
  let z := hatZ i
  let rSquared := x * x + z * z
  (1 - rSquared) * exp (-rSquared / 2)

/-- The array `data` after the first pair of loops (lines 230-245). -/
def hatData (exp : ℚ → ℚ) : List (List ℚ) :=
  (List.range nRows).map (fun i => (List.range nColumns).map (fun j => hatHeight exp i j))

/-- Reading `data[i][j]`; every read made by the code is in range. -/
def dataAt (data : List (List ℚ)) (i j : Nat) : ℚ := (data.getD i []).getD j 0

/-- `getColorByHeight` (lines 292-297). -/
def getColorByHeight (height : ℚ) : Vec4 :=
  if 1 / 2 < height then ⟨1, 4 / 5, 3 / 5, 1⟩
  else if 0 < height then ⟨9 / 10, 7 / 10, 3 / 10, 1⟩
  else if -1 / 5 < height then ⟨7 / 10, 1 / 2, 1 / 5, 1⟩
  else ⟨1 / 2, 3 / 10, 1 / 10, 1⟩

/-- The body of the inner vertex loop (lines 250-305) for cell `(i, j)`. -/
def hatCell (data : List (List ℚ)) (i j : Nat) (buf : Buffers) : Buffers :=
  let scale : ℚ := 1 / coordinateRange
  let v1 : Vec4 := ⟨hatX j * scale, dataAt data i j, hatZ i * scale, 1⟩
  let v2 : Vec4 := ⟨hatX (j + 1) * scale, dataAt data i (j + 1), hatZ i * scale, 1⟩
  let v3 : Vec4 := ⟨hatX (j + 1) * scale, dataAt data (i + 1) (j + 1), hatZ (i + 1) * scale, 1⟩
  let v4 : Vec4 := ⟨hatX j * scale, dataAt data (i + 1) j, hatZ (i + 1) * scale, 1⟩
  let height1 := dataAt data i j
  let height2 := dataAt data i (j + 1)
  let height3 := dataAt data (i + 1) (j + 1)
  let height4 := dataAt data (i + 1) j
  { points := buf.points ++ [v1, v2, v3, v1, v3, v4]
    colors := buf.colors ++
      [getColorByHeight height1, getColorByHeight height2, getColorByHeight height3,
       getColorByHeight height1, getColorByHeight height3, getColorByHeight height4] }

/-- `generateHat()` (lines 223-308). -/
def generateHat (exp : ℚ → ℚ) (buf : Buffers) : Buffers :=
  let data := hatData exp
  (List.range (nRows - 1)).foldl
    (fun buf i => (List.range (nColumns - 1)).foldl (fun buf j => hatCell data i j buf) buf) buf

/-- `modelChange(model)` (lines 239-283 of `3d-wandering.js`) on the vertex arrays. -/
def modelChange (m : MathFns) (exp : ℚ → ℚ) (buf : Buffers) (model : String) : Buffers :=
  if model = "solar" then buf
  else
    let empty : Buffers := ⟨[], []⟩
    if model = "cube" then generateCube (vertextsXYZ empty)
    else if model = "sphere" then generateSphere m (vertextsXYZ empty)
    else if model = "hat" then generateHat exp (vertextsXYZ empty)
    else empty

/-- The primitive kinds used by `render`. -/
inductive DrawMode where
  | lines
  | triangles
deriving DecidableEq, Repr

/-- One `gl.drawArrays(mode, first, count)` call. -/
structure DrawCall where
  mode : DrawMode
  first : Int
  count : Int
deriving DecidableEq, Repr

/-- The four `gl.drawArrays` calls of `render` (lines 190-196 of `3d-wandering.js`). -/
def renderDraws (buf : Buffers) : List DrawCall :=
  [⟨DrawMode.lines, 0, 6⟩, ⟨DrawMode.lines, 6, 6⟩, ⟨DrawMode.lines, 12, 6⟩,
   ⟨DrawMode.triangles, 18, (buf.points.length : Int) - 18⟩]

/-- A generator appends exactly `n` entries to each of `points` and `colors`, and every
appended point satisfies `P`. -/
def AppendsWith (P : Vec4 → Prop) (g : Buffers → Buffers) (n : Nat) : Prop :=
  ∀ buf, ∃ ps cs, (g buf).points = buf.points ++ ps ∧ (g buf).colors = buf.colors ++ cs ∧
    ps.length = n ∧ cs.length = n ∧ ∀ v ∈ ps, P v

/-- A generator appends exactly `n` entries to each of `points` and `colors`. -/
def Appends (g : Buffers → Buffers) (n : Nat) : Prop := AppendsWith (fun _ => True) g n

/-- The colours `vertextsXYZ` gives to the 18 axis vertices. -/
def axisColors : List Vec4 :=
  [red, red, red, red, red, red, green, green, green, green, green, green,
   blue, blue, blue, blue, blue, blue]

/-- A vertex of the hat mesh: it sits at a grid point `(i, j)` with `0 <= i, j <= 20`, has
`x = j/10 - 1` and `z = i/10 - 1`, both in [-1, 1], and its height is the hat function at the
unscaled coordinates `(2.2 x, 2.2 z)`. -/
def HatVertex (exp : ℚ → ℚ) (v : Vec4) : Prop :=
  ∃ i j : Nat, i ≤ 20 ∧ j ≤ 20 ∧ v.x = (j : ℚ) / 10 - 1 ∧ v.z = (i : ℚ) / 10 - 1 ∧
    -1 ≤ v.x ∧ v.x ≤ 1 ∧ -1 ≤ v.z ∧ v.z ≤ 1 ∧
    v.y = (1 - ((11 / 5 * v.x) * (11 / 5 * v.x) + (11 / 5 * v.z) * (11 / 5 * v.z))) *
      exp (-((11 / 5 * v.x) * (11 / 5 * v.x) + (11 / 5 * v.z) * (11 / 5 * v.z)) / 2)

end Models

/-! ## `bubbles.js` -/

namespace Bubbles

/-- A value returned by `Math.random()`: a number in `[0, 1)`. -/
abbrev Unit01 := { q : ℚ // 0 ≤ q ∧ q < 1 }

/-- An entry of `this.particles` (lines 62-71). -/
structure Particle where
  x : ℚ
  y : ℚ
  z : ℚ
  baseScale : ℚ
  speed : ℚ
  angle : ℚ
  wobblePhase : ℚ
  active : Bool
  maxSize : ℚ
  growthRate : ℚ
deriving DecidableEq, Repr

/-- The position and scale stored in the instance matrix of one bubble by `setMatrixAt`. -/
structure Instance where
  position : Vec3
  scale : Vec3
deriving DecidableEq, Repr

/-- Particle `i` together with instance `i` of the mesh. -/
structure Slot where
  p : Particle
  inst : Instance
deriving DecidableEq, Repr

/-- The `mesh` of an entry of `window.fishObjs`. -/
structure FishPose where
  position : Vec3
  rotation : Vec3
deriving DecidableEq, Repr

/-- What one call of `update(dt, time)` reads from outside the bubble system: the arguments,
`window.fishObjs`, the successive values of `Math.random()`, `Math.PI`, the numeric library
and the library method `Vector3.applyEuler` (vector, then Euler angles). -/
structure Env where
  m : MathFns
  PI : ℚ
  applyEuler : Vec3 → Vec3 → Vec3
  rnd : Nat → Unit01
  fishes : List FishPose
  dt : ℚ
  time : ℚ

/-- The bubble system: `mesh.visible`, the particles with their instances, and
`mesh.instanceMatrix.needsUpdate`. -/
structure System where
  visible : Bool
  slots : List Slot
  instanceMatrixNeedsUpdate : Bool
deriving DecidableEq, Repr

/-- Particle `i` as created by the constructor (lines 62-77); five random draws each. -/
def initSlot (PI : ℚ) (rnd : Nat → Unit01) (i : Nat) : Slot where
  p :=
    { x := 0
      y := -1000
      z := 0
      baseScale := 0
      speed := 3 / 5 + (rnd (5 * i)).val * (4 / 5)
      angle := (rnd (5 * i + 1)).val * PI * 2
      wobblePhase := (rnd (5 * i + 2)).val * PI * 2
      active := false
      maxSize := 3 / 50 + (rnd (5 * i + 3)).val * (3 / 50)
      growthRate := 3 / 10 + (rnd (5 * i + 4)).val * (3 / 10) }
  inst := ⟨⟨0, -1000, 0⟩, ⟨0, 0, 0⟩⟩

/-- The constructor (lines 7-78) with `count` particles. -/
def init (PI : ℚ) (rnd : Nat → Unit01) (count : Nat) : System where
  visible := true
  slots := (List.range count).map (initSlot PI rnd)
  instanceMatrixNeedsUpdate := false

/-- The active branch of the loop body (lines 103-136). -/
def stepActive (e : Env) (s : Slot) : Slot :=
  let p := s.p
  let y := p.y + p.speed * e.dt
  let radius : ℚ := 1 / 20
  let spiralSpeed : ℚ := 3
  let offsetX := e.m.sin (e.time * spiralSpeed + p.angle) * radius
  let offsetZ := e.m.cos (e.time * spiralSpeed + p.angle) * radius
  let baseScale := if p.baseScale < p.maxSize then p.baseScale + p.growthRate * e.dt
    else p.baseScale
  let wobbleFrequency : ℚ := 8
  let wobbleAmount : ℚ := 3 / 20
  let deformation := e.m.sin (e.time * wobbleFrequency + p.wobblePhase) * wobbleAmount
  let scaleY := baseScale * (1 + deformation)
  let scaleXZ := baseScale * (1 - deformation * (1 / 2))
  let p1 : Particle :=
    if TANK_BOTTOM_Y + WATER_TOP < y then
      { p with active := false, y := -1000, baseScale := 0 }
    else { p with y := y, baseScale := baseScale }
  { p := p1
    inst := ⟨⟨p1.x + offsetX, p1.y, p1.z + offsetZ⟩, ⟨scaleXZ, scaleY, scaleXZ⟩⟩ }

/-- `fishes[Math.floor(r * fishes.length)]`. -/
def pickFish (fishes : List FishPose) (r : Unit01) : Option FishPose :=
  fishes.get? (⌊r.val * (fishes.length : ℚ)⌋).toNat

/-- The inactive branch of the loop body (lines 139-154).  `k` counts the values of
`Math.random()` consumed so far in this call; the result carries the new count and whether
`needsUpdate` was set.  The fish index is below `fishes.length` because the draw is in
`[0, 1)`, so the `none` case does not occur. -/
def stepInactive (e : Env) (s : Slot) (k : Nat) : Slot × Nat × Bool :=
  if e.fishes.length = 0 then (s, k, false)
  else if (e.rnd k).val < 3 / 50 then
    match pickFish e.fishes (e.rnd (k + 1)) with
    | none => (s, k + 2, false)
    | some randomFish =>
      let fishDir := e.applyEuler ⟨0, 0, 1⟩ randomFish.rotation
      let p : Particle :=
        { s.p with
          active := true
          x := randomFish.position.x + fishDir.x * (3 / 4)
          y := randomFish.position.y + 3 / 20
          z := randomFish.position.z + fishDir.z * (3 / 4)
          baseScale := 1 / 50
          wobblePhase := (e.rnd (k + 2)).val * e.PI * 2 }
      ({ p := p, inst := ⟨⟨p.x, p.y, p.z⟩, ⟨p.baseScale, p.baseScale, p.baseScale⟩⟩ }, k + 3, true)
  else (s, k + 1, false)

/-- The loop body (lines 100-155) for one particle. -/
def stepSlot (e : Env) (s : Slot) (k : Nat) : Slot × Nat × Bool :=
  if s.p.active then (stepActive e s, k, true) else stepInactive e s k

/-- The loop over the particles (lines 99-156), from random-draw count `k`. -/
def updateSlots (e : Env) : List Slot → Nat → List Slot × Nat × Bool
  | [], k => ([], k, false)
  | s :: rest, k =>
    let r := stepSlot e s k
    let rs := updateSlots e rest r.2.1
    (r.1 :: rs.1, rs.2.1, r.2.2 || rs.2.2)

/-- `update(dt, time)` (lines 80-161).  Hiding and showing the mesh around the cube-camera
update leaves `mesh.visible` as it was. -/
def update (e : Env) (sys : System) : System :=
  if !sys.visible then sys
  else
    let r := updateSlots e sys.slots 0
    { sys with
      slots := r.1
      instanceMatrixNeedsUpdate := if r.2.2 then true else sys.instanceMatrixNeedsUpdate }

/-- What happens to a bubble system after construction: frames, and the GUI switch that sets
`mesh.visible` (`main.js`, line 368). -/
inductive Op where
  | update (e : Env)
  | setVisible (visible : Bool)

def step (sys : System) : Op → System
  | .update e => update e sys
  | .setVisible v => { sys with visible := v }

def run (sys : System) (ops : List Op) : System := ops.foldl step sys

/-- Every inactive particle is parked at `y = -1000` with `baseScale = 0`. -/
def InactiveParked (slots : List Slot) : Prop :=
  ∀ s ∈ slots, s.p.active = false → s.p.y = -1000 ∧ s.p.baseScale = 0

/-- A constant stream of random draws, for evaluating on concrete inputs. -/
def halfRnd : Nat → Unit01 := fun _ => ⟨1 / 2, by norm_num, by norm_num⟩

/-- An active bubble just below the surface, for evaluating on concrete inputs. -/
def exampleBubble : Slot where
  p :=
    { x := 0, y := TANK_BOTTOM_Y + WATER_TOP - 1 / 10, z := 0, baseScale := 1 / 20, speed := 1,
      angle := 0, wobblePhase := 0, active := true, maxSize := 1 / 10, growthRate := 1 / 2 }
  inst := ⟨⟨0, 0, 0⟩, ⟨0, 0, 0⟩⟩

/-- An environment with no fish and the given time step, for evaluating on concrete inputs. -/
def exampleEnv (dt : ℚ) : Env where
  m := ratMath
  PI := 22 / 7
  applyEuler := fun v _ => v
  rnd := halfRnd
  fishes := []
  dt := dt
  time := 0

end Bubbles

/-! # Theorems -/

namespace OfficialPathTracer

theorem framesLinked_chain : ∀ (cur : Int) (fs : List Frame), FramesLinked cur fs →
    List.Chain' (fun newer older => newer.src = older.dst) fs ∧ (∀ f ∈ fs, f.src ≠ f.dst)
  | _, [], _ => ⟨List.chain'_nil, by simp⟩
  | _, [f], h => ⟨List.chain'_singleton f, by
      intro g hg
      simp only [List.mem_singleton] at hg
      subst hg
      exact h.2.1⟩
  | _, f :: g :: fs, h => by
      obtain ⟨_, hne, hrest⟩ := h
      have ih := framesLinked_chain f.src (g :: fs) hrest
      refine ⟨List.Chain'.cons hrest.1.symm ih.1, ?_⟩
      intro k hk
      rcases List.mem_cons.1 hk with hk | hk
      · subst hk; exact hne
      · exact ih.2 k hk

theorem inv_init : Inv init := ⟨Or.inl rfl, trivial⟩

/-- What one `render` does on a state whose index is 0 or 1 and whose camera is set. -/
theorem render_spec (s : State) (c : Vec3) (cam : Camera) (hcam : s.camera = some cam)
    (hidx : s.currentAccumIndex = 0 ∨ s.currentAccumIndex = 1) :
    ∃ old s1, s.getTarget s.currentAccumIndex = some old ∧ render s c = some s1 ∧
      s1.frames = ⟨s.currentAccumIndex, 1 - s.currentAccumIndex⟩ :: s.frames ∧
      s1.currentAccumIndex = 1 - s.currentAccumIndex ∧
      s1.getTarget (1 - s.currentAccumIndex) = some (accumulate ((s.samples : ℚ) + 1) old c) ∧
      s1.samples = s.samples + 1 ∧ s1.camera = s.camera := by
  rcases hidx with h | h
  · simp [render, hcam, State.getTarget, State.setTarget, h]
  · simp [render, hcam, State.getTarget, State.setTarget, h]

theorem step_inv (s : State) (op : Op) (h : Inv s) : ∃ s1, step s op = some s1 ∧ Inv s1 := by
  cases op with
  | setCamera c => exact ⟨_, rfl, h⟩
  | setSize w h1 => exact ⟨_, rfl, h⟩
  | setScene => exact ⟨_, rfl, h⟩
  | reset => exact ⟨_, rfl, h⟩
  | render c =>
    cases hcam : s.camera with
    | none => exact ⟨s, by simp [step, render, hcam], h⟩
    | some cam =>
      obtain ⟨old, s1, _, hr, hf, hi, _⟩ := render_spec s c cam hcam h.1
      refine ⟨s1, hr, ?_, ?_⟩
      · rw [hi]; rcases h.1 with h0 | h0 <;> simp [h0]
      · rw [hf, hi]
        refine ⟨rfl, ?_, h.2⟩
        show s.currentAccumIndex ≠ 1 - s.currentAccumIndex
        omega

theorem run_inv : ∀ (ops : List Op) (s : State), Inv s → ∃ s1, run s ops = some s1 ∧ Inv s1
  | [], s, h => ⟨s, rfl, h⟩
  | op :: ops, s, h => by
      obtain ⟨s1, h1, hi1⟩ := step_inv s op h
      obtain ⟨s2, h2, hi2⟩ := run_inv ops s1 hi1
      exact ⟨s2, by simp [run, h1, h2], hi2⟩

end OfficialPathTracer

namespace OfficialPathTracer

theorem vec3_add_assoc (a b c : Vec3) : (a.add b).add c = a.add (b.add c) := by
  ext <;> simp [Vec3.add] <;> ring

/-- One frame turns "stored colour times (samples + 1) is the running sum" into the same
statement for the next running sum. -/
theorem render_sum (s : State) (c S : Vec3) (cam : Camera) (hcam : s.camera = some cam)
    (hidx : s.currentAccumIndex = 0 ∨ s.currentAccumIndex = 1)
    (hacc : ∃ a, s.accumulated = some a ∧ a.scale ((s.samples : ℚ) + 1) = S) :
    ∃ s1, render s c = some s1 ∧ s1.camera = some cam ∧
      (s1.currentAccumIndex = 0 ∨ s1.currentAccumIndex = 1) ∧ s1.samples = s.samples + 1 ∧
      ∃ a, s1.accumulated = some a ∧ a.scale ((s1.samples : ℚ) + 1) = S.add c := by
  obtain ⟨a, ha, haS⟩ := hacc
  obtain ⟨old, s1, hold, hr, _, hi, ht, hs, hc⟩ := render_spec s c cam hcam hidx
  have hoa : old = a := by
    have := hold.symm.trans ha
    simpa using this
  subst hoa
  refine ⟨s1, hr, hc.trans hcam, ?_, hs, accumulate ((s.samples : ℚ) + 1) old c, ?_, ?_⟩
  · rw [hi]; omega
  · simpa [State.accumulated, hi] using ht
  · have hpos : ((s.samples : ℚ) + 1 + 1) ≠ 0 := by positivity
    rw [hs, ← haS]
    ext <;> simp [accumulate, Vec3.mix, Vec3.scale, Vec3.add] <;> field_simp

theorem renders_sum : ∀ (cs : List Vec3) (s : State) (S : Vec3) (cam : Camera),
    s.camera = some cam → (s.currentAccumIndex = 0 ∨ s.currentAccumIndex = 1) →
    (∃ a, s.accumulated = some a ∧ a.scale ((s.samples : ℚ) + 1) = S) →
    ∃ s1, run s (cs.map Op.render) = some s1 ∧ s1.samples = s.samples + cs.length ∧
      ∃ a, s1.accumulated = some a ∧ a.scale ((s1.samples : ℚ) + 1) = S.add (sumColors cs)
  | [], s, S, _, _, _, hacc => by
      obtain ⟨a, ha, haS⟩ := hacc
      refine ⟨s, rfl, rfl, a, ha, ?_⟩
      rw [haS]; ext <;> simp [sumColors, Vec3.add, Vec3.zero]
  | c :: cs, s, S, cam, hcam, hidx, hacc => by
      obtain ⟨s1, hr, hc1, hi1, hs1, hacc1⟩ := render_sum s c S cam hcam hidx hacc
      obtain ⟨s2, hr2, hs2, a, ha, haS⟩ := renders_sum cs s1 (S.add c) cam hc1 hi1 hacc1
      refine ⟨s2, by simp [run, step, hr, hr2], ?_, a, ha, ?_⟩
      · rw [hs2, hs1, List.length_cons]; omega
      · rw [haS, sumColors, vec3_add_assoc]

/-- C1 (what the code computes): after `reset()` and one `render()` per colour of `cs`, on a
tracer with a camera, the colour held by the accumulation target last written is the sum of the
traced colours divided by `n + 1`, where `n` is the number of frames; it is not their mean. -/
theorem accumulation_after_reset (s : State) (cam : Camera) (cs : List Vec3)
    (hcam : s.camera = some cam)
    (hidx : s.currentAccumIndex = 0 ∨ s.currentAccumIndex = 1) :
    ∃ s1, resetThenRender s cs = some s1 ∧ s1.samples = cs.length ∧
      s1.accumulated = some ((sumColors cs).divScalar ((cs.length : ℚ) + 1)) := by
  have h0 : ∃ a, (reset s).accumulated = some a ∧
      a.scale (((reset s).samples : ℚ) + 1) = Vec3.zero := by
    refine ⟨Vec3.zero, ?_, ?_⟩
    · rcases hidx with h | h <;> simp [State.accumulated, State.getTarget, reset, h]
    · simp [Vec3.scale, Vec3.zero]
  obtain ⟨s1, hr, hs, a, ha, haS⟩ := renders_sum cs (reset s) Vec3.zero cam hcam hidx h0
  have hs1 : s1.samples = cs.length := by simpa [reset] using hs
  refine ⟨s1, hr, hs1, ?_⟩
  rw [ha]
  have hpos : ((cs.length : ℚ) + 1) ≠ 0 := by positivity
  have hz : Vec3.zero.add (sumColors cs) = sumColors cs := by
    ext <;> simp [Vec3.add, Vec3.zero]
  rw [hz, hs1] at haS
  rw [← haS]
  congr 1
  ext <;> simp [Vec3.scale, Vec3.divScalar] <;> field_simp

/-- C1, evaluated: one frame of colour (1,1,1) after a reset leaves (1/2,1/2,1/2) in the
accumulation target, whereas the mean of the single sample is (1,1,1). -/
theorem accumulation_after_reset_witness :
    ∃ s1, resetThenRender (setCamera init (some cam0)) [⟨1, 1, 1⟩] = some s1 ∧
      s1.accumulated = some ⟨1 / 2, 1 / 2, 1 / 2⟩ ∧
      meanColor [⟨1, 1, 1⟩] = ⟨1, 1, 1⟩ := by
  obtain ⟨s1, h1, _, h3⟩ :=
    accumulation_after_reset (setCamera init (some cam0)) cam0 [⟨1, 1, 1⟩] rfl (Or.inl rfl)
  refine ⟨s1, h1, ?_, ?_⟩
  · rw [h3]; simp [sumColors, Vec3.add, Vec3.zero, Vec3.divScalar]; norm_num
  · simp [meanColor, sumColors, Vec3.add, Vec3.zero, Vec3.divScalar]

/-- C2: from the constructor state, every sequence of calls succeeds and ends in a state whose
`currentAccumIndex` is 0 or 1; in the log of executed frames every frame read a target other
than the one it wrote, and each frame read the target that the frame before it wrote; and when
a camera is set the next `render()` reads target `currentAccumIndex`, writes target
`1 - currentAccumIndex` (with the blend of what it read and the new sample) and makes the written
index current. -/
theorem pingpong_invariant (ops : List Op) :
    ∃ s, run init ops = some s ∧
      (s.currentAccumIndex = 0 ∨ s.currentAccumIndex = 1) ∧
      (∀ f ∈ s.frames, f.src ≠ f.dst) ∧
      List.Chain' (fun newer older => newer.src = older.dst) s.frames ∧
      (∀ (cam : Camera) (c : Vec3), s.camera = some cam →
        ∃ old s1, s.getTarget s.currentAccumIndex = some old ∧ render s c = some s1 ∧
          s1.frames = ⟨s.currentAccumIndex, 1 - s.currentAccumIndex⟩ :: s.frames ∧
          s1.currentAccumIndex = 1 - s.currentAccumIndex ∧
          s1.getTarget (1 - s.currentAccumIndex)
            = some (accumulate ((s.samples : ℚ) + 1) old c)) := by
  obtain ⟨s, hs, hinv⟩ := run_inv ops init inv_init
  obtain ⟨hchain, hne⟩ := framesLinked_chain _ _ hinv.2
  refine ⟨s, hs, hinv.1, hne, hchain, ?_⟩
  intro cam c hcam
  obtain ⟨old, s1, h1, h2, h3, h4, h5, _⟩ := render_spec s c cam hcam hinv.1
  exact ⟨old, s1, h1, h2, h3, h4, h5⟩

/-- C2 at a concrete input: after `setCamera` the first frame reads target 0, writes target 1
and leaves index 1 current. -/
theorem pingpong_invariant_witness :
    ∃ s1, render (setCamera init (some cam0)) ⟨1, 1, 1⟩ = some s1 ∧
      s1.frames = [⟨0, 1⟩] ∧ s1.currentAccumIndex = 1 := by
  obtain ⟨s, hs, _, _, _, h⟩ := pingpong_invariant [Op.setCamera (some cam0)]
  have hs0 : s = setCamera init (some cam0) := by
    simpa [run, step] using hs.symm
  subst hs0
  obtain ⟨_, s1, _, h2, h3, h4, _⟩ := h cam0 ⟨1, 1, 1⟩ rfl
  exact ⟨s1, h2, by simpa [setCamera, init] using h3, by simpa [setCamera, init] using h4⟩

end OfficialPathTracer

theorem box3_getSize_nonneg (b : Box3) :
    0 ≤ b.getSize.x ∧ 0 ≤ b.getSize.y ∧ 0 ≤ b.getSize.z := by
  unfold Box3.getSize
  by_cases h : b.isEmpty = true
  · simp [h, Vec3.zero]
  · have h1 : ¬ (b.max.x < b.min.x) ∧ ¬ (b.max.y < b.min.y) ∧ ¬ (b.max.z < b.min.z) := by
      simpa [Box3.isEmpty, not_or, and_assoc] using h
    obtain ⟨hx, hy, hz⟩ := h1
    simp only [h, Vec3.sub]
    refine ⟨?_, ?_, ?_⟩ <;> simp <;> linarith

namespace OfficialPathTracer

theorem visitLight_spheres (d : SceneData) (o : Object3D) :
    (visitLight d o).spheres = d.spheres ∧ (visitLight d o).planes = d.planes := by
  unfold visitLight
  split <;> simp

/-- C3 (what the code does): the mesh that `createFishTank` names `'Water'` does not match the
names `'water'` / `'water_surface'` tested by `updateSceneData`, so for every interpretation of
the numeric library it adds no plane; it is sent to the sphere branch, which pushes a glass
sphere of radius 4.32 unless the size test rejects it.  In the scene holding only the fish tank
the only plane is the floor, which is not water. -/
theorem water_mesh_registered_as_sphere (m : MathFns) (setHex : Nat → Vec3) (d : SceneData) :
    (visitObject m d FishTank.water).planes = d.planes ∧
    (visitObject m d FishTank.water).spheres =
      (if FishTank.water.worldBox.getSize.length m < 1 / 1000 then d.spheres
       else d.spheres ++
        [⟨⟨0, TANK_BOTTOM_Y + 119 / 25, 0⟩, 108 / 25, ⟨1, 1, 1⟩, 1 / 50, true⟩]) ∧
    (updateSceneData m setHex (FishTank.createFishTank [])).planes
      = [floorPlane setHex (FishTank.createFishTank [])] ∧
    (floorPlane setHex (FishTank.createFishTank [])).isWater = false := by
  have hw : (sphereOfMesh FishTank.water)
      = ⟨⟨0, TANK_BOTTOM_Y + 119 / 25, 0⟩, 108 / 25, ⟨1, 1, 1⟩, 1 / 50, true⟩ := by
    simp [sphereOfMesh, FishTank.water, meshObject, boxAround, Box3.getCenter, Box3.getSize,
      Box3.isEmpty, FishTank.waterMaterial, MaterialSlot.first, Vec3.add, Vec3.sub, Vec3.scale,
      FishTank.waterHeight, WATER_TOP, TANK_WIDTH, TANK_DEPTH, TANK_BOTTOM_Y,
      TABLE_TOP_SURFACE_Y, FLOOR_Y, NEW_TABLE_HEIGHT, ORIGINAL_TABLE_HEIGHT,
      ORIGINAL_TABLE_TOP_SURFACE_Y, LEG_TOP_Y_ORIG, TABLE_THICKNESS]
    norm_num
  have hvis : ∀ (d : SceneData) (o : Object3D), o.isMesh = true → o.hasGeometry = true →
      o.name ≠ "skybox" → o.name ≠ "water" → o.name ≠ "water_surface" →
      (visitObject m d o).planes = d.planes := by
    intro d o h1 h2 h3 h4 h5
    simp only [visitObject, visitMesh, h1, h2, h3, h4, h5, if_true, if_false, or_self]
    split <;> simp [(visitLight_spheres d o).2]
  refine ⟨?_, ?_, ?_, rfl⟩
  · exact hvis d _ rfl rfl (by decide) (by decide) (by decide)
  · have hn : FishTank.water.name = "Water" := rfl
    have hmesh : FishTank.water.isMesh = true := rfl
    have hgeo : FishTank.water.hasGeometry = true := rfl
    simp only [visitObject, visitMesh, hmesh, hgeo, hn, if_true]
    rw [if_neg (by decide), if_neg (by decide)]
    split
    · exact (visitLight_spheres d _).1
    · simp [(visitLight_spheres d _).1, hw]
  · simp only [updateSceneData, FishTank.createFishTank, List.nil_append, List.foldl_cons,
      List.foldl_nil]
    rw [hvis _ _ rfl rfl (by decide) (by decide) (by decide),
      hvis _ _ rfl rfl (by decide) (by decide) (by decide),
      hvis _ _ rfl rfl (by decide) (by decide) (by decide),
      hvis _ _ rfl rfl (by decide) (by decide) (by decide),
      hvis _ _ rfl rfl (by decide) (by decide) (by decide)]

/-- What the traversal callback does to the sphere list for a mesh with a geometry whose name
is none of `skybox`, `water`, `water_surface`. -/
theorem visitObject_sphere (m : MathFns) (d : SceneData) (o : Object3D)
    (hsqrt : m.sqrt 0 < 1 / 1000)
    (hmesh : o.isMesh = true) (hgeo : o.hasGeometry = true)
    (hsky : o.name ≠ "skybox") (hwater : o.name ≠ "water") (hsurf : o.name ≠ "water_surface") :
    (1 / 1000 ≤ o.worldBox.getSize.length m →
      (visitObject m d o).spheres = d.spheres ++ [sphereOfMesh o] ∧
        (sphereOfMesh o).center = o.worldBox.getCenter ∧
        (sphereOfMesh o).radius = 9 / 10 * max (max o.worldBox.getSize.x o.worldBox.getSize.y)
          o.worldBox.getSize.z / 2 ∧
        0 < (sphereOfMesh o).radius) ∧
    (o.worldBox.getSize.length m < 1 / 1000 → (visitObject m d o).spheres = d.spheres) := by
  constructor
  · intro hlen
    refine ⟨?_, rfl, ?_, ?_⟩
    · simp only [visitObject, visitMesh, hmesh, hgeo, hsky, hwater, hsurf, if_true, if_false,
        or_self]
      rw [if_neg (not_lt.2 hlen)]
      simp [(visitLight_spheres d o).1]
    · simp only [sphereOfMesh]; ring
    · obtain ⟨hx, hy, hz⟩ := box3_getSize_nonneg o.worldBox
      have hmax : 0 < max (max o.worldBox.getSize.x o.worldBox.getSize.y)
          o.worldBox.getSize.z := by
        by_contra hcon
        have hle := not_lt.1 hcon
        have hz0 : o.worldBox.getSize.z = 0 := le_antisymm ((le_max_right _ _).trans hle) hz
        have hxy := (le_max_left _ _).trans hle
        have hx0 : o.worldBox.getSize.x = 0 := le_antisymm ((le_max_left _ _).trans hxy) hx
        have hy0 : o.worldBox.getSize.y = 0 := le_antisymm ((le_max_right _ _).trans hxy) hy
        have : o.worldBox.getSize.length m = m.sqrt 0 := by
          simp [Vec3.length, hx0, hy0, hz0]
        rw [this] at hlen
        linarith
      simp only [sphereOfMesh]
      positivity
  · intro hlen
    simp only [visitObject, visitMesh, hmesh, hgeo, hsky, hwater, hsurf, if_true, if_false,
      or_self]
    rw [if_pos hlen]
    exact (visitLight_spheres d o).1

/-- The sphere list after the traversal callback, for any node. -/
theorem visitObject_spheres_eq (m : MathFns) (d : SceneData) (o : Object3D) :
    (visitObject m d o).spheres = d.spheres ++
      (if o.isMesh = true ∧ o.hasGeometry = true ∧ o.name ≠ "skybox" ∧ o.name ≠ "water" ∧
          o.name ≠ "water_surface" ∧ 1 / 1000 ≤ o.worldBox.getSize.length m
        then [sphereOfMesh o] else []) := by
  have hl := (visitLight_spheres d o).1
  by_cases hmesh : o.isMesh = true
  · by_cases hsky : o.name = "skybox"
    · have hc : ¬ (o.isMesh = true ∧ o.hasGeometry = true ∧ o.name ≠ "skybox" ∧
          o.name ≠ "water" ∧ o.name ≠ "water_surface" ∧
          1 / 1000 ≤ o.worldBox.getSize.length m) := fun h => h.2.2.1 hsky
      rw [if_neg hc]
      simp only [visitObject, visitMesh, hmesh, hsky, if_true]
      simp [hl]
    · by_cases hw : o.name = "water" ∨ o.name = "water_surface"
      · have hc : ¬ (o.isMesh = true ∧ o.hasGeometry = true ∧ o.name ≠ "skybox" ∧
            o.name ≠ "water" ∧ o.name ≠ "water_surface" ∧
            1 / 1000 ≤ o.worldBox.getSize.length m) := by
          intro h
          rcases hw with hw | hw
          · exact h.2.2.2.1 hw
          · exact h.2.2.2.2.1 hw
        rw [if_neg hc]
        simp only [visitObject, visitMesh, hmesh, hsky, hw, if_true, if_false]
        simp [hl]
      · have hw1 : o.name ≠ "water" := fun h => hw (Or.inl h)
        have hw2 : o.name ≠ "water_surface" := fun h => hw (Or.inr h)
        by_cases hgeo : o.hasGeometry = true
        · by_cases hlen : o.worldBox.getSize.length m < 1 / 1000
          · have hc : ¬ (o.isMesh = true ∧ o.hasGeometry = true ∧ o.name ≠ "skybox" ∧
                o.name ≠ "water" ∧ o.name ≠ "water_surface" ∧
                1 / 1000 ≤ o.worldBox.getSize.length m) := fun h => not_le.2 hlen h.2.2.2.2.2
            rw [if_neg hc]
            simp only [visitObject, visitMesh, hmesh, hsky, hw, hgeo, hlen, if_true, if_false]
            simp [hl]
          · rw [if_pos ⟨hmesh, hgeo, hsky, hw1, hw2, not_lt.1 hlen⟩]
            simp only [visitObject, visitMesh, hmesh, hsky, hw, hgeo, hlen, if_true, if_false]
            simp [hl]
        · have hc : ¬ (o.isMesh = true ∧ o.hasGeometry = true ∧ o.name ≠ "skybox" ∧
              o.name ≠ "water" ∧ o.name ≠ "water_surface" ∧
              1 / 1000 ≤ o.worldBox.getSize.length m) := fun h => hgeo h.2.1
          rw [if_neg hc]
          simp only [visitObject, visitMesh, hmesh, hsky, hw, hgeo, if_true, if_false]
          simp [hl]
  · have hc : ¬ (o.isMesh = true ∧ o.hasGeometry = true ∧ o.name ≠ "skybox" ∧
        o.name ≠ "water" ∧ o.name ≠ "water_surface" ∧
        1 / 1000 ≤ o.worldBox.getSize.length m) := fun h => hmesh h.1
    rw [if_neg hc]
    simp only [visitObject, visitMesh, hmesh, if_false]
    simp [hl]

/-- The sphere list after traversing a list of nodes from any accumulator. -/
theorem foldl_visitObject_spheres (m : MathFns) :
    ∀ (scene : Scene) (d : SceneData),
      (scene.foldl (visitObject m) d).spheres = d.spheres ++ scene.filterMap (fun o =>
        if o.isMesh = true ∧ o.hasGeometry = true ∧ o.name ≠ "skybox" ∧ o.name ≠ "water" ∧
            o.name ≠ "water_surface" ∧ 1 / 1000 ≤ o.worldBox.getSize.length m
          then some (sphereOfMesh o) else none)
  | [], d => by simp
  | o :: rest, d => by
      rw [List.foldl_cons, foldl_visitObject_spheres m rest (visitObject m d o),
        visitObject_spheres_eq m d o]
      by_cases hc : o.isMesh = true ∧ o.hasGeometry = true ∧ o.name ≠ "skybox" ∧
          o.name ≠ "water" ∧ o.name ≠ "water_surface" ∧
          1 / 1000 ≤ o.worldBox.getSize.length m
      · rw [if_pos hc, List.filterMap_cons_some (by rw [if_pos hc])]
        simp
      · rw [if_neg hc, List.filterMap_cons_none (by rw [if_neg hc])]
        simp

/-- C5: the sphere list built by `updateSceneData` holds, in traversal order, exactly one
sphere for every mesh of the scene that has a geometry, is not named `skybox`, `water` or
`water_surface` and whose bounding-box size has length at least 0.001, and nothing else (so a
mesh whose size is shorter than 0.001 contributes none); the sphere of such a mesh is centred at
the bounding-box centre and has radius `0.9 * max(size.x, size.y, size.z) / 2`, which is
positive.  The same holds step by step: visiting such a mesh appends its one sphere to the
list, and visiting a mesh whose size is shorter than 0.001 leaves the list unchanged. -/
theorem sphere_approximation (m : MathFns) (setHex : Nat → Vec3) (scene : Scene)
    (hsqrt : m.sqrt 0 < 1 / 1000) :
    (updateSceneData m setHex scene).spheres = scene.filterMap (fun o =>
      if o.isMesh = true ∧ o.hasGeometry = true ∧ o.name ≠ "skybox" ∧ o.name ≠ "water" ∧
          o.name ≠ "water_surface" ∧ 1 / 1000 ≤ o.worldBox.getSize.length m
        then some (sphereOfMesh o) else none) ∧
    (∀ pre post : List Object3D, ∀ o : Object3D, scene = pre ++ o :: post →
      o.isMesh = true → o.hasGeometry = true → o.name ≠ "skybox" → o.name ≠ "water" →
      o.name ≠ "water_surface" →
      (1 / 1000 ≤ o.worldBox.getSize.length m →
        (updateSceneData m setHex scene).spheres =
          (updateSceneData m setHex pre).spheres ++
            sphereOfMesh o :: (updateSceneData m setHex post).spheres) ∧
      (o.worldBox.getSize.length m < 1 / 1000 →
        (updateSceneData m setHex scene).spheres =
          (updateSceneData m setHex pre).spheres ++ (updateSceneData m setHex post).spheres)) ∧
    (∀ (d : SceneData) (o : Object3D),
      o.isMesh = true → o.hasGeometry = true → o.name ≠ "skybox" → o.name ≠ "water" →
      o.name ≠ "water_surface" →
      (1 / 1000 ≤ o.worldBox.getSize.length m →
        (visitObject m d o).spheres = d.spheres ++ [sphereOfMesh o] ∧
        (sphereOfMesh o).center = o.worldBox.getCenter ∧
        (sphereOfMesh o).radius = 9 / 10 * max (max o.worldBox.getSize.x o.worldBox.getSize.y)
          o.worldBox.getSize.z / 2 ∧
        0 < (sphereOfMesh o).radius) ∧
      (o.worldBox.getSize.length m < 1 / 1000 → (visitObject m d o).spheres = d.spheres)) := by
  have hall : ∀ sc : Scene, (updateSceneData m setHex sc).spheres = sc.filterMap (fun o =>
      if o.isMesh = true ∧ o.hasGeometry = true ∧ o.name ≠ "skybox" ∧ o.name ≠ "water" ∧
          o.name ≠ "water_surface" ∧ 1 / 1000 ≤ o.worldBox.getSize.length m
        then some (sphereOfMesh o) else none) := by
    intro sc
    rw [updateSceneData, foldl_visitObject_spheres]
    simp
  refine ⟨hall scene, ?_, ?_⟩
  · intro pre post o hsc hmesh hgeo hsky hwater hsurf
    constructor
    · intro hlen
      rw [hall scene, hall pre, hall post, hsc, List.filterMap_append,
        List.filterMap_cons_some (by rw [if_pos ⟨hmesh, hgeo, hsky, hwater, hsurf, hlen⟩])]
    · intro hlen
      have hc : ¬ (o.isMesh = true ∧ o.hasGeometry = true ∧ o.name ≠ "skybox" ∧
          o.name ≠ "water" ∧ o.name ≠ "water_surface" ∧
          1 / 1000 ≤ o.worldBox.getSize.length m) := fun h => not_le.2 hlen h.2.2.2.2.2
      rw [hall scene, hall pre, hall post, hsc, List.filterMap_append,
        List.filterMap_cons_none (by rw [if_neg hc])]
  · intro d o hmesh hgeo hsky hwater hsurf
    exact visitObject_sphere m d o hsqrt hmesh hgeo hsky hwater hsurf

/-- C5 at a concrete input: in the scene holding one glass wall of the fish tank, 10 by 10,
`updateSceneData` builds exactly one sphere, of radius 4.5, centred at the wall's centre. -/
theorem sphere_approximation_witness :
    (updateSceneData ratMath (fun _ => Vec3.zero)
        [FishTank.createPanel 10 10 0 5 5 false]).spheres
      = [sphereOfMesh (FishTank.createPanel 10 10 0 5 5 false)] ∧
    (sphereOfMesh (FishTank.createPanel 10 10 0 5 5 false)).radius = 9 / 2 ∧
    (sphereOfMesh (FishTank.createPanel 10 10 0 5 5 false)).center = ⟨0, 5, 5⟩ := by
  have hs0 : ratMath.sqrt 0 < 1 / 1000 := by
    have h := Rat.sqrt_eq 0
    simp only [mul_zero, abs_zero] at h
    show Rat.sqrt 0 < 1 / 1000
    rw [h]; norm_num
  have hsize : (FishTank.createPanel 10 10 0 5 5 false).worldBox.getSize = ⟨10, 10, 0⟩ := by
    simp [FishTank.createPanel, meshObject, boxAround, Box3.getSize, Box3.isEmpty, Vec3.sub]
    norm_num
  have hcenter : (FishTank.createPanel 10 10 0 5 5 false).worldBox.getCenter = ⟨0, 5, 5⟩ := by
    simp [FishTank.createPanel, meshObject, boxAround, Box3.getCenter, Box3.isEmpty, Vec3.add,
      Vec3.scale]
    norm_num
  have hlen : (1 : ℚ) / 1000 ≤
      (FishTank.createPanel 10 10 0 5 5 false).worldBox.getSize.length ratMath := by
    rw [hsize]
    have h2 : (10 * 10 + 10 * 10 + 0 * 0 : ℚ) = 200 := by norm_num
    show 1 / 1000 ≤ Rat.sqrt (10 * 10 + 10 * 10 + 0 * 0)
    rw [h2, Rat.sqrt_ofNat]
    have : 14 ≤ Nat.sqrt 200 := Nat.le_sqrt.2 (by norm_num)
    have h14 : (14 : ℚ) ≤ (Nat.sqrt 200 : ℚ) := by exact_mod_cast this
    have e : ((OfNat.ofNat 200 : ℕ)) = 200 := rfl
    rw [e]
    linarith
  obtain ⟨_, hscene, hvisit⟩ := sphere_approximation ratMath (fun _ => Vec3.zero)
    [FishTank.createPanel 10 10 0 5 5 false] hs0
  have h1 := (hscene [] [] (FishTank.createPanel 10 10 0 5 5 false) rfl rfl rfl
    (by decide) (by decide) (by decide)).1 hlen
  obtain ⟨_, h3, h4, _⟩ := (hvisit ⟨[], [], []⟩ (FishTank.createPanel 10 10 0 5 5 false)
    rfl rfl (by decide) (by decide) (by decide)).1 hlen
  refine ⟨?_, ?_, ?_⟩
  · rw [h1]
    simp [updateSceneData]
  · rw [h4, hsize]
    norm_num
  · rw [h3, hcenter]

end OfficialPathTracer

namespace OfficialPathTracer

theorem range5 : List.range 5 = [0, 1, 2, 3, 4] := rfl
theorem range30_cons : List.range 30 = 0 :: List.range' 1 29 := rfl

theorem ex_sceneData (m : MathFns) (setHex : Nat → Vec3) :
    updateSceneData m setHex exampleScene
      = ⟨[], [⟨⟨0, FLOOR_Y, 0⟩, ⟨0, 1, 0⟩, ⟨1 / 2, 1 / 2, 1 / 2⟩, 4 / 5, false,
              ⟨-1000, -1000⟩, ⟨1000, 1000⟩⟩],
         [⟨⟨0, FLOOR_Y + 10, 0⟩, ⟨1, 1, 1⟩, 5⟩]⟩ := by
  simp [updateSceneData, exampleScene, visitObject, visitMesh, visitLight, exampleLight,
    floorPlane, floorColor, getObjectByName]
  norm_num

theorem ex_numSpheres (m : MathFns) (setHex : Nat → Vec3) :
    (exampleUniforms m setHex).uNumSpheres = 0 := by
  simp [exampleUniforms, ex_sceneData, updateShaderUniforms]

theorem ex_numPlanes (m : MathFns) (setHex : Nat → Vec3) :
    (exampleUniforms m setHex).uNumPlanes = 1 := by
  simp [exampleUniforms, ex_sceneData, updateShaderUniforms, MAX_PLANES]

theorem ex_numLights (m : MathFns) (setHex : Nat → Vec3) :
    (exampleUniforms m setHex).uNumLights = 1 := by
  simp [exampleUniforms, ex_sceneData, updateShaderUniforms, MAX_LIGHTS]

theorem ex_maxBounces (m : MathFns) (setHex : Nat → Vec3) :
    (exampleUniforms m setHex).uMaxBounces = 4 := by
  simp [exampleUniforms, updateShaderUniforms, initialUniforms]

theorem ex_planePoint (m : MathFns) (setHex : Nat → Vec3) :
    (exampleUniforms m setHex).uPlanePoints 0 = ⟨0, FLOOR_Y, 0⟩ := by
  simp [exampleUniforms, ex_sceneData, updateShaderUniforms, MAX_PLANES, copyEntry]

theorem ex_planeNormal (m : MathFns) (setHex : Nat → Vec3) :
    (exampleUniforms m setHex).uPlaneNormals 0 = ⟨0, 1, 0⟩ := by
  simp [exampleUniforms, ex_sceneData, updateShaderUniforms, MAX_PLANES, copyEntry]

theorem ex_planeAlbedo (m : MathFns) (setHex : Nat → Vec3) :
    (exampleUniforms m setHex).uPlaneAlbedos 0 = ⟨1 / 2, 1 / 2, 1 / 2⟩ := by
  simp [exampleUniforms, ex_sceneData, updateShaderUniforms, MAX_PLANES, copyEntry]

theorem ex_planeIsWater (m : MathFns) (setHex : Nat → Vec3) :
    (exampleUniforms m setHex).uPlaneIsWater 0 = 0 := by
  simp [exampleUniforms, ex_sceneData, updateShaderUniforms, MAX_PLANES, copyEntry]

theorem ex_planeBounds (m : MathFns) (setHex : Nat → Vec3) :
    (exampleUniforms m setHex).uPlaneBounds 0 = ⟨-1000, -1000, 1000, 1000⟩ := by
  simp [exampleUniforms, ex_sceneData, updateShaderUniforms, MAX_PLANES, copyEntry]

theorem ex_lightPos (m : MathFns) (setHex : Nat → Vec3) :
    (exampleUniforms m setHex).uLightPositions 0 = ⟨0, FLOOR_Y + 10, 0⟩ := by
  simp [exampleUniforms, ex_sceneData, updateShaderUniforms, MAX_LIGHTS, copyEntry]

theorem ex_lightColor (m : MathFns) (setHex : Nat → Vec3) :
    (exampleUniforms m setHex).uLightColors 0 = ⟨1, 1, 1⟩ := by
  simp [exampleUniforms, ex_sceneData, updateShaderUniforms, MAX_LIGHTS, copyEntry]

theorem ex_lightIntensity (m : MathFns) (setHex : Nat → Vec3) :
    (exampleUniforms m setHex).uLightIntensities 0 = 5 := by
  simp [exampleUniforms, ex_sceneData, updateShaderUniforms, MAX_LIGHTS, copyEntry]

/-- `intersectScene` reads `uMaxBounces` nowhere. -/
theorem intersectScene_maxBounces (m : MathFns) (u : Uniforms) (k : Int) (ro rd : Vec3) :
    intersectScene m { u with uMaxBounces := k } ro rd = intersectScene m u ro rd := rfl

theorem loopUntil_stop {σ : Type} (stop : Nat → Bool) (body : Nat → σ → σ) (i : Nat)
    (rest : List Nat) (s : σ) (h : stop i = true) : loopUntil stop body (i :: rest) s = s := by
  simp [loopUntil, h]

theorem loopUntil_step {σ : Type} (stop : Nat → Bool) (body : Nat → σ → σ) (i : Nat)
    (rest : List Nat) (s : σ) (h : stop i = false) :
    loopUntil stop body (i :: rest) s = loopUntil stop body rest (body i s) := by
  simp [loopUntil, h]

/-- `intersectScene` when the uniforms hold no sphere, one plane and one light. -/
theorem intersectScene_plane_light (m : MathFns) (u : Uniforms) (ro rd : Vec3)
    (hs : u.uNumSpheres = 0) (hp : u.uNumPlanes = 1) (hl : u.uNumLights = 1) :
    intersectScene m u ro rd =
      if (lightStep m u ro rd 0 (planeStep m u ro rd 0
          ⟨⟨10000, ⟨0, 1, 0⟩, Vec3.splat 0, Vec3.splat 0, 1 / 2, false⟩, false⟩)).hitSomething
      then (lightStep m u ro rd 0 (planeStep m u ro rd 0
          ⟨⟨10000, ⟨0, 1, 0⟩, Vec3.splat 0, Vec3.splat 0, 1 / 2, false⟩, false⟩)).hit
      else { (lightStep m u ro rd 0 (planeStep m u ro rd 0
          ⟨⟨10000, ⟨0, 1, 0⟩, Vec3.splat 0, Vec3.splat 0, 1 / 2, false⟩, false⟩)).hit
             with t := -1 } := by
  unfold intersectScene
  simp only [range30_cons, range5, MAX_SPHERES, MAX_PLANES, MAX_LIGHTS]
  rw [loopUntil_stop (fun i => decide (u.uNumSpheres ≤ (i : Int))) _ 0 _ _ (by simp [hs]),
    loopUntil_step (fun i => decide (u.uNumPlanes ≤ (i : Int))) _ 0 _ _ (by simp [hp]),
    loopUntil_stop (fun i => decide (u.uNumPlanes ≤ (i : Int))) _ 1 _ _ (by simp [hp]),
    loopUntil_step (fun i => decide (u.uNumLights ≤ (i : Int))) _ 0 _ _ (by simp [hl]),
    loopUntil_stop (fun i => decide (u.uNumLights ≤ (i : Int))) _ 1 _ _ (by simp [hl])]

/-- The primary ray of the example, straight down from height 1 above the floor, hits the
floor, a diffuse surface, at distance 1. -/
theorem ex_primary_hit (m : MathFns) (setHex : Nat → Vec3) (h4 : m.sqrt 4 = 2) :
    intersectScene m (exampleUniforms m setHex) exampleEye ⟨0, -1, 0⟩
      = ⟨1, ⟨0, 1, 0⟩, ⟨1 / 2, 1 / 2, 1 / 2⟩, ⟨0, 0, 0⟩, 4 / 5, false⟩ := by
  rw [intersectScene_plane_light m _ _ _ (ex_numSpheres m setHex) (ex_numPlanes m setHex)
    (ex_numLights m setHex)]
  norm_num [planeStep, lightStep, intersectPlaneBounded, intersectSphere, ex_planePoint,
    ex_planeNormal, ex_planeAlbedo, ex_planeIsWater, ex_planeBounds, ex_lightPos, ex_lightColor,
    ex_lightIntensity, Vec3.dot, Vec3.sub, Vec3.add, Vec3.scale, Vec3.splat, Vec2.splat, h4,
    exampleEye, FLOOR_Y]

/-- The shadow ray of the example, from just above the floor point straight up to the light,
misses the floor and is stopped at distance 7.98 by the sphere that stands for the light. -/
theorem ex_shadow_hit (m : MathFns) (setHex : Nat → Vec3) (h4 : m.sqrt 4 = 2) :
    intersectScene m (exampleUniforms m setHex) ⟨0, FLOOR_Y + 1 / 50, 0⟩ ⟨0, 1, 0⟩
      = ⟨399 / 50, ⟨0, 1, 0⟩, ⟨1, 1, 1⟩, ⟨25, 25, 25⟩, 1 / 2, false⟩ := by
  rw [intersectScene_plane_light m _ _ _ (ex_numSpheres m setHex) (ex_numPlanes m setHex)
    (ex_numLights m setHex)]
  norm_num [planeStep, lightStep, intersectPlaneBounded, intersectSphere, ex_planePoint,
    ex_planeNormal, ex_planeAlbedo, ex_planeIsWater, ex_planeBounds, ex_lightPos, ex_lightColor,
    ex_lightIntensity, Vec3.dot, Vec3.sub, Vec3.add, Vec3.scale, Vec3.splat, Vec2.splat, h4,
    FLOOR_Y]

/-- C4 (what the code does): in the example scene (the floor and one light 10 above it, no
mesh) the primary ray hits the floor, a diffuse surface.  There is no sphere and the only plane
does not meet the shadow ray, yet the shadow loop adds nothing to the colour, whatever the
colour and throughput: the shadow ray is stopped by the sphere of radius 2 that
`intersectScene` places at the light.  The contribution the light would make at throughput
(1/2, 1/2, 1/2) is (5/12, 5/12, 5/12); the colour after the first bounce is black, and with a
single bounce `traceRay` returns black. -/
theorem shadow_ray_blocked_by_light_sphere (m : MathFns) (setHex : Nat → Vec3)
    (pixel : Vec2) (throughput color : Vec3)
    (h0 : m.sqrt 0 = 0) (h4 : m.sqrt 4 = 2) (h100 : m.sqrt 100 = 10) :
    intersectScene m (exampleUniforms m setHex) exampleEye ⟨0, -1, 0⟩
      = ⟨1, ⟨0, 1, 0⟩, ⟨1 / 2, 1 / 2, 1 / 2⟩, ⟨0, 0, 0⟩, 4 / 5, false⟩ ∧
    (exampleUniforms m setHex).uNumSpheres = 0 ∧
    (exampleUniforms m setHex).uNumPlanes = 1 ∧
    intersectPlaneBounded (exampleHitPoint.add ((⟨0, 1, 0⟩ : Vec3).scale (1 / 50))) ⟨0, 1, 0⟩
      ((exampleUniforms m setHex).uPlanePoints 0) ((exampleUniforms m setHex).uPlaneNormals 0)
      ((exampleUniforms m setHex).uPlaneBounds 0) = -1 ∧
    lightContribution m (exampleUniforms m setHex) ⟨1 / 2, 1 / 2, 1 / 2⟩ exampleHitPoint
      ⟨0, 1, 0⟩ 0 = ⟨5 / 12, 5 / 12, 5 / 12⟩ ∧
    shadowLoop m (exampleUniforms m setHex) throughput exampleHitPoint ⟨0, 1, 0⟩ color = color ∧
    (bounceBody m (exampleUniforms m setHex) pixel 0
      ⟨exampleEye, ⟨0, -1, 0⟩, Vec3.splat 0, Vec3.splat 1, 0⟩).1.color = ⟨0, 0, 0⟩ ∧
    traceRay m { exampleUniforms m setHex with uMaxBounces := 1 } exampleEye ⟨0, -1, 0⟩ pixel
      = ⟨0, 0, 0⟩ := by
  have hdir : Vec3.normalize m (((exampleUniforms m setHex).uLightPositions 0).sub
      exampleHitPoint) = ⟨0, 1, 0⟩ := by
    norm_num [Vec3.normalize, Vec3.length, Vec3.divScalar, Vec3.sub, ex_lightPos, h100,
      exampleHitPoint]
  have hdist : Vec3.length m (((exampleUniforms m setHex).uLightPositions 0).sub
      exampleHitPoint) = 10 := by
    norm_num [Vec3.length, Vec3.sub, ex_lightPos, h100, exampleHitPoint]
  have horigin : exampleHitPoint.add ((⟨0, 1, 0⟩ : Vec3).scale (1 / 50))
      = ⟨0, FLOOR_Y + 1 / 50, 0⟩ := by
    norm_num [Vec3.add, Vec3.scale, exampleHitPoint]
  have hshadow : ∀ t c : Vec3,
      shadowLoop m (exampleUniforms m setHex) t exampleHitPoint ⟨0, 1, 0⟩ c = c := by
    intro t c
    simp only [shadowLoop, range5, MAX_LIGHTS, loopUntil, ex_numLights, shadowStep, hdir,
      hdist, horigin, ex_shadow_hit m setHex h4]
    norm_num
  have hlen0 : Vec3.length m ⟨0, 0, 0⟩ = 0 := by
    simp [Vec3.length, h0]
  have hp : exampleEye.add ((⟨0, -1, 0⟩ : Vec3).scale 1) = exampleHitPoint := by
    norm_num [Vec3.add, Vec3.scale, exampleEye, exampleHitPoint]
  have hc : (Vec3.splat 0).add ((Vec3.splat 1).mul ⟨0, 0, 0⟩) = ⟨0, 0, 0⟩ := by
    norm_num [Vec3.add, Vec3.mul, Vec3.splat]
  have hbody : ∀ k : Int, (bounceBody m { exampleUniforms m setHex with uMaxBounces := k } pixel 0
        ⟨exampleEye, ⟨0, -1, 0⟩, Vec3.splat 0, Vec3.splat 1, 0⟩).1.color = ⟨0, 0, 0⟩ := by
    intro k
    have hs : ∀ t c : Vec3, shadowLoop m { exampleUniforms m setHex with uMaxBounces := k } t
        exampleHitPoint ⟨0, 1, 0⟩ c = c := hshadow
    simp only [bounceBody, intersectScene_maxBounces, ex_primary_hit m setHex h4, zero_lt_one,
      if_true, hlen0, lt_irrefl, if_false, Bool.false_eq_true, diffuseBounce, hp, hc, hs]
  refine ⟨ex_primary_hit m setHex h4, ex_numSpheres m setHex, ex_numPlanes m setHex, ?_, ?_,
    hshadow throughput color, hbody 4, ?_⟩
  · rw [horigin]
    norm_num [intersectPlaneBounded, ex_planePoint, ex_planeNormal, ex_planeBounds, Vec3.dot,
      Vec3.sub, Vec3.add, Vec3.scale]
  · simp only [lightContribution, hdir, hdist]
    norm_num [Vec3.dot, Vec3.mul, Vec3.scale, ex_lightColor, ex_lightIntensity]
  · simp only [traceRay, traceRayState, range5, bounceLoop, Nat.cast_zero, Nat.cast_one,
      le_refl, if_true]
    rw [if_neg (by norm_num)]
    split
    · exact hbody 1
    · exact hbody 1

/-- C4 evaluated with the square root that is exact on rational squares. -/
theorem shadow_ray_blocked_by_light_sphere_witness :
    lightContribution ratMath (exampleUniforms ratMath (fun _ => Vec3.zero))
      ⟨1 / 2, 1 / 2, 1 / 2⟩ exampleHitPoint ⟨0, 1, 0⟩ 0 = ⟨5 / 12, 5 / 12, 5 / 12⟩ ∧
    traceRay ratMath { exampleUniforms ratMath (fun _ => Vec3.zero) with uMaxBounces := 1 }
      exampleEye ⟨0, -1, 0⟩ ⟨0, 0⟩ = ⟨0, 0, 0⟩ := by
  have hsq : ∀ q : ℚ, 0 ≤ q → ratMath.sqrt (q * q) = q := by
    intro q hq
    show Rat.sqrt (q * q) = q
    rw [Rat.sqrt_eq, abs_of_nonneg hq]
  have h0 : ratMath.sqrt 0 = 0 := by simpa using hsq 0 le_rfl
  have h4 : ratMath.sqrt 4 = 2 := by
    have h := hsq 2 (by norm_num)
    rwa [show (2 : ℚ) * 2 = 4 by norm_num] at h
  have h100 : ratMath.sqrt 100 = 10 := by
    have h := hsq 10 (by norm_num)
    rwa [show (10 : ℚ) * 10 = 100 by norm_num] at h
  obtain ⟨_, _, _, _, hc, _, _, ht⟩ := shadow_ray_blocked_by_light_sphere ratMath
    (fun _ => Vec3.zero) ⟨0, 0⟩ ⟨1, 1, 1⟩ ⟨0, 0, 0⟩ h0 h4 h100
  exact ⟨hc, ht⟩

end OfficialPathTracer

namespace OfficialPathTracer

theorem glassBounce_iterations (m : MathFns) (u : Uniforms) (pixel : Vec2) (b : Nat)
    (s : TraceState) (hit : HitInfo) (p c : Vec3) :
    (glassBounce m u pixel b s hit p c).iterations = s.iterations := by
  simp only [glassBounce]
  split_ifs <;> rfl

theorem bounceBody_iterations (m : MathFns) (u : Uniforms) (pixel : Vec2) (b : Nat)
    (s : TraceState) : (bounceBody m u pixel b s).1.iterations = s.iterations + 1 := by
  simp only [bounceBody]
  split_ifs <;> simp [glassBounce_iterations, diffuseBounce]

theorem bounceLoop_iterations (m : MathFns) (u : Uniforms) (pixel : Vec2) :
    ∀ (n k : Nat) (s : TraceState),
      ((bounceLoop m u pixel (List.range' k n) s).iterations : Int)
        ≤ s.iterations + max 0 (min u.uMaxBounces (k + n) - k)
  | 0, k, s => by
      simp only [List.range'_zero, bounceLoop]
      have : (0 : Int) ≤ max 0 (min u.uMaxBounces (k + (0 : Nat)) - k) := le_max_left _ _
      omega
  | n + 1, k, s => by
      simp only [List.range'_succ, bounceLoop]
      split_ifs with h1 h2
      · have : (0 : Int) ≤ max 0 (min u.uMaxBounces (k + (n + 1 : Nat)) - k) := le_max_left _ _
        omega
      · rw [bounceBody_iterations]
        push_cast
        omega
      · have ih := bounceLoop_iterations m u pixel n (k + 1) (bounceBody m u pixel k s).1
        rw [bounceBody_iterations] at ih
        push_cast at ih ⊢
        omega

end OfficialPathTracer

namespace PathTracingRenderer

theorem ptr_glassBounce_iterations (m : MathFns) (pixel : Vec2) (b : Nat)
    (s : TraceState) (hit : HitInfo) (p c : Vec3) :
    (glassBounce m pixel b s hit p c).iterations = s.iterations := by
  simp only [glassBounce]
  split_ifs <;> rfl

theorem ptr_bounceBody_iterations (m : MathFns) (u : Uniforms) (pixel : Vec2) (b : Nat)
    (s : TraceState) : (bounceBody m u pixel b s).1.iterations = s.iterations + 1 := by
  simp only [bounceBody]
  split_ifs <;> simp [ptr_glassBounce_iterations, diffuseBounce]

theorem ptr_bounceLoop_iterations (m : MathFns) (u : Uniforms) (pixel : Vec2) :
    ∀ (n k : Nat) (s : TraceState),
      ((bounceLoop m u pixel (List.range' k n) s).iterations : Int)
        ≤ s.iterations + max 0 (min u.uMaxBounces (k + n) - k)
  | 0, k, s => by
      simp only [List.range'_zero, bounceLoop]
      have : (0 : Int) ≤ max 0 (min u.uMaxBounces (k + (0 : Nat)) - k) := le_max_left _ _
      omega
  | n + 1, k, s => by
      simp only [List.range'_succ, bounceLoop]
      split_ifs with h1 h2
      · have : (0 : Int) ≤ max 0 (min u.uMaxBounces (k + (n + 1 : Nat)) - k) := le_max_left _ _
        omega
      · rw [ptr_bounceBody_iterations]
        push_cast
        omega
      · have ih := ptr_bounceLoop_iterations m u pixel n (k + 1) (bounceBody m u pixel k s).1
        rw [ptr_bounceBody_iterations] at ih
        push_cast at ih ⊢
        omega

end PathTracingRenderer

/-- C6: for every ray, scene and value of `uMaxBounces`, `traceRay` is a total function (its
loop runs over a fixed finite index list) that executes at most `min(uMaxBounces, 5)` bounce
iterations in `OfficialPathTracer` and at most `min(uMaxBounces, 4)` in `PathTracingRenderer`
(none when that minimum is negative); with `uMaxBounces <= 0` it executes no iteration and
returns black. -/
theorem bounce_iterations_bounded (m : MathFns) (uo : OfficialPathTracer.Uniforms)
    (up : PathTracingRenderer.Uniforms) (ro rd : Vec3) (pixel : Vec2) :
    ((OfficialPathTracer.traceRayState m uo ro rd pixel).iterations : Int)
        ≤ max 0 (min uo.uMaxBounces 5) ∧
    ((PathTracingRenderer.traceRayState m up ro rd pixel).iterations : Int)
        ≤ max 0 (min up.uMaxBounces 4) ∧
    (uo.uMaxBounces ≤ 0 →
      (OfficialPathTracer.traceRayState m uo ro rd pixel).iterations = 0 ∧
      OfficialPathTracer.traceRay m uo ro rd pixel = ⟨0, 0, 0⟩) ∧
    (up.uMaxBounces ≤ 0 →
      (PathTracingRenderer.traceRayState m up ro rd pixel).iterations = 0 ∧
      PathTracingRenderer.traceRay m up ro rd pixel = ⟨0, 0, 0⟩) := by
  refine ⟨?_, ?_, ?_, ?_⟩
  · have h := OfficialPathTracer.bounceLoop_iterations m uo pixel 5 0
      ⟨ro, rd, Vec3.splat 0, Vec3.splat 1, 0⟩
    simpa [OfficialPathTracer.traceRayState, List.range_eq_range'] using h
  · have h := PathTracingRenderer.ptr_bounceLoop_iterations m up pixel 4 0
      ⟨ro, rd, Vec3.splat 0, Vec3.splat 1, 0⟩
    simpa [PathTracingRenderer.traceRayState, List.range_eq_range'] using h
  · intro h
    have hs : OfficialPathTracer.traceRayState m uo ro rd pixel
        = ⟨ro, rd, Vec3.splat 0, Vec3.splat 1, 0⟩ := by
      show OfficialPathTracer.bounceLoop m uo pixel (List.range 5) _ = _
      rw [OfficialPathTracer.range5]
      simp only [OfficialPathTracer.bounceLoop]
      rw [if_pos (by simpa using h)]
    exact ⟨by rw [hs], by rw [OfficialPathTracer.traceRay, hs]; rfl⟩
  · intro h
    have r4 : List.range 4 = [0, 1, 2, 3] := rfl
    have hs : PathTracingRenderer.traceRayState m up ro rd pixel
        = ⟨ro, rd, Vec3.splat 0, Vec3.splat 1, 0⟩ := by
      show PathTracingRenderer.bounceLoop m up pixel (List.range 4) _ = _
      rw [r4]
      simp only [PathTracingRenderer.bounceLoop]
      rw [if_pos (by simpa using h)]
    exact ⟨by rw [hs], by rw [PathTracingRenderer.traceRay, hs]; rfl⟩

/-- C6 at a concrete input: with `uMaxBounces = 0` both tracers return black. -/
theorem bounce_iterations_bounded_witness :
    OfficialPathTracer.traceRay ratMath
        { OfficialPathTracer.initialUniforms with uMaxBounces := 0 } ⟨0, 1, 0⟩ ⟨0, -1, 0⟩ ⟨0, 0⟩
      = ⟨0, 0, 0⟩ ∧
    PathTracingRenderer.traceRay ratMath ⟨0, 0⟩ ⟨0, 5, 20⟩ ⟨0, 0, -1⟩ ⟨0, 0⟩ = ⟨0, 0, 0⟩ := by
  obtain ⟨_, _, ho, hp⟩ := bounce_iterations_bounded ratMath
    { OfficialPathTracer.initialUniforms with uMaxBounces := 0 } ⟨0, 0⟩ ⟨0, 1, 0⟩ ⟨0, -1, 0⟩ ⟨0, 0⟩
  refine ⟨(ho le_rfl).2, ?_⟩
  obtain ⟨_, _, _, hp2⟩ := bounce_iterations_bounded ratMath
    { OfficialPathTracer.initialUniforms with uMaxBounces := 0 } ⟨0, 0⟩ ⟨0, 5, 20⟩ ⟨0, 0, -1⟩
    ⟨0, 0⟩
  exact (hp2 le_rfl).2

theorem mathClamp_bounds (v lo hi : ℚ) (h : lo ≤ hi) :
    lo ≤ mathClamp v lo hi ∧ mathClamp v lo hi ≤ hi := by
  unfold mathClamp
  exact ⟨le_max_left _ _, max_le h (min_le_left _ _)⟩

namespace FishMovement

/-- C7: for every fish state, every `dt`, every outcome of the three random draws and every
clock value, after `update` the mesh position satisfies `|x| <= TANK_WIDTH/2 - 1.2 = 3.8`,
`|z| <= 3.8` and `TANK_BOTTOM_Y + 1.24 <= y <= TANK_BOTTOM_Y + WATER_TOP - 1.2`. -/
theorem fish_position_clamped (m : MathFns) (f : Fish) (dt r1 r2 r3 now : ℚ) :
    TANK_WIDTH / 2 - 6 / 5 = 19 / 5 ∧
    |(update m f dt r1 r2 r3 now).position.x| ≤ TANK_WIDTH / 2 - 6 / 5 ∧
    |(update m f dt r1 r2 r3 now).position.z| ≤ 19 / 5 ∧
    TANK_BOTTOM_Y + 124 / 100 ≤ (update m f dt r1 r2 r3 now).position.y ∧
    (update m f dt r1 r2 r3 now).position.y ≤ TANK_BOTTOM_Y + WATER_TOP - 6 / 5 := by
  have hw : halfWidth = 19 / 5 := by norm_num [halfWidth, margin, TANK_WIDTH]
  have hd : halfDepth = 19 / 5 := by norm_num [halfDepth, margin, TANK_WIDTH]
  have hlo : yMin = TANK_BOTTOM_Y + 124 / 100 := by simp only [yMin, margin]; ring
  have hhi : yMax = TANK_BOTTOM_Y + WATER_TOP - 6 / 5 := by simp only [yMax, margin]
  have hT : TANK_WIDTH / 2 - 6 / 5 = (19 : ℚ) / 5 := by norm_num [TANK_WIDTH]
  have hyy : yMin ≤ yMax := by rw [hlo, hhi]; simp only [WATER_TOP]; linarith
  have hx := mathClamp_bounds
    ((f.position.addScaledVector (f.velocity.lerp
      ((steer f.position f.velocity).setLength m
        (if f.velocity.length m = 0 then f.maxSpeed else f.velocity.length m)) (1 / 10)) dt).x)
    (-halfWidth) halfWidth (by rw [hw]; norm_num)
  have hz := mathClamp_bounds
    ((f.position.addScaledVector (f.velocity.lerp
      ((steer f.position f.velocity).setLength m
        (if f.velocity.length m = 0 then f.maxSpeed else f.velocity.length m)) (1 / 10)) dt).z)
    (-halfDepth) halfDepth (by rw [hd]; norm_num)
  have hy := mathClamp_bounds
    ((f.position.addScaledVector (f.velocity.lerp
      ((steer f.position f.velocity).setLength m
        (if f.velocity.length m = 0 then f.maxSpeed else f.velocity.length m)) (1 / 10)) dt).y)
    yMin yMax hyy
  rw [hw] at hx
  rw [hd] at hz
  rw [hlo, hhi] at hy
  refine ⟨hT, ?_, ?_, ?_, ?_⟩
  · rw [hT]; exact abs_le.2 ⟨by simpa [update, hw] using hx.1, by simpa [update, hw] using hx.2⟩
  · exact abs_le.2 ⟨by simpa [update, hd] using hz.1, by simpa [update, hd] using hz.2⟩
  · simpa [update, hlo, hhi] using hy.1
  · simpa [update, hlo, hhi] using hy.2

end FishMovement

namespace Objects

theorem overlap_eq_false_iff (m : MathFns) (radius : ℚ) (pos : Vec3) :
    ∀ existing : List Vec3, overlap m radius pos existing = false ↔
      ∀ o ∈ existing, radius * (3 / 2) + 1 ≤ pos.distanceTo m o
  | [] => by simp [overlap]
  | o :: rest => by
      have ih := overlap_eq_false_iff m radius pos rest
      by_cases h : pos.distanceTo m o < radius * (3 / 2) + 1
      · simp only [overlap, h, if_true, List.mem_cons, forall_eq_or_imp]
        constructor
        · intro hc; cases hc
        · intro hc; exact absurd h (not_lt.2 hc.1)
      · simp only [overlap, h, if_false, List.mem_cons, forall_eq_or_imp, ih]
        exact ⟨fun hr => ⟨not_lt.1 h, hr⟩, fun hr => hr.2⟩

theorem attemptLoop_spec (m : MathFns) (rnd : Nat → ℚ) (existing : List Vec3)
    (radius yLevel : ℚ) :
    ∀ (fuel attempts : Nat) (pos : Vec3),
      (∃ k, attempts ≤ k ∧ k < attempts + (fuel + 1) ∧
        attemptLoop m rnd existing radius yLevel (fuel + 1) attempts pos
          = candidate rnd radius yLevel k ∧
        (∀ j, attempts ≤ j → j < k →
          overlap m radius (candidate rnd radius yLevel j) existing = true) ∧
        overlap m radius (candidate rnd radius yLevel k) existing = false) ∨
      ((∀ j, attempts ≤ j → j < attempts + (fuel + 1) →
          overlap m radius (candidate rnd radius yLevel j) existing = true) ∧
        attemptLoop m rnd existing radius yLevel (fuel + 1) attempts pos
          = candidate rnd radius yLevel (attempts + fuel))
  | 0, attempts, pos => by
      by_cases h : overlap m radius (candidate rnd radius yLevel attempts) existing = true
      · right
        refine ⟨?_, by simp [attemptLoop, h]⟩
        intro j h1 h2
        have : j = attempts := by omega
        rw [this]; exact h
      · left
        refine ⟨attempts, le_rfl, by omega, by simp [attemptLoop, h], ?_, by simpa using h⟩
        intro j h1 h2; omega
  | fuel + 1, attempts, pos => by
      by_cases h : overlap m radius (candidate rnd radius yLevel attempts) existing = true
      · have hstep : attemptLoop m rnd existing radius yLevel (fuel + 1 + 1) attempts pos
            = attemptLoop m rnd existing radius yLevel (fuel + 1) (attempts + 1)
                (candidate rnd radius yLevel attempts) := by
          rw [attemptLoop]; simp only [h, if_true]
        rw [hstep]
        rcases attemptLoop_spec m rnd existing radius yLevel fuel (attempts + 1)
          (candidate rnd radius yLevel attempts) with ⟨k, hk1, hk2, hk3, hk4, hk5⟩ | ⟨ha, hb⟩
        · left
          refine ⟨k, by omega, by omega, hk3, ?_, hk5⟩
          intro j h1 h2
          by_cases hj : j = attempts
          · rw [hj]; exact h
          · exact hk4 j (by omega) h2
        · right
          refine ⟨?_, ?_⟩
          · intro j h1 h2
            by_cases hj : j = attempts
            · rw [hj]; exact h
            · exact ha j (by omega) (by omega)
          · rw [hb]; congr 1; omega
      · left
        refine ⟨attempts, le_rfl, by omega, ?_, ?_, by simpa using h⟩
        · rw [attemptLoop]; simp only [h]; simp
        · intro j h1 h2; omega

/-- C8 (as amended): `randomNonOverlapPosition` samples at most 50 candidate positions.  If
one of them is at distance at least `1.5 * radius + 1.0` from every existing object, the first
such candidate is returned; if all 50 candidates overlap an existing object, the 50th candidate
is returned although it overlaps. -/
theorem nonoverlap_or_exhausted (m : MathFns) (rnd : Nat → ℚ) (existing : List Vec3)
    (radius yLevel : ℚ) :
    (∃ k, k < 50 ∧
      randomNonOverlapPosition m rnd existing radius yLevel = candidate rnd radius yLevel k ∧
      (∀ j, j < k → overlap m radius (candidate rnd radius yLevel j) existing = true) ∧
      (∀ o ∈ existing, radius * (3 / 2) + 1 ≤
        (randomNonOverlapPosition m rnd existing radius yLevel).distanceTo m o)) ∨
    ((∀ j, j < 50 → overlap m radius (candidate rnd radius yLevel j) existing = true) ∧
      randomNonOverlapPosition m rnd existing radius yLevel = candidate rnd radius yLevel 49) := by
  rcases attemptLoop_spec m rnd existing radius yLevel 49 0 ⟨0, 0, 0⟩
    with ⟨k, _, hk2, hk3, hk4, hk5⟩ | ⟨ha, hb⟩
  · left
    refine ⟨k, by omega, hk3, fun j hj => hk4 j (Nat.zero_le _) hj, ?_⟩
    rw [randomNonOverlapPosition, hk3]
    exact (overlap_eq_false_iff m radius _ existing).1 hk5
  · right
    exact ⟨fun j hj => ha j (Nat.zero_le _) (by omega), by simpa using hb⟩

/-- C8 refuted as stated: with one existing object at the centre of the tank floor (where
`loadObjects` puts the ground plane), radius 1.9 and every random draw equal to 1/2, the
returned position is at distance 1/50 from that object, below `1.5 * 1.9 + 1.0`. -/
theorem nonoverlap_counterexample :
    ¬ (∀ o ∈ [(⟨0, TANK_BOTTOM_Y + 1 / 50, 0⟩ : Vec3)],
        (19 / 10 : ℚ) * (3 / 2) + 1 ≤
          (randomNonOverlapPosition ratMath (fun _ => 1 / 2)
            [⟨0, TANK_BOTTOM_Y + 1 / 50, 0⟩] (19 / 10) 0).distanceTo ratMath o) := by
  have hc : ∀ k, candidate (fun _ => 1 / 2) (19 / 10) 0 k = ⟨0, TANK_BOTTOM_Y, 0⟩ := by
    intro k; simp [candidate]
  have hd : (⟨0, TANK_BOTTOM_Y, 0⟩ : Vec3).distanceTo ratMath ⟨0, TANK_BOTTOM_Y + 1 / 50, 0⟩
      = 1 / 50 := by
    have h := Rat.sqrt_eq (1 / 50)
    rw [abs_of_nonneg (by norm_num)] at h
    have e : (0 - 0) * (0 - 0) + (TANK_BOTTOM_Y - (TANK_BOTTOM_Y + 1 / 50)) *
        (TANK_BOTTOM_Y - (TANK_BOTTOM_Y + 1 / 50)) + (0 - 0) * (0 - 0)
        = (1 / 50 : ℚ) * (1 / 50) := by ring
    simp only [Vec3.distanceTo]
    show Rat.sqrt _ = _
    rw [e, h]
  have hov : ∀ k, overlap ratMath (19 / 10) (candidate (fun _ => 1 / 2) (19 / 10) 0 k)
      [⟨0, TANK_BOTTOM_Y + 1 / 50, 0⟩] = true := by
    intro k
    rw [hc k]
    simp only [overlap, hd]
    norm_num
  intro hall
  have h1 := hall _ (List.mem_singleton.2 rfl)
  rcases attemptLoop_spec ratMath (fun _ => 1 / 2) [⟨0, TANK_BOTTOM_Y + 1 / 50, 0⟩]
    (19 / 10) 0 49 0 ⟨0, 0, 0⟩ with ⟨k, _, _, hk, _, _⟩ | ⟨_, hb⟩
  · rw [randomNonOverlapPosition, hk, hc k, hd] at h1
    norm_num at h1
  · rw [randomNonOverlapPosition, hb, hc (0 + 49), hd] at h1
    norm_num at h1

end Objects

namespace FishingSystem

/-- C9: a keydown whose key is `x` or `X` flips `rodVisible` and copies the new value to
`rod.visible`.  If the rod is now hidden, line and hook are hidden, `hookPoint` is null,
`isReeling` is false, every fish that was in `caughtFishes` has `caught = false`, every other
fish keeps its flag, and `caughtFishes` is empty.  If the rod is now visible, nothing else
changed. -/
theorem rod_toggle (s : State) (key : String) (hkey : key = "x" ∨ key = "X") :
    (onKeyDown s key).rodVisible = !s.rodVisible ∧
    (onKeyDown s key).rodMeshVisible = !s.rodVisible ∧
    ((onKeyDown s key).rodVisible = false →
      (onKeyDown s key).lineVisible = false ∧
      (onKeyDown s key).hookVisible = false ∧
      (onKeyDown s key).hookPoint = none ∧
      (onKeyDown s key).isReeling = false ∧
      (∀ f ∈ s.caughtFishes, (onKeyDown s key).caught f = false) ∧
      (∀ f, f ∉ s.caughtFishes → (onKeyDown s key).caught f = s.caught f) ∧
      (onKeyDown s key).caughtFishes = []) ∧
    ((onKeyDown s key).rodVisible = true →
      onKeyDown s key = { s with rodVisible := true, rodMeshVisible := true }) := by
  have hk : toLowerCase key = "x" := by
    rcases hkey with h | h <;> subst h <;> decide
  cases hv : s.rodVisible
  · simp [onKeyDown, hk, hv]
  · simp [onKeyDown, hk, hv]
    exact ⟨fun f hf hn => absurd hf hn, fun f hn _ => hn⟩

/-- C9 at a concrete input: pressing `X` while the rod is shown with fish 3 hooked hides the rod
and releases the fish. -/
theorem rod_toggle_witness :
    (onKeyDown { init (fun _ => true) with
        rodVisible := true, rodMeshVisible := true, caughtFishes := [3] } "X").rodVisible = false ∧
    (onKeyDown { init (fun _ => true) with
        rodVisible := true, rodMeshVisible := true, caughtFishes := [3] } "X").caught 3 = false := by
  have h := rod_toggle { init (fun _ => true) with
    rodVisible := true, rodMeshVisible := true, caughtFishes := [3] } "X" (Or.inr rfl)
  refine ⟨h.1, ?_⟩
  exact (h.2.2.1 h.1).2.2.2.2.1 3 (by simp)

end FishingSystem

namespace Wandering

theorem ite_fov_bounds (c : Prop) [Decidable c] (a b : State)
    (ha : 5 ≤ a.fov ∧ a.fov ≤ 170) (hb : 5 ≤ b.fov ∧ b.fov ≤ 170) :
    5 ≤ (if c then a else b).fov ∧ (if c then a else b).fov ≤ 170 := by
  split <;> assumption

theorem onKeyDown_fov (s : State) (k : Nat) (h : 5 ≤ s.fov ∧ s.fov ≤ 170) :
    5 ≤ (onKeyDown s k).fov ∧ (onKeyDown s k).fov ≤ 170 := by
  have hM : 5 ≤ min (s.fov + 5) 170 ∧ min (s.fov + 5) 170 ≤ 170 :=
    ⟨le_min (by linarith [h.1]) (by norm_num), min_le_right _ _⟩
  have hN : 5 ≤ max (s.fov - 5) 5 ∧ max (s.fov - 5) 5 ≤ 170 :=
    ⟨le_max_right _ _, max_le (by linarith [h.2]) (by norm_num)⟩
  have hR : 5 ≤ (initViewingParameters s).fov ∧ (initViewingParameters s).fov ≤ 170 := by
    show (5 : ℚ) ≤ 120 ∧ (120 : ℚ) ≤ 170
    constructor <;> norm_num
  unfold onKeyDown
  refine ite_fov_bounds _ _ _ h ?_
  refine ite_fov_bounds _ _ _ h ?_
  refine ite_fov_bounds _ _ _ h ?_
  refine ite_fov_bounds _ _ _ h ?_
  refine ite_fov_bounds _ _ _ h ?_
  refine ite_fov_bounds _ _ _ h ?_
  refine ite_fov_bounds _ _ _ h ?_
  refine ite_fov_bounds _ _ _ hM ?_
  refine ite_fov_bounds _ _ _ hN ?_
  refine ite_fov_bounds _ _ _ hR ?_
  refine ite_fov_bounds _ _ _ h ?_
  refine ite_fov_bounds _ _ _ h ?_
  refine ite_fov_bounds _ _ _ h ?_
  exact ite_fov_bounds _ _ _ h h

theorem step_fov (s : State) (e : Event) (h : 5 ≤ s.fov ∧ s.fov ≤ 170) :
    5 ≤ (step s e).fov ∧ (step s e).fov ≤ 170 := by
  cases e with
  | keyDown k => exact onKeyDown_fov s k h
  | mouseDown x y => exact h
  | mouseUp => exact h
  | mouseMove x y =>
    show 5 ≤ (onMouseMove s x y).fov ∧ (onMouseMove s x y).fov ≤ 170
    unfold onMouseMove
    exact ite_fov_bounds _ _ _ h h

theorem run_fov : ∀ (events : List Event) (s : State), (5 ≤ s.fov ∧ s.fov ≤ 170) →
    5 ≤ (run s events).fov ∧ (run s events).fov ≤ 170
  | [], _, h => h
  | e :: es, s, h => by
      have := run_fov es (step s e) (step_fov s e h)
      simpa [run] using this

/-- C10: in every state reached from the loaded state (`fov = 120`) by any sequence of
keyboard and mouse events, `5 <= fov <= 170`. -/
theorem fov_within_limits (events : List Event) :
    loaded.fov = 120 ∧ 5 ≤ (run loaded events).fov ∧ (run loaded events).fov ≤ 170 := by
  have h0 : loaded.fov = 120 := rfl
  exact ⟨h0, run_fov events loaded (by rw [h0]; norm_num)⟩

end Wandering

namespace Wandering

theorem onKeyDown_S (s : State) : onKeyDown s 83 = { s with phi := s.phi + 5 } := by
  simp only [onKeyDown, Nat.reduceEqDiff, if_false, if_true]

theorem onKeyDown_W (s : State) : onKeyDown s 87 = { s with phi := s.phi - 5 } := by
  simp only [onKeyDown, Nat.reduceEqDiff, if_false, if_true]

theorem onKeyDown_space (s : State) : onKeyDown s 32 = initViewingParameters s := by
  simp only [onKeyDown, Nat.reduceEqDiff, if_false, if_true]

theorem run_S : ∀ (n : Nat) (s : State),
    (run s (List.replicate n (Event.keyDown 83))).phi = s.phi + 5 * n
  | 0, s => by simp [run]
  | n + 1, s => by
      have ih := run_S n (onKeyDown s 83)
      simp only [run, List.replicate_succ, List.foldl_cons, step] at ih ⊢
      rw [ih, onKeyDown_S]
      push_cast
      ring

theorem run_W : ∀ (n : Nat) (s : State),
    (run s (List.replicate n (Event.keyDown 87))).phi = s.phi - 5 * n
  | 0, s => by simp [run]
  | n + 1, s => by
      have ih := run_W n (onKeyDown s 87)
      simp only [run, List.replicate_succ, List.foldl_cons, step] at ih ⊢
      rw [ih, onKeyDown_W]
      push_cast
      ring

/-- C11 (what the code does): `onMouseMove` clamps `phi` into [5, 175], but the W and S keys
change it by 5 without any clamp.  From the loaded state (`phi = 90`), `n` presses of S give
`phi = 90 + 5 n` and `n` presses of W give `phi = 90 - 5 n`; after 18 presses of S `phi` is 180,
after 18 presses of W it is 0, both outside [5, 175]. -/
theorem phi_leaves_range_by_keys :
    loaded.phi = 90 ∧
    (∀ n : Nat, (run loaded (List.replicate n (Event.keyDown 83))).phi = 90 + 5 * n) ∧
    (∀ n : Nat, (run loaded (List.replicate n (Event.keyDown 87))).phi = 90 - 5 * n) ∧
    (run loaded (List.replicate 18 (Event.keyDown 83))).phi = 180 ∧
    (run loaded (List.replicate 18 (Event.keyDown 87))).phi = 0 ∧
    ¬ ((run loaded (List.replicate 18 (Event.keyDown 83))).phi ≤ 175) ∧
    ¬ (5 ≤ (run loaded (List.replicate 18 (Event.keyDown 87))).phi) := by
  have h0 : loaded.phi = 90 := rfl
  have hS : ∀ n : Nat, (run loaded (List.replicate n (Event.keyDown 83))).phi = 90 + 5 * n := by
    intro n; rw [run_S, h0]
  have hW : ∀ n : Nat, (run loaded (List.replicate n (Event.keyDown 87))).phi = 90 - 5 * n := by
    intro n; rw [run_W, h0]
  refine ⟨h0, hS, hW, ?_, ?_, ?_, ?_⟩
  · rw [hS]; norm_num
  · rw [hW]; norm_num
  · rw [hS]; norm_num
  · rw [hW]; norm_num

/-- C12: from every state, the Space key sets `(modelScale, theta, phi, isOrth, fov)` to
`(1, 0, 90, true, 120)`, which are the values of the loaded state, and pressing Space again
leaves the whole state unchanged. -/
theorem space_resets_parameters (s : State) :
    (onKeyDown s 32).modelScale = 1 ∧ (onKeyDown s 32).theta = 0 ∧ (onKeyDown s 32).phi = 90 ∧
    (onKeyDown s 32).isOrth = true ∧ (onKeyDown s 32).fov = 120 ∧
    (onKeyDown s 32).modelScale = loaded.modelScale ∧ (onKeyDown s 32).theta = loaded.theta ∧
    (onKeyDown s 32).phi = loaded.phi ∧ (onKeyDown s 32).isOrth = loaded.isOrth ∧
    (onKeyDown s 32).fov = loaded.fov ∧
    onKeyDown (onKeyDown s 32) 32 = onKeyDown s 32 := by
  rw [onKeyDown_space, onKeyDown_space]
  exact ⟨rfl, rfl, rfl, rfl, rfl, rfl, rfl, rfl, rfl, rfl, rfl⟩

end Wandering

namespace OfficialPathTracer

/-- C17: `intersectPlaneBounded` returns either -1 or a value `t > 0.001` for which the point
`ro + t * rd` lies on the plane (`dot(ro + t * rd - p, n) = 0`) and has `minX <= x <= maxX` and
`minZ <= z <= maxZ`; and it returns -1 whenever `|dot(n, rd)| < 0.001`. -/
theorem intersectPlaneBounded_spec (ro rd p n : Vec3) (bounds : Vec4) :
    (intersectPlaneBounded ro rd p n bounds = -1 ∨
      (1 / 1000 < intersectPlaneBounded ro rd p n bounds ∧
        Vec3.dot ((ro.add (rd.scale (intersectPlaneBounded ro rd p n bounds))).sub p) n = 0 ∧
        bounds.x ≤ (ro.add (rd.scale (intersectPlaneBounded ro rd p n bounds))).x ∧
        (ro.add (rd.scale (intersectPlaneBounded ro rd p n bounds))).x ≤ bounds.z ∧
        bounds.y ≤ (ro.add (rd.scale (intersectPlaneBounded ro rd p n bounds))).z ∧
        (ro.add (rd.scale (intersectPlaneBounded ro rd p n bounds))).z ≤ bounds.w)) ∧
    (|Vec3.dot n rd| < 1 / 1000 → intersectPlaneBounded ro rd p n bounds = -1) := by
  constructor
  · by_cases hd : |Vec3.dot n rd| < 1 / 1000
    · left; simp only [intersectPlaneBounded, hd, if_true]
    · by_cases ht : 1 / 1000 < Vec3.dot (p.sub ro) n / Vec3.dot n rd
      · by_cases hb : bounds.x ≤ (ro.add (rd.scale (Vec3.dot (p.sub ro) n / Vec3.dot n rd))).x ∧
            (ro.add (rd.scale (Vec3.dot (p.sub ro) n / Vec3.dot n rd))).x ≤ bounds.z ∧
            bounds.y ≤ (ro.add (rd.scale (Vec3.dot (p.sub ro) n / Vec3.dot n rd))).z ∧
            (ro.add (rd.scale (Vec3.dot (p.sub ro) n / Vec3.dot n rd))).z ≤ bounds.w
        · right
          have hval : intersectPlaneBounded ro rd p n bounds
              = Vec3.dot (p.sub ro) n / Vec3.dot n rd := by
            simp only [intersectPlaneBounded, hd, ht, hb, if_false, if_true, and_self]
          rw [hval]
          refine ⟨ht, ?_, hb.1, hb.2.1, hb.2.2.1, hb.2.2.2⟩
          have hne : Vec3.dot n rd ≠ 0 := by
            intro h0
            apply hd
            rw [h0]; norm_num
          simp only [Vec3.dot, Vec3.sub, Vec3.add, Vec3.scale] at hne ⊢
          field_simp
          ring
        · left
          simp only [intersectPlaneBounded, hd, ht, hb, if_false, if_true]
      · left
        simp only [intersectPlaneBounded, hd, ht, if_false]
  · intro hd
    simp only [intersectPlaneBounded, hd, if_true]

/-- C17 at a concrete input: a ray along the plane (direction orthogonal to the normal) gets
-1. -/
theorem intersectPlaneBounded_spec_witness :
    intersectPlaneBounded ⟨0, 1, 0⟩ ⟨1, 0, 0⟩ ⟨0, 0, 0⟩ ⟨0, 1, 0⟩ ⟨-1, -1, 1, 1⟩ = -1 :=
  (intersectPlaneBounded_spec ⟨0, 1, 0⟩ ⟨1, 0, 0⟩ ⟨0, 0, 0⟩ ⟨0, 1, 0⟩ ⟨-1, -1, 1, 1⟩).2
    (by norm_num [Vec3.dot])

end OfficialPathTracer

namespace Table

/-- C16 (what the code does): every leg built by `createTable` has height
`LEG_TOP_Y - LEG_BOTTOM_Y + TABLE_THICKNESS` (40.25, not `LEG_TOP_Y - LEG_BOTTOM_Y` = 39.75): it
starts at `LEG_BOTTOM_Y` and ends at `TABLE_TOP_SURFACE_Y`, the upper face of the table top,
half a unit above `LEG_TOP_Y`, its underside. -/
theorem leg_height_includes_table_top :
    createTable.legs.length = 4 ∧
    (∀ leg ∈ createTable.legs,
      leg.height = LEG_TOP_Y - LEG_BOTTOM_Y + TABLE_THICKNESS ∧
      leg.height = 161 / 4 ∧
      leg.bottom = LEG_BOTTOM_Y ∧
      leg.top = TABLE_TOP_SURFACE_Y ∧
      leg.top = LEG_TOP_Y + 1 / 2) ∧
    LEG_TOP_Y - LEG_BOTTOM_Y = 159 / 4 ∧
    createTable.tableTop.bottom = LEG_TOP_Y := by
  have hh : legHeight = 161 / 4 := by
    norm_num [legHeight, tableTopCenterY, tableTopSurfaceY, tableThickness, TABLE_THICKNESS,
      TABLE_TOP_SURFACE_Y, FLOOR_Y, NEW_TABLE_HEIGHT, ORIGINAL_TABLE_HEIGHT,
      ORIGINAL_TABLE_TOP_SURFACE_Y, LEG_TOP_Y_ORIG, LEG_BOTTOM_Y]
  have hc : legCenterY = -439 / 8 := by
    rw [legCenterY, hh]; norm_num [LEG_BOTTOM_Y, FLOOR_Y]
  have hb : LEG_BOTTOM_Y = -75 := by norm_num [LEG_BOTTOM_Y, FLOOR_Y]
  have hs : TABLE_TOP_SURFACE_Y = -139 / 4 := by
    norm_num [TABLE_TOP_SURFACE_Y, FLOOR_Y, NEW_TABLE_HEIGHT, ORIGINAL_TABLE_HEIGHT,
      ORIGINAL_TABLE_TOP_SURFACE_Y, LEG_TOP_Y_ORIG, TABLE_THICKNESS]
  have ht : LEG_TOP_Y = -141 / 4 := by
    rw [LEG_TOP_Y, hs]; norm_num [TABLE_THICKNESS]
  have hth : TABLE_THICKNESS = 1 / 2 := rfl
  refine ⟨rfl, ?_, by rw [ht, hb]; norm_num, ?_⟩
  · intro leg hleg
    simp only [createTable, legPositions, List.map_cons, List.map_nil, List.mem_cons,
      List.mem_singleton, List.not_mem_nil, or_false] at hleg
    rcases hleg with h | h | h | h <;> subst h <;>
      simp only [BoxMesh.bottom, BoxMesh.top, hh, hc, hb, hs, ht, hth] <;> norm_num
  · simp only [createTable, BoxMesh.bottom, tableTopCenterY, tableTopSurfaceY, tableThickness,
      hs, ht, hth]
    norm_num

end Table

namespace Models

theorem appendsWith_mono {P Q : Vec4 → Prop} {g : Buffers → Buffers} {n : Nat}
    (h : AppendsWith P g n) (hPQ : ∀ v, P v → Q v) : AppendsWith Q g n := by
  intro buf
  obtain ⟨ps, cs, h1, h2, h3, h4, h5⟩ := h buf
  exact ⟨ps, cs, h1, h2, h3, h4, fun v hv => hPQ v (h5 v hv)⟩

theorem appendsWith_comp {P : Vec4 → Prop} {g h : Buffers → Buffers} {n k : Nat}
    (hg : AppendsWith P g n) (hh : AppendsWith P h k) :
    AppendsWith P (fun buf => h (g buf)) (n + k) := by
  intro buf
  obtain ⟨ps, cs, h1, h2, h3, h4, h5⟩ := hg buf
  obtain ⟨ps2, cs2, k1, k2, k3, k4, k5⟩ := hh (g buf)
  refine ⟨ps ++ ps2, cs ++ cs2, ?_, ?_, ?_, ?_, ?_⟩
  · show (h (g buf)).points = _
    rw [k1, h1, List.append_assoc]
  · show (h (g buf)).colors = _
    rw [k2, h2, List.append_assoc]
  · rw [List.length_append, h3, k3]
  · rw [List.length_append, h4, k4]
  · intro v hv
    rcases List.mem_append.1 hv with hv | hv
    · exact h5 v hv
    · exact k5 v hv

theorem appendsWith_foldl {α : Type} (P : Vec4 → Prop) (f : Buffers → α → Buffers) (n : Nat) :
    ∀ xs : List α, (∀ x ∈ xs, AppendsWith P (fun buf => f buf x) n) →
      AppendsWith P (fun buf => xs.foldl f buf) (n * xs.length)
  | [], _ => by
      intro buf
      exact ⟨[], [], by simp, by simp, by simp, by simp, by simp⟩
  | x :: xs, h => by
      have h1 : AppendsWith P (fun buf => f buf x) n := h x (List.mem_cons_self _ _)
      have h2 := appendsWith_foldl P f n xs (fun y hy => h y (List.mem_cons_of_mem _ hy))
      have h3 := appendsWith_comp h1 h2
      have e : n + n * xs.length = n * (x :: xs).length := by
        rw [List.length_cons]; ring
      rw [← e]
      exact h3

theorem triangle_appends (a b c : Vec4) : Appends (triangle a b c) 3 := by
  intro buf
  exact ⟨[a, b, c], [⟨0, 1, 1, 1⟩, ⟨1, 0, 1, 1⟩, ⟨0, 1, 0, 1⟩], rfl, rfl, rfl, rfl,
    fun _ _ => trivial⟩

theorem divideTriangle_appends (m : MathFns) :
    ∀ (n : Nat) (a b c : Vec4), Appends (divideTriangle m a b c n) (3 * 4 ^ n)
  | 0, a, b, c => by
      have h := triangle_appends a b c
      have e : divideTriangle m a b c 0 = triangle a b c := by
        funext buf; rfl
      rw [e]; simpa using h
  | n + 1, a, b, c => by
      have h1 := divideTriangle_appends m n a (normalize4 m (mix4 a b (1 / 2)))
        (normalize4 m (mix4 a c (1 / 2)))
      have h2 := divideTriangle_appends m n (normalize4 m (mix4 a b (1 / 2))) b
        (normalize4 m (mix4 b c (1 / 2)))
      have h3 := divideTriangle_appends m n (normalize4 m (mix4 b c (1 / 2))) c
        (normalize4 m (mix4 a c (1 / 2)))
      have h4 := divideTriangle_appends m n (normalize4 m (mix4 a b (1 / 2)))
        (normalize4 m (mix4 b c (1 / 2))) (normalize4 m (mix4 a c (1 / 2)))
      have h := appendsWith_comp (appendsWith_comp (appendsWith_comp h1 h2) h3) h4
      have e : 3 * 4 ^ n + 3 * 4 ^ n + 3 * 4 ^ n + 3 * 4 ^ n = 3 * 4 ^ (n + 1) := by
        rw [pow_succ]; ring
      rw [e] at h
      exact h

theorem tetrahedron_appends (m : MathFns) (a b c d : Vec4) (n : Nat) :
    Appends (tetrahedron m a b c d n) (4 * (3 * 4 ^ n)) := by
  have h := appendsWith_comp (appendsWith_comp (appendsWith_comp
    (divideTriangle_appends m n a b c) (divideTriangle_appends m n d c b))
    (divideTriangle_appends m n a d b)) (divideTriangle_appends m n a c d)
  have e : 3 * 4 ^ n + 3 * 4 ^ n + 3 * 4 ^ n + 3 * 4 ^ n = 4 * (3 * 4 ^ n) := by ring
  rw [e] at h
  exact h

theorem generateSphere_appends (m : MathFns) : Appends (generateSphere m) 12288 := by
  have h := tetrahedron_appends m ⟨0, 0, -1, 1⟩ ⟨0, 942809 / 1000000, 333333 / 1000000, 1⟩
    ⟨-816497 / 1000000, -471405 / 1000000, 333333 / 1000000, 1⟩
    ⟨816497 / 1000000, -471405 / 1000000, 333333 / 1000000, 1⟩ numTimesToSubdivide
  have e : 4 * (3 * 4 ^ numTimesToSubdivide) = 12288 := by norm_num [numTimesToSubdivide]
  rw [e] at h
  exact h

/-- C14: for every `n`, `divideTriangle(a, b, c, n)` (a total function, defined by recursion on
`n`) appends exactly `3 * 4^n` vertices and `3 * 4^n` colours, that is `4^n` triangles, and
`generateSphere`, which subdivides the 4 faces of the tetrahedron 5 times, appends exactly
`3 * (4 * 4^5) = 12288` vertices and 12288 colours, that is 4096 triangles. -/
theorem sphere_triangle_count (m : MathFns) (a b c : Vec4) (n : Nat) (buf : Buffers) :
    (divideTriangle m a b c n buf).points.length = buf.points.length + 3 * 4 ^ n ∧
    (divideTriangle m a b c n buf).colors.length = buf.colors.length + 3 * 4 ^ n ∧
    (∃ ps cs, (divideTriangle m a b c n buf).points = buf.points ++ ps ∧
      (divideTriangle m a b c n buf).colors = buf.colors ++ cs ∧
      ps.length = 3 * 4 ^ n ∧ cs.length = 3 * 4 ^ n) ∧
    numTimesToSubdivide = 5 ∧
    (generateSphere m buf).points.length = buf.points.length + 3 * (4 * 4 ^ 5) ∧
    (generateSphere m buf).colors.length = buf.colors.length + 3 * (4 * 4 ^ 5) ∧
    3 * (4 * 4 ^ 5) = 12288 ∧ 4 * 4 ^ 5 = 4096 := by
  obtain ⟨ps, cs, h1, h2, h3, h4, _⟩ := divideTriangle_appends m n a b c buf
  obtain ⟨ps2, cs2, k1, k2, k3, k4, _⟩ := generateSphere_appends m buf
  refine ⟨?_, ?_, ⟨ps, cs, h1, h2, h3, h4⟩, rfl, ?_, ?_, by norm_num, by norm_num⟩
  · rw [h1, List.length_append, h3]
  · rw [h2, List.length_append, h4]
  · rw [k1, List.length_append, k3]; norm_num
  · rw [k2, List.length_append, k4]; norm_num

end Models

namespace Models

theorem vertextsXYZ_eq (buf : Buffers) :
    vertextsXYZ buf = ⟨buf.points ++ XYZaxis, buf.colors ++ axisColors⟩ := by
  have hr : List.range XYZaxis.length
      = [0, 1, 2, 3, 4, 5, 6, 7, 8, 9, 10, 11, 12, 13, 14, 15, 16, 17] := rfl
  simp only [vertextsXYZ, hr, List.foldl_cons, List.foldl_nil, Buffers.push,
    List.append_assoc, List.singleton_append]
  rfl

theorem quad_appends (a b c d : Nat) : Appends (quad a b c d) 6 := by
  intro buf
  refine ⟨[at4 cubeVertices a, at4 cubeVertices b, at4 cubeVertices c, at4 cubeVertices a,
    at4 cubeVertices c, at4 cubeVertices d],
    [at4 VertexColors a, at4 VertexColors a, at4 VertexColors a, at4 VertexColors a,
     at4 VertexColors a, at4 VertexColors a], ?_, ?_, rfl, rfl, fun _ _ => trivial⟩
  · simp [quad, Buffers.push]
  · simp [quad, Buffers.push]

theorem generateCube_appends : Appends generateCube 36 := by
  have h := appendsWith_comp (appendsWith_comp (appendsWith_comp (appendsWith_comp
    (appendsWith_comp (quad_appends 1 0 3 2) (quad_appends 4 5 6 7)) (quad_appends 2 3 7 6))
    (quad_appends 5 4 0 1)) (quad_appends 6 5 1 2)) (quad_appends 3 0 4 7)
  exact h

theorem hatX_scaled (j : Nat) : hatX j * (1 / coordinateRange) = (j : ℚ) / 10 - 1 := by
  simp only [hatX, nColumns, coordinateRange]
  push_cast
  ring

theorem hatZ_scaled (i : Nat) : hatZ i * (1 / coordinateRange) = (i : ℚ) / 10 - 1 := by
  simp only [hatZ, nRows, coordinateRange]
  push_cast
  ring

theorem dataAt_hatData (exp : ℚ → ℚ) (i j : Nat) (hi : i ≤ 20) (hj : j ≤ 20) :
    dataAt (hatData exp) i j = hatHeight exp i j := by
  have hi' : i < nRows := by simp only [nRows]; omega
  have hj' : j < nColumns := by simp only [nColumns]; omega
  simp [dataAt, hatData, List.getD, hi', hj']

theorem hatVertex_grid (exp : ℚ → ℚ) (i j : Nat) (hi : i ≤ 20) (hj : j ≤ 20) :
    HatVertex exp
      ⟨hatX j * (1 / coordinateRange), dataAt (hatData exp) i j, hatZ i * (1 / coordinateRange),
       1⟩ := by
  have hjq : (j : ℚ) ≤ 20 := by exact_mod_cast hj
  have hiq : (i : ℚ) ≤ 20 := by exact_mod_cast hi
  have hj0 : (0 : ℚ) ≤ j := Nat.cast_nonneg j
  have hi0 : (0 : ℚ) ≤ i := Nat.cast_nonneg i
  refine ⟨i, j, hi, hj, hatX_scaled j, hatZ_scaled i, ?_, ?_, ?_, ?_, ?_⟩
  · show -1 ≤ hatX j * (1 / coordinateRange)
    rw [hatX_scaled]; linarith
  · show hatX j * (1 / coordinateRange) ≤ 1
    rw [hatX_scaled]; linarith
  · show -1 ≤ hatZ i * (1 / coordinateRange)
    rw [hatZ_scaled]; linarith
  · show hatZ i * (1 / coordinateRange) ≤ 1
    rw [hatZ_scaled]; linarith
  · show dataAt (hatData exp) i j = _
    rw [dataAt_hatData exp i j hi hj]
    have ex : 11 / 5 * (hatX j * (1 / coordinateRange)) = hatX j := by
      simp only [coordinateRange]; ring
    have ez : 11 / 5 * (hatZ i * (1 / coordinateRange)) = hatZ i := by
      simp only [coordinateRange]; ring
    rw [ex, ez]
    rfl

theorem hatCell_appends (exp : ℚ → ℚ) (i j : Nat) (hi : i < 20) (hj : j < 20) :
    AppendsWith (HatVertex exp) (hatCell (hatData exp) i j) 6 := by
  intro buf
  refine ⟨_, _, rfl, rfl, rfl, rfl, ?_⟩
  intro v hv
  simp only [List.mem_cons, List.mem_singleton, List.not_mem_nil, or_false] at hv
  rcases hv with h | h | h | h | h | h <;> subst h
  · exact hatVertex_grid exp i j (by omega) (by omega)
  · exact hatVertex_grid exp i (j + 1) (by omega) (by omega)
  · exact hatVertex_grid exp (i + 1) (j + 1) (by omega) (by omega)
  · exact hatVertex_grid exp i j (by omega) (by omega)
  · exact hatVertex_grid exp (i + 1) (j + 1) (by omega) (by omega)
  · exact hatVertex_grid exp (i + 1) j (by omega) (by omega)

theorem generateHat_appends (exp : ℚ → ℚ) :
    AppendsWith (HatVertex exp) (generateHat exp) 2400 := by
  have hrow : ∀ i ∈ List.range (nRows - 1), AppendsWith (HatVertex exp)
      (fun buf => (List.range (nColumns - 1)).foldl
        (fun buf j => hatCell (hatData exp) i j buf) buf) 120 := by
    intro i hi
    have hi' : i < 20 := by simpa [nRows] using hi
    have h := appendsWith_foldl (HatVertex exp)
      (fun buf j => hatCell (hatData exp) i j buf) 6 (List.range (nColumns - 1))
      (fun j hj => hatCell_appends exp i j hi' (by simpa [nColumns] using hj))
    have e : 6 * (List.range (nColumns - 1)).length = 120 := by simp [nColumns]
    rw [e] at h
    exact h
  have h := appendsWith_foldl (HatVertex exp)
    (fun buf i => (List.range (nColumns - 1)).foldl
      (fun buf j => hatCell (hatData exp) i j buf) buf) 120 (List.range (nRows - 1)) hrow
  have e : 120 * (List.range (nRows - 1)).length = 2400 := by simp [nRows]
  rw [e] at h
  exact h

/-- C15: `generateHat` appends exactly `20 * 20 * 6 = 2400` vertices and 2400 colours, and
every appended vertex sits at a grid point `(i, j)` with indices in 0..20, with
`x = j/10 - 1` and `z = i/10 - 1` in [-1, 1] and `y = (1 - r^2) * exp(-r^2 / 2)`, where `r^2` is
taken at the unscaled coordinates `(2.2 x, 2.2 z)`. -/
theorem hat_mesh_vertices (exp : ℚ → ℚ) (buf : Buffers) :
    20 * 20 * 6 = 2400 ∧
    ∃ ps cs, (generateHat exp buf).points = buf.points ++ ps ∧
      (generateHat exp buf).colors = buf.colors ++ cs ∧
      ps.length = 2400 ∧ cs.length = 2400 ∧
      ∀ v ∈ ps, ∃ i j : Nat, i ≤ 20 ∧ j ≤ 20 ∧ v.x = (j : ℚ) / 10 - 1 ∧ v.z = (i : ℚ) / 10 - 1 ∧
        -1 ≤ v.x ∧ v.x ≤ 1 ∧ -1 ≤ v.z ∧ v.z ≤ 1 ∧
        v.y = (1 - ((11 / 5 * v.x) * (11 / 5 * v.x) + (11 / 5 * v.z) * (11 / 5 * v.z))) *
          exp (-((11 / 5 * v.x) * (11 / 5 * v.x) + (11 / 5 * v.z) * (11 / 5 * v.z)) / 2) := by
  obtain ⟨ps, cs, h1, h2, h3, h4, h5⟩ := generateHat_appends exp buf
  exact ⟨by norm_num, ps, cs, h1, h2, h3, h4, h5⟩

end Models

namespace Models

theorem axisColors_index (i : Nat) (hi : i < 18) :
    axisColors[i]? = some (at4 XYZColors (i / 6)) := by
  interval_cases i <;> rfl

/-- The layout of the arrays after the axes and a generator that appends `3 * k` vertices. -/
theorem layout_of_appends (g : Buffers → Buffers) (k : Nat) (hg : Appends g (3 * k))
    (hk : 0 < k) :
    (g (vertextsXYZ ⟨[], []⟩)).points.length = (g (vertextsXYZ ⟨[], []⟩)).colors.length ∧
    (g (vertextsXYZ ⟨[], []⟩)).points.take 18 = XYZaxis ∧
    (g (vertextsXYZ ⟨[], []⟩)).colors.take 18 = axisColors ∧
    (∀ i, i < 18 → (g (vertextsXYZ ⟨[], []⟩)).colors[i]? = some (at4 XYZColors (i / 6))) ∧
    (g (vertextsXYZ ⟨[], []⟩)).points.length = 18 + 3 * k ∧
    renderDraws (g (vertextsXYZ ⟨[], []⟩)) =
      [⟨DrawMode.lines, 0, 6⟩, ⟨DrawMode.lines, 6, 6⟩, ⟨DrawMode.lines, 12, 6⟩,
       ⟨DrawMode.triangles, 18, 3 * (k : Int)⟩] ∧
    0 < k := by
  obtain ⟨ps, cs, h1, h2, h3, h4, _⟩ := hg (vertextsXYZ ⟨[], []⟩)
  have hp : (g (vertextsXYZ ⟨[], []⟩)).points = XYZaxis ++ ps := by
    rw [h1, vertextsXYZ_eq]; simp
  have hc : (g (vertextsXYZ ⟨[], []⟩)).colors = axisColors ++ cs := by
    rw [h2, vertextsXYZ_eq]; simp
  have hxl : XYZaxis.length = 18 := rfl
  have hcl : axisColors.length = 18 := rfl
  have hlen : (g (vertextsXYZ ⟨[], []⟩)).points.length = 18 + 3 * k := by
    rw [hp, List.length_append, hxl, h3]
  refine ⟨?_, ?_, ?_, ?_, hlen, ?_, hk⟩
  · rw [hlen, hc, List.length_append, hcl, h4]
  · rw [hp, List.take_left' hxl]
  · rw [hc, List.take_left' hcl]
  · intro i hi
    rw [hc, List.getElem?_append_left (by rw [hcl]; exact hi)]
    exact axisColors_index i hi
  · simp only [renderDraws, hlen]
    push_cast
    simp

/-- C13: for each model in `cube`, `sphere`, `hat`, after `modelChange(model)` the arrays
`points` and `colors` have the same length, the first 18 points are the axis vertices, the first
18 colours are red for 0-5, green for 6-11 and blue for 12-17 (colour `floor(i/6)`), and the
number of remaining points is `3 * k` with `k > 0`; so the draws of `render` are three LINES
draws of 6 vertices from 0, 6 and 12 and one TRIANGLES draw of `3 * k` vertices from 18, which
together end exactly at `points.length`. -/
theorem vertex_buffer_layout (m : MathFns) (exp : ℚ → ℚ) (buf : Buffers) (model : String)
    (hmodel : model = "cube" ∨ model = "sphere" ∨ model = "hat") :
    (modelChange m exp buf model).points.length = (modelChange m exp buf model).colors.length ∧
    (modelChange m exp buf model).points.take 18 = XYZaxis ∧
    (modelChange m exp buf model).colors.take 18 = axisColors ∧
    (∀ i, i < 18 →
      (modelChange m exp buf model).colors[i]? = some (at4 XYZColors (i / 6))) ∧
    ∃ k : Nat, 0 < k ∧ (modelChange m exp buf model).points.length = 18 + 3 * k ∧
      renderDraws (modelChange m exp buf model) =
        [⟨DrawMode.lines, 0, 6⟩, ⟨DrawMode.lines, 6, 6⟩, ⟨DrawMode.lines, 12, 6⟩,
         ⟨DrawMode.triangles, 18, 3 * (k : Int)⟩] := by
  rcases hmodel with h | h | h
  · subst h
    have e : modelChange m exp buf "cube" = generateCube (vertextsXYZ ⟨[], []⟩) := by
      simp only [modelChange]
      rw [if_neg (by decide), if_pos trivial]
    rw [e]
    obtain ⟨h1, h2, h3, h4, h5, h6, h7⟩ := layout_of_appends generateCube 12
      generateCube_appends (by norm_num)
    exact ⟨h1, h2, h3, h4, 12, h7, h5, h6⟩
  · subst h
    have e : modelChange m exp buf "sphere" = generateSphere m (vertextsXYZ ⟨[], []⟩) := by
      simp only [modelChange]
      rw [if_neg (by decide), if_neg (by decide), if_pos trivial]
    rw [e]
    obtain ⟨h1, h2, h3, h4, h5, h6, h7⟩ := layout_of_appends (generateSphere m) 4096
      (generateSphere_appends m) (by norm_num)
    exact ⟨h1, h2, h3, h4, 4096, h7, h5, h6⟩
  · subst h
    have e : modelChange m exp buf "hat" = generateHat exp (vertextsXYZ ⟨[], []⟩) := by
      simp only [modelChange]
      rw [if_neg (by decide), if_neg (by decide), if_neg (by decide), if_pos trivial]
    rw [e]
    obtain ⟨h1, h2, h3, h4, h5, h6, h7⟩ := layout_of_appends (generateHat exp) 800
      (appendsWith_mono (generateHat_appends exp) (fun _ _ => trivial)) (by norm_num)
    exact ⟨h1, h2, h3, h4, 800, h7, h5, h6⟩

/-- C13 at a concrete input: after `modelChange('cube')` the arrays hold 18 + 36 entries. -/
theorem vertex_buffer_layout_witness :
    (modelChange ratMath (fun _ => 1) ⟨[], []⟩ "cube").points.length
      = (modelChange ratMath (fun _ => 1) ⟨[], []⟩ "cube").colors.length ∧
    (modelChange ratMath (fun _ => 1) ⟨[], []⟩ "cube").points.take 18 = XYZaxis := by
  obtain ⟨h1, h2, _⟩ := vertex_buffer_layout ratMath (fun _ => 1) ⟨[], []⟩ "cube" (Or.inl rfl)
  exact ⟨h1, h2⟩

end Models

namespace Bubbles

theorem stepActive_spec (e : Env) (s : Slot) :
    (s.p.y + s.p.speed * e.dt ≤ TANK_BOTTOM_Y + WATER_TOP →
      (stepActive e s).p.active = s.p.active ∧
      (stepActive e s).p.y = s.p.y + s.p.speed * e.dt) ∧
    (TANK_BOTTOM_Y + WATER_TOP < s.p.y + s.p.speed * e.dt →
      (stepActive e s).p.active = false ∧ (stepActive e s).p.y = -1000 ∧
      (stepActive e s).p.baseScale = 0) := by
  constructor
  · intro h
    simp [stepActive, not_lt.2 h]
  · intro h
    simp [stepActive, h]

theorem stepInactive_parked (e : Env) (s : Slot) (k : Nat)
    (h : s.p.active = false → s.p.y = -1000 ∧ s.p.baseScale = 0) :
    (stepInactive e s k).1.p.active = false →
      (stepInactive e s k).1.p.y = -1000 ∧ (stepInactive e s k).1.p.baseScale = 0 := by
  unfold stepInactive
  split
  · exact h
  · split
    · split
      · exact h
      · intro hc
        simp at hc
    · exact h

theorem stepSlot_parked (e : Env) (s : Slot) (k : Nat)
    (h : s.p.active = false → s.p.y = -1000 ∧ s.p.baseScale = 0) :
    (stepSlot e s k).1.p.active = false →
      (stepSlot e s k).1.p.y = -1000 ∧ (stepSlot e s k).1.p.baseScale = 0 := by
  unfold stepSlot
  by_cases ha : s.p.active = true
  · rw [if_pos ha]
    intro hin
    by_cases hy : TANK_BOTTOM_Y + WATER_TOP < s.p.y + s.p.speed * e.dt
    · exact ((stepActive_spec e s).2 hy).2
    · have h1 := ((stepActive_spec e s).1 (not_lt.1 hy)).1
      have h2 : (stepActive e s).p.active = false := hin
      rw [h1, ha] at h2
      cases h2
  · rw [if_neg ha]
    exact stepInactive_parked e s k h

theorem updateSlots_parked (e : Env) :
    ∀ (slots : List Slot) (k : Nat), InactiveParked slots →
      InactiveParked (updateSlots e slots k).1
  | [], _, _ => by
      intro s hs
      simp [updateSlots] at hs
  | s :: rest, k, h => by
      intro t ht
      simp only [updateSlots, List.mem_cons] at ht
      rcases ht with ht | ht
      · subst ht
        exact stepSlot_parked e s k (h s (List.mem_cons_self _ _))
      · exact updateSlots_parked e rest _ (fun u hu => h u (List.mem_cons_of_mem _ hu)) t ht

theorem updateSlots_get (e : Env) :
    ∀ (slots : List Slot) (k i : Nat) (s : Slot), slots[i]? = some s →
      ∃ k1, (updateSlots e slots k).1[i]? = some (stepSlot e s k1).1
  | [], _, _, _, h => by simp at h
  | t :: rest, k, 0, s, h => by
      have hts : t = s := by simpa using h
      subst hts
      exact ⟨k, by simp [updateSlots]⟩
  | t :: rest, k, i + 1, s, h => by
      have h1 : rest[i]? = some s := by simpa using h
      obtain ⟨k1, hk1⟩ := updateSlots_get e rest (stepSlot e t k).2.1 i s h1
      exact ⟨k1, by simpa [updateSlots] using hk1⟩

theorem init_parked (PI : ℚ) (rnd : Nat → Unit01) (count : Nat) :
    InactiveParked (init PI rnd count).slots := by
  intro s hs _
  simp only [init, List.mem_map] at hs
  obtain ⟨i, _, rfl⟩ := hs
  exact ⟨rfl, rfl⟩

theorem step_parked (sys : System) (op : Op) (h : InactiveParked sys.slots) :
    InactiveParked (step sys op).slots := by
  cases op with
  | update e =>
    show InactiveParked (update e sys).slots
    unfold update
    split
    · exact h
    · exact updateSlots_parked e sys.slots 0 h
  | setVisible v => exact h

theorem run_parked : ∀ (ops : List Op) (sys : System), InactiveParked sys.slots →
    InactiveParked (run sys ops).slots
  | [], _, h => h
  | op :: ops, sys, h => by
      have := run_parked ops (step sys op) (step_parked sys op h)
      simpa [run] using this

/-- C18: when `update(dt, time)` runs with the mesh visible, a particle that was active keeps
its place in the list and afterwards is active with `y` advanced by `speed * dt` if that new
height is at most `TANK_BOTTOM_Y + WATER_TOP`, and otherwise is inactive with `y = -1000` and
`baseScale = 0`.  Consequently, in every state reached from the constructor by updates and
visibility switches, every inactive particle has `y = -1000` and `baseScale = 0`. -/
theorem bubble_death_at_surface (e : Env) (sys : System) (i : Nat) (s : Slot)
    (hvis : sys.visible = true) (hs : sys.slots[i]? = some s) (hact : s.p.active = true) :
    (∃ s1, (update e sys).slots[i]? = some s1 ∧
      (s.p.y + s.p.speed * e.dt ≤ TANK_BOTTOM_Y + WATER_TOP →
        s1.p.active = true ∧ s1.p.y = s.p.y + s.p.speed * e.dt) ∧
      (TANK_BOTTOM_Y + WATER_TOP < s.p.y + s.p.speed * e.dt →
        s1.p.active = false ∧ s1.p.y = -1000 ∧ s1.p.baseScale = 0)) ∧
    (∀ (PI : ℚ) (rnd : Nat → Unit01) (count : Nat) (ops : List Op),
      ∀ t ∈ (run (init PI rnd count) ops).slots,
        t.p.active = false → t.p.y = -1000 ∧ t.p.baseScale = 0) := by
  constructor
  · obtain ⟨k1, hk1⟩ := updateSlots_get e sys.slots 0 i s hs
    have hstep : (stepSlot e s k1).1 = stepActive e s := by
      simp [stepSlot, hact]
    refine ⟨stepActive e s, ?_, ?_, (stepActive_spec e s).2⟩
    · simp only [update, hvis, Bool.not_true, Bool.false_eq_true, if_false]
      rw [hk1, hstep]
    · intro h
      have h1 := (stepActive_spec e s).1 h
      exact ⟨h1.1.trans hact, h1.2⟩
  · intro PI rnd count ops
    exact run_parked ops _ (init_parked PI rnd count)

/-- C18 at a concrete input: a bubble 0.1 below the surface with speed 1 dies in a frame of
`dt = 1`. -/
theorem bubble_death_at_surface_witness :
    ∃ s1 : Slot, (update (exampleEnv 1) ⟨true, [exampleBubble], false⟩).slots[0]? = some s1 ∧
      s1.p.active = false ∧ s1.p.y = -1000 ∧ s1.p.baseScale = 0 := by
  obtain ⟨⟨s1, h1, _, h3⟩, _⟩ := bubble_death_at_surface (exampleEnv 1)
    ⟨true, [exampleBubble], false⟩ 0 exampleBubble rfl rfl rfl
  refine ⟨s1, h1, h3 ?_⟩
  simp only [exampleBubble, exampleEnv]
  linarith

end Bubbles
